import Mathlib

/-!
# Credit lifecycle engine of the banking back office

A shallow embedding of the credit core (`core/domain/credit.go`,
`core/services/credit_service.go`, `core/services/scheduler.go`, the
repositories under `core/dbaccess`) and of the card numbers
(`core/domain/card.go`, `core/security/utils.go`), and theorems about them.

Conventions of the embedding

* Go `float64` money values are read twice.  In the records that the stores
  and the services carry they are rationals (`ℚ`): every arithmetic step is
  the exact one, so statements about those amounts are statements in exact
  arithmetic.  In `Credit64`, `PaymentSchedule64` and the functions over them
  they are `float64` values, every operation rounded to the nearest
  representable number, NaN and the infinities included.
* Go `uint` identifiers are `Nat`, Go `int` values are `Int`.
* A Go string whose bytes matter (a card number) is the list of its bytes.
* Go string-typed enumerations (`CreditStatus`, `TransactionType`, ...) are
  strings, with the source's constants.
* `error` values are their messages; a function returning `error` returns
  `Except String Unit`.
* The relational store is a record of tables (lists of rows).  Every
  repository call is one database round trip whose outcome (works / fails
  with `ErrDatabaseError`) is read from a script carried next to the store.
-/

/-! ## Calendar time (`time.Time`)

A civil date and clock reading in one fixed location without daylight
saving.  `Date` normalises the way `time.Date` does: months outside 1..12
carry into the year, days outside the month carry into the neighbouring
months. -/

namespace time

structure Time where
  year : Int
  month : Int
  day : Int
  /-- Nanoseconds since midnight. -/
  nsec : Int
deriving DecidableEq, Repr

def isLeap (y : Int) : Bool :=
  y % 4 = 0 && (y % 100 != 0 || y % 400 = 0)

def daysIn (y m : Int) : Int :=
  if m = 2 then (if isLeap y then 29 else 28)
  else if m = 4 ∨ m = 6 ∨ m = 9 ∨ m = 11 then 30
  else 31

/-- Carries a day outside its month into the neighbouring months, one month
per step. -/
def normDay : Nat → Int → Int → Int → Int → Time
  | 0, y, m, d, ns => ⟨y, m, d, ns⟩
  | fuel + 1, y, m, d, ns =>
    if d < 1 then
      let y1 := if m = 1 then y - 1 else y
      let m1 := if m = 1 then 12 else m - 1
      normDay fuel y1 m1 (d + daysIn y1 m1) ns
    else if d > daysIn y m then
      let y1 := if m = 12 then y + 1 else y
      let m1 := if m = 12 then 1 else m + 1
      normDay fuel y1 m1 (d - daysIn y m) ns
    else ⟨y, m, d, ns⟩

/-- The constructor `time.Date(year, month, day, ...)` with the clock reading
given in nanoseconds since midnight. -/
def Date (y m d ns : Int) : Time :=
  normDay (d.natAbs / 28 + 2) (y + (m - 1) / 12) ((m - 1) % 12 + 1) d ns

/-- The zero value `time.Time{}`: January 1, year 1, 00:00:00. -/
def zero : Time := ⟨1, 1, 1, 0⟩

def Time.IsZero (t : Time) : Bool := decide (t = zero)

def Time.Year (t : Time) : Int := t.year
def Time.Month (t : Time) : Int := t.month
def Time.Day (t : Time) : Int := t.day

def Time.AddDate (t : Time) (years months days : Int) : Time :=
  Date (t.year + years) (t.month + months) (t.day + days) t.nsec

def Time.Before (t u : Time) : Bool :=
  decide (t.year < u.year ∨ (t.year = u.year ∧ (t.month < u.month ∨ (t.month = u.month ∧
    (t.day < u.day ∨ (t.day = u.day ∧ t.nsec < u.nsec))))))

def Time.After (t u : Time) : Bool := u.Before t

end time

/-! ## `float64`

The amounts of the source are `float64`.  Next to their reading as exact
rationals, the arithmetic of `float64` itself: every operation returns the
representable number nearest to the exact result, ties to the even mantissa
(IEEE 754 binary64, one rounding per operation, no fused operations). -/

/-- A `float64` value: a finite number `m * 2 ^ e` in canonical form (`m` odd,
or `m = 0` and `e = 0`), an infinity, or NaN.  The sign of a zero is not
kept. -/
inductive float64 where
  | fin (m : Int) (e : Int)
  | inf (negative : Bool)
  | nan
deriving DecidableEq

namespace float64

/-- The number of binary digits of `n`; the first argument bounds the
count. -/
def bitLength : Nat → Nat → Nat
  | 0, _ => 0
  | fuel + 1, n => if n = 0 then 0 else bitLength fuel (n / 2) + 1

/-- The canonical form of `m * 2 ^ e`: the factors 2 of `m` go to the
exponent; the first argument bounds their number. -/
def canonical : Nat → Int → Int → float64
  | 0, m, e => fin m e
  | fuel + 1, m, e =>
    if m = 0 then fin 0 0
    else if m % 2 = 0 then canonical fuel (m / 2) (e + 1)
    else fin m e

/-- The `float64` nearest to the rational `num / den` (`den > 0`), ties to
the even mantissa: 53 binary digits, least exponent -1074, overflow to an
infinity from `2 ^ 1024` on. -/
def round (num : Int) (den : Nat) : float64 :=
  if num = 0 then fin 0 0
  else
    let a := num.natAbs
    let l : Int := (bitLength 4096 a : Int) - (bitLength 4096 den : Int)
    let low : Bool :=
      if 0 ≤ l then decide (a < den * 2 ^ l.toNat) else decide (a * 2 ^ (-l).toNat < den)
    let exponent : Int := max ((if low then l - 1 else l) - 52) (-1074)
    let n := if 0 ≤ exponent then a else a * 2 ^ (-exponent).toNat
    let d := if 0 ≤ exponent then den * 2 ^ exponent.toNat else den
    let q := n / d
    let r := n % d
    let m := if d < 2 * r then q + 1 else if 2 * r < d then q else if q % 2 = 0 then q else q + 1
    if 971 ≤ exponent ∧ 2 ^ (1024 - exponent).toNat ≤ m then inf (decide (num < 0))
    else canonical 64 (if num < 0 then -(m : Int) else m) exponent

/-- The numerator of the finite value `m * 2 ^ e` over `denominator e`. -/
def numerator (m e : Int) : Int := if 0 ≤ e then m * 2 ^ e.toNat else m

def denominator (e : Int) : Nat := if 0 ≤ e then 1 else 2 ^ (-e).toNat

/-- The conversion `float64(n)` of an `int`. -/
def ofInt (n : Int) : float64 := round n 1

def neg : float64 → float64
  | fin m e => fin (-m) e
  | inf negative => inf (!negative)
  | nan => nan

def add : float64 → float64 → float64
  | nan, _ => nan
  | _, nan => nan
  | inf s, inf t => if s = t then inf s else nan
  | inf s, fin _ _ => inf s
  | fin _ _, inf t => inf t
  | fin m1 e1, fin m2 e2 =>
    round (numerator m1 e1 * denominator e2 + numerator m2 e2 * denominator e1)
      (denominator e1 * denominator e2)

def sub (x y : float64) : float64 := add x (neg y)

def mul : float64 → float64 → float64
  | nan, _ => nan
  | _, nan => nan
  | inf s, inf t => inf (s != t)
  | inf s, fin m _ => if m = 0 then nan else inf (s != decide (m < 0))
  | fin m _, inf t => if m = 0 then nan else inf (decide (m < 0) != t)
  | fin m1 e1, fin m2 e2 =>
    round (numerator m1 e1 * numerator m2 e2) (denominator e1 * denominator e2)

def div : float64 → float64 → float64
  | nan, _ => nan
  | _, nan => nan
  | inf _, inf _ => nan
  | inf s, fin m _ => inf (s != decide (m < 0))
  | fin _ _, inf _ => fin 0 0
  | fin m1 e1, fin m2 e2 =>
    if m2 = 0 then (if m1 = 0 then nan else inf (decide (m1 < 0)))
    else
      round ((if m2 < 0 then -1 else 1) * (numerator m1 e1 * denominator e2))
        (denominator e1 * (numerator m2 e2).natAbs)

/-- The comparison `x < y`; false when an operand is NaN. -/
def lt : float64 → float64 → Bool
  | nan, _ => false
  | _, nan => false
  | inf s, inf t => s && !t
  | inf s, fin _ _ => s
  | fin _ _, inf t => !t
  | fin m1 e1, fin m2 e2 =>
    decide (numerator m1 e1 * denominator e2 < numerator m2 e2 * denominator e1)

/-- The comparison `x <= y`; false when an operand is NaN. -/
def le : float64 → float64 → Bool
  | nan, _ => false
  | _, nan => false
  | inf s, inf t => s || !t
  | inf s, fin _ _ => s
  | fin _ _, inf t => !t
  | fin m1 e1, fin m2 e2 =>
    decide (numerator m1 e1 * denominator e2 ≤ numerator m2 e2 * denominator e1)

instance : Add float64 := ⟨add⟩

instance : Sub float64 := ⟨sub⟩

instance : Mul float64 := ⟨mul⟩

instance : Div float64 := ⟨div⟩

instance (n : Nat) : OfNat float64 n := ⟨ofInt n⟩

end float64

namespace domain

open time (Time)

/-! ## `core/domain/credit.go` -/

abbrev CreditStatus := String

def CreditStatusPending : CreditStatus := "PENDING"
def CreditStatusActive : CreditStatus := "ACTIVE"
def CreditStatusPaid : CreditStatus := "PAID"
def CreditStatusOverdue : CreditStatus := "OVERDUE"
def CreditStatusCancelled : CreditStatus := "CANCELLED"

abbrev PaymentStatus := String

def PaymentStatusPending : PaymentStatus := "pending"
def PaymentStatusPaid : PaymentStatus := "paid"
def PaymentStatusOverdue : PaymentStatus := "overdue"

/-- The helper `pow(x, n float64)`.  Its only caller passes `float64(c.Term)`,
an integer-valued float, on which `int(n)%2`, `n/2` and `(n-1)/2` are exact;
the exponent is therefore an integer here. -/
def pow (x : ℚ) (n : ℤ) : ℚ :=
  if n = 0 then 1
  else if n < 0 then 1 / pow x (-n)
  else if n % 2 = 0 then pow (x * x) (n / 2)
  else x * pow (x * x) ((n - 1) / 2)
termination_by (if n < 0 then (-n).toNat + 1 else n.toNat)
decreasing_by
  all_goals simp_wf
  all_goals split_ifs <;> omega

/-- A row of the `credits` table.  Of the embedded `gorm.Model` the primary
key `ID` and the column `CreatedAt` are kept; a record built without
`CreatedAt` has the zero time there, as a Go struct literal has. -/
structure Credit where
  ID : Nat
  AccountID : Nat
  UserID : Nat
  Amount : ℚ
  Term : Int
  InterestRate : ℚ
  Status : CreditStatus
  StartDate : Time
  EndDate : Time
  PaymentDay : Int
  NextPayment : Time
  TotalPaid : ℚ
  RemainingDebt : ℚ
  OverdueAmount : ℚ
  LastPayment : Time
  CreatedAt : Time := time.zero
deriving DecidableEq

def ErrInvalidCreditAmount : String := "invalid credit amount"
def ErrInvalidTerm : String := "invalid credit term"
def ErrInvalidInterestRate : String := "invalid interest rate"
def ErrInvalidPaymentDay : String := "invalid payment day"
def ErrCreditNotActive : String := "credit is not active"
def ErrInvalidPaymentAmount : String := "invalid payment amount"

def Credit.ValidateAmount (c : Credit) : Except String Unit :=
  if c.Amount ≤ 0 then .error ErrInvalidCreditAmount else .ok ()

def Credit.ValidateTerm (c : Credit) : Except String Unit :=
  if c.Term ≤ 0 ∨ c.Term > 360 then .error ErrInvalidTerm else .ok ()

def Credit.ValidateInterestRate (c : Credit) : Except String Unit :=
  if c.InterestRate ≤ 0 ∨ c.InterestRate > 100 then .error ErrInvalidInterestRate else .ok ()

def Credit.ValidatePaymentDay (c : Credit) : Except String Unit :=
  if c.PaymentDay < 1 ∨ c.PaymentDay > 31 then .error ErrInvalidPaymentDay else .ok ()

def Credit.ValidateStatus (c : Credit) : Except String Unit :=
  if c.Status = CreditStatusPending ∨ c.Status = CreditStatusActive ∨ c.Status = CreditStatusPaid
      ∨ c.Status = CreditStatusOverdue ∨ c.Status = CreditStatusCancelled then .ok ()
  else .error "invalid credit status"

def Credit.Validate (c : Credit) : Except String Unit :=
  match c.ValidateAmount with
  | .error e => .error e
  | .ok _ =>
  match c.ValidateTerm with
  | .error e => .error e
  | .ok _ =>
  match c.ValidateInterestRate with
  | .error e => .error e
  | .ok _ =>
  match c.ValidatePaymentDay with
  | .error e => .error e
  | .ok _ =>
  match c.ValidateStatus with
  | .error e => .error e
  | .ok _ => .ok ()

def Credit.CalculateMonthlyPayment (c : Credit) : ℚ :=
  let monthlyRate := c.InterestRate / 12 / 100
  let denominator := 1 - 1 / pow (1 + monthlyRate) c.Term
  c.Amount * monthlyRate / denominator

/-- The local `denominator` of `CalculateMonthlyPayment`, by which the method
divides. -/
def Credit.paymentDenominator (c : Credit) : ℚ :=
  1 - 1 / pow (1 + c.InterestRate / 12 / 100) c.Term

def Credit.CalculateTotalAmount (c : Credit) : ℚ :=
  c.CalculateMonthlyPayment * c.Term

def Credit.CalculateRemainingDebt (c : Credit) : ℚ :=
  c.CalculateTotalAmount - c.TotalPaid

/-- The method `IsOverdue`; `now` is the reading of `time.Now()`. -/
def Credit.IsOverdue (c : Credit) (now : Time) : Bool :=
  c.Status = CreditStatusActive && now.After c.NextPayment

def Credit.UpdateStatus (c : Credit) (now : Time) : Credit :=
  if c.Status = CreditStatusActive then
    if c.IsOverdue now then { c with Status := CreditStatusOverdue }
    else if c.RemainingDebt ≤ 0 then { c with Status := CreditStatusPaid }
    else c
  else c

def Credit.CalculateNextPaymentDate (c : Credit) : Time :=
  let next := c.LastPayment.AddDate 0 1 0
  if c.PaymentDay > 28 then
    let lastDay := (time.Date next.Year (next.Month + 1) 0 0).Day
    if c.PaymentDay > lastDay then time.Date next.Year next.Month lastDay 0
    else time.Date next.Year next.Month c.PaymentDay 0
  else time.Date next.Year next.Month c.PaymentDay 0

/-- The method `MakePayment`; `now` is the reading of `time.Now()` stored in
`LastPayment`, `now2` the later reading made by `UpdateStatus`.  The credit
after the call is returned next to the error. -/
def Credit.MakePayment (c : Credit) (now now2 : Time) (amount : ℚ) :
    Except String Unit × Credit :=
  if c.Status ≠ CreditStatusActive ∧ c.Status ≠ CreditStatusOverdue then (.error ErrCreditNotActive, c)
  else if amount ≤ 0 then (.error ErrInvalidPaymentAmount, c)
  else
    let c1 := { c with TotalPaid := c.TotalPaid + amount }
    let c2 := { c1 with RemainingDebt := c1.CalculateRemainingDebt }
    let c3 := { c2 with LastPayment := now }
    let c4 := { c3 with NextPayment := c3.CalculateNextPaymentDate }
    (.ok (), c4.UpdateStatus now2)

/-- One projected installment (`PaymentSchedule`). -/
structure PaymentSchedule where
  ID : Nat
  CreditID : Nat
  PaymentNumber : Int
  DueDate : Time
  Amount : ℚ
  Interest : ℚ
  Principal : ℚ
  TotalAmount : ℚ
  Status : PaymentStatus
  PaidAt : Option Time
  Credit : Credit
deriving DecidableEq

/-! ## `core/domain/account.go`, `core/domain/transaction.go` -/

def ErrInvalidBalance : String := "invalid balance amount"
def ErrInvalidAmount : String := "invalid transaction amount"
def ErrInvalidType : String := "invalid transaction type"
def ErrInvalidStatus : String := "invalid transaction status"

/-- A row of the `accounts` table: primary key, owner and balance. -/
structure Account where
  ID : Nat
  UserID : Nat
  Balance : ℚ
deriving DecidableEq

def Account.ValidateBalance (a : Account) : Except String Unit :=
  if a.Balance < 0 then .error ErrInvalidBalance else .ok ()

def Account.Validate (a : Account) : Except String Unit :=
  match a.ValidateBalance with
  | .error e => .error e
  | .ok _ => .ok ()

abbrev TransactionType := String

def TransactionTypeTransfer : TransactionType := "TRANSFER"
def TransactionTypeDeposit : TransactionType := "DEPOSIT"
def TransactionTypeWithdrawal : TransactionType := "WITHDRAWAL"
def TransactionTypePayment : TransactionType := "PAYMENT"
def TransactionTypeCredit : TransactionType := "CREDIT"

abbrev TransactionStatus := String

def TransactionStatusPending : TransactionStatus := "PENDING"
def TransactionStatusCompleted : TransactionStatus := "COMPLETED"
def TransactionStatusFailed : TransactionStatus := "FAILED"
def TransactionStatusCancelled : TransactionStatus := "CANCELLED"

/-- A row of the `transactions` table; the Go field `Type` is `TxType`. -/
structure Transaction where
  ID : Nat
  TxType : TransactionType
  Status : TransactionStatus
  Amount : ℚ
  FromAccountID : Nat
  ToAccountID : Nat
  Description : String
deriving DecidableEq

def Transaction.ValidateType (t : Transaction) : Except String Unit :=
  if t.TxType = TransactionTypeTransfer ∨ t.TxType = TransactionTypeDeposit
      ∨ t.TxType = TransactionTypeWithdrawal ∨ t.TxType = TransactionTypePayment
      ∨ t.TxType = TransactionTypeCredit then .ok ()
  else .error ErrInvalidType

def Transaction.ValidateStatus (t : Transaction) : Except String Unit :=
  if t.Status = TransactionStatusPending ∨ t.Status = TransactionStatusCompleted
      ∨ t.Status = TransactionStatusFailed ∨ t.Status = TransactionStatusCancelled then .ok ()
  else .error ErrInvalidStatus

def Transaction.ValidateAmount (t : Transaction) : Except String Unit :=
  if t.Amount ≤ 0 then .error ErrInvalidAmount else .ok ()

def Transaction.ValidateAccounts (t : Transaction) : Except String Unit :=
  if t.TxType = TransactionTypeTransfer then
    if t.FromAccountID = 0 ∨ t.ToAccountID = 0 then
      .error "both accounts are required for transfer"
    else if t.FromAccountID = t.ToAccountID then .error "cannot transfer to the same account"
    else .ok ()
  else if t.TxType = TransactionTypeDeposit then
    if t.ToAccountID = 0 then .error "destination account is required for deposit" else .ok ()
  else if t.TxType = TransactionTypeWithdrawal then
    if t.FromAccountID = 0 then .error "source account is required for withdrawal" else .ok ()
  else .ok ()

def Transaction.Validate (t : Transaction) : Except String Unit :=
  match t.ValidateType with
  | .error e => .error e
  | .ok _ =>
  match t.ValidateStatus with
  | .error e => .error e
  | .ok _ =>
  match t.ValidateAmount with
  | .error e => .error e
  | .ok _ =>
  match t.ValidateAccounts with
  | .error e => .error e
  | .ok _ => .ok ()

/-! ## `core/domain/user.go` -/

/-- A row of the `users` table: primary key and e-mail address. -/
structure User where
  ID : Nat
  Email : String
deriving DecidableEq

/-! ## `core/domain/credit.go` in `float64` -/

/-- The helper `pow(x, n float64)` in `float64`, for an integer-valued `n`;
the first argument bounds the depth of the recursion. -/
def pow64.go : Nat → float64 → Int → float64
  | 0, _, _ => float64.nan
  | fuel + 1, x, n =>
    if n = 0 then 1
    else if n < 0 then 1 / pow64.go fuel x (-n)
    else if n % 2 = 0 then pow64.go fuel (x * x) (n / 2)
    else x * pow64.go fuel (x * x) ((n - 1) / 2)

/-- The helper `pow` in `float64`: the exponent is halved at every call but
the first on a negative one, so `|n| + 2` calls reach the exponent 0. -/
def pow64 (x : float64) (n : Int) : float64 := pow64.go (n.natAbs + 2) x n

/-- The fields of `Credit` that `Validate` and the amount methods read, the
amounts as `float64`. -/
structure Credit64 where
  Amount : float64
  Term : Int
  InterestRate : float64
  Status : CreditStatus
  PaymentDay : Int
  TotalPaid : float64
  RemainingDebt : float64
deriving DecidableEq

def Credit64.ValidateAmount (c : Credit64) : Except String Unit :=
  if float64.le c.Amount 0 then .error ErrInvalidCreditAmount else .ok ()

def Credit64.ValidateTerm (c : Credit64) : Except String Unit :=
  if c.Term ≤ 0 ∨ c.Term > 360 then .error ErrInvalidTerm else .ok ()

def Credit64.ValidateInterestRate (c : Credit64) : Except String Unit :=
  if float64.le c.InterestRate 0 || float64.lt 100 c.InterestRate then
    .error ErrInvalidInterestRate
  else .ok ()

def Credit64.ValidatePaymentDay (c : Credit64) : Except String Unit :=
  if c.PaymentDay < 1 ∨ c.PaymentDay > 31 then .error ErrInvalidPaymentDay else .ok ()

def Credit64.ValidateStatus (c : Credit64) : Except String Unit :=
  if c.Status = CreditStatusPending ∨ c.Status = CreditStatusActive
      ∨ c.Status = CreditStatusPaid ∨ c.Status = CreditStatusOverdue
      ∨ c.Status = CreditStatusCancelled then .ok ()
  else .error "invalid credit status"

/-- The method `Validate` over `float64` amounts. -/
def Credit64.Validate (c : Credit64) : Except String Unit :=
  match c.ValidateAmount with
  | .error e => .error e
  | .ok _ =>
  match c.ValidateTerm with
  | .error e => .error e
  | .ok _ =>
  match c.ValidateInterestRate with
  | .error e => .error e
  | .ok _ =>
  match c.ValidatePaymentDay with
  | .error e => .error e
  | .ok _ =>
  match c.ValidateStatus with
  | .error e => .error e
  | .ok _ => .ok ()

/-- The method `CalculateMonthlyPayment` in `float64`. -/
def Credit64.CalculateMonthlyPayment (c : Credit64) : float64 :=
  let monthlyRate := c.InterestRate / 12 / 100
  let denominator := 1 - 1 / pow64 (1 + monthlyRate) c.Term
  c.Amount * monthlyRate / denominator

def Credit64.CalculateTotalAmount (c : Credit64) : float64 :=
  c.CalculateMonthlyPayment * float64.ofInt c.Term

def Credit64.CalculateRemainingDebt (c : Credit64) : float64 :=
  c.CalculateTotalAmount - c.TotalPaid

/-- The amounts of one projected installment, as `float64`. -/
structure PaymentSchedule64 where
  PaymentNumber : Int
  Amount : float64
  Interest : float64
  Principal : float64
  TotalAmount : float64
deriving DecidableEq

/-! ## `core/domain/card.go` -/

def ErrInvalidCardNumber : String := "invalid card number"

/-- A Go string whose bytes matter: the list of its bytes, each below 256. -/
abbrev Bytes := List Nat

/-- The bytes `'0'` to `'9'`. -/
def isDigitByte (b : Nat) : Bool := 48 ≤ b && b ≤ 57

/-- A bank card; of its fields the number and the keys are kept. -/
structure Card where
  ID : Nat
  Number : Bytes
  UserID : Nat
  AccountID : Nat
deriving DecidableEq

/-- The Luhn loop of `ValidateNumber`, over the bytes from the last to the
first: `digit := int(c.Number[i] - '0')` is a byte subtraction, hence modulo
256. -/
def Card.ValidateNumber.loop : List Nat → Int → Bool → Int
  | [], sum, _ => sum
  | b :: rest, sum, alternate =>
    let digit : Int := ((b + 256 - 48) % 256 : Nat)
    let digit1 :=
      if alternate then
        let doubled := digit * 2
        if doubled > 9 then doubled % 10 + 1 else doubled
      else digit
    Card.ValidateNumber.loop rest (sum + digit1) (!alternate)

/-- The method `ValidateNumber`: the pattern `^\d{16}$` (sixteen bytes, all
of them digits), then the Luhn sum. -/
def Card.ValidateNumber (c : Card) : Except String Unit :=
  if ¬ (c.Number.length = 16 ∧ c.Number.all isDigitByte = true) then .error ErrInvalidCardNumber
  else
    let sum := Card.ValidateNumber.loop c.Number.reverse 0 false
    if sum % 10 ≠ 0 then .error ErrInvalidCardNumber else .ok ()

end domain

/-! ## The two `fmt` calls of the payment path

`fmt.Sprintf("Платеж по кредиту #%d, платеж #%d", credit.ID, paymentNumber)`
writes the description of a payment transaction and
`fmt.Sscanf(t.Description, "Платеж по кредиту #%d, платеж #%d", &creditID, &paidPaymentNumber)`
reads it back.  The scanner stores each operand as soon as it is scanned, so
an operand scanned before a later mismatch keeps its new value. -/

namespace fmt

/-- The verb `%d` applied to a `uint`. -/
def formatUint (n : Nat) : String := Nat.repr n

/-- The verb `%d` applied to an `int`. -/
def formatInt (i : Int) : String :=
  if i < 0 then "-" ++ Nat.repr (-i).toNat else Nat.repr i.toNat

/-- The white space table of the scanner. -/
def isSpace (c : Char) : Bool :=
  let n := c.toNat
  (0x09 ≤ n && n ≤ 0x0d) || n = 0x20 || n = 0x85 || n = 0xa0 || n = 0x1680
    || (0x2000 ≤ n && n ≤ 0x200a) || n = 0x2028 || n = 0x2029 || n = 0x202f
    || n = 0x205f || n = 0x3000

def isDecimalDigit (c : Char) : Bool := 48 ≤ c.toNat && c.toNat ≤ 57

/-- The scanner method `SkipSpace` of `Sscanf` (newlines are not spaces):
the input after the skipped spaces, or `none` for "unexpected newline". -/
def SkipSpace : List Char → Option (List Char)
  | [] => some []
  | c :: cs =>
    if c = '\r' ∧ cs.head? = some '\n' then SkipSpace cs
    else if c = '\n' then none
    else if isSpace c then SkipSpace cs
    else some (c :: cs)

/-- Input spaces other than newline are skipped. -/
def skipBlanks : List Char → List Char
  | [] => []
  | c :: cs => if isSpace c ∧ c ≠ '\n' then skipBlanks cs else c :: cs

/-- The scanner method `advance` on a piece of format without verb and
without newline: a run of spaces in the format matches one or more input
spaces or the end of the input, any other character matches itself.  The flag
tells that the previous format character was a space of the current run.
`none` is a mismatch or an unexpected end of input. -/
def advance : Bool → List Char → List Char → Option (List Char)
  | _, [], inp => some inp
  | inRun, f :: fs, inp =>
    if isSpace f then
      if inRun then advance true fs inp
      else
        match inp with
        | [] => advance true fs []
        | c :: cs =>
          if isSpace c ∧ c ≠ '\n' then advance true fs (skipBlanks cs) else none
    else
      match inp with
      | [] => none
      | c :: cs => if f = c then advance false fs cs else none

/-- The value of a string of decimal digits. -/
def digitsValue (tok : List Char) : Nat :=
  tok.foldl (fun a c => 10 * a + (c.toNat - 48)) 0

/-- Scanning `%d` into a `*uint`: spaces are skipped, at least one digit is
required, and the value must fit 64 bits. -/
def scanUint (inp : List Char) : Option (Nat × List Char) :=
  match SkipSpace inp with
  | none => none
  | some inp1 =>
    let tok := inp1.takeWhile isDecimalDigit
    if tok = [] then none
    else if digitsValue tok < 2 ^ 64 then some (digitsValue tok, inp1.dropWhile isDecimalDigit)
    else none

/-- Scanning `%d` into a `*int`: spaces are skipped, one sign is accepted, at
least one digit is required, and the value must fit a signed 64 bit word. -/
def scanInt (inp : List Char) : Option (Int × List Char) :=
  match SkipSpace inp with
  | none => none
  | some inp1 =>
    let neg := inp1.head? = some '-'
    let inp2 := if inp1.head? = some '+' ∨ inp1.head? = some '-' then inp1.tail else inp1
    let tok := inp2.takeWhile isDecimalDigit
    if tok = [] then none
    else
      let v : Int := if neg then -(digitsValue tok : Int) else (digitsValue tok : Int)
      if -(2 ^ 63 : Int) ≤ v ∧ v < 2 ^ 63 then some (v, inp2.dropWhile isDecimalDigit)
      else none

/-- What `Sscanf` leaves behind: the two operands and whether `err != nil`. -/
structure ScanResult where
  creditID : Nat
  paidPaymentNumber : Int
  failed : Bool
deriving DecidableEq

/-- The format of a payment description up to the first verb. -/
def paymentPrefix : String := "Платеж по кредиту #"

/-- The format of a payment description between the two verbs. -/
def paymentInfix : String := ", платеж #"

/-- The description written by
`fmt.Sprintf("Платеж по кредиту #%d, платеж #%d", id, paymentNumber)`. -/
def SprintfPayment (id : Nat) (paymentNumber : Int) : String :=
  paymentPrefix ++ formatUint id ++ paymentInfix ++ formatInt paymentNumber

/-- The call
`fmt.Sscanf(description, "Платеж по кредиту #%d, платеж #%d", &creditID, &paidPaymentNumber)`
with `paidPaymentNumber` freshly declared (zero) and `creditID` holding the
given value before the call. -/
def SscanfPayment (description : String) (creditID : Nat) : ScanResult :=
  match advance false paymentPrefix.toList description.toList with
  | none => ⟨creditID, 0, true⟩
  | some i1 =>
  match scanUint i1 with
  | none => ⟨creditID, 0, true⟩
  | some (id, i2) =>
  match advance false paymentInfix.toList i2 with
  | none => ⟨id, 0, true⟩
  | some i3 =>
  match scanInt i3 with
  | none => ⟨id, 0, true⟩
  | some (n, _) => ⟨id, n, false⟩

end fmt

/-! ## `core/security/utils.go`: card numbers -/

namespace security

open domain

/-- The call `strconv.Atoi(string(number[i]))` on one byte of a string: the
digit for a byte `'0'` to `'9'`, an error for every other byte. -/
def atoiByte (b : Nat) : Option Int :=
  if isDigitByte b then some ((b - 48 : Nat) : Int) else none

/-- The call `strconv.Itoa(n)`, as bytes. -/
def Itoa (n : Int) : Bytes := (fmt.formatInt n).toList.map Char.toNat

/-- The doubling step shared by the two Luhn loops.  Here and in the sums
below every operand of `%` is non-negative, where the remainder of Go and the
one of `Int` agree; the sums stay far below the range of `int`. -/
def luhnDigit (alternate : Bool) (digit : Int) : Int :=
  if alternate then
    let doubled := digit * 2
    if doubled > 9 then doubled % 10 + 1 else doubled
  else digit

/-- The loop of `IsValidCardNumber` over the bytes from the last to the
first: the sum, or `none` when a byte is not a digit (`return false`). -/
def IsValidCardNumber.loop : List Nat → Int → Bool → Option Int
  | [], sum, _ => some sum
  | b :: rest, sum, alternate =>
    match atoiByte b with
    | none => none
    | some digit => IsValidCardNumber.loop rest (sum + luhnDigit alternate digit) (!alternate)

def IsValidCardNumber (number : Bytes) : Bool :=
  match IsValidCardNumber.loop number.reverse 0 false with
  | none => false
  | some sum => sum % 10 = 0

/-- The loop of `calculateLuhnCheckDigit`; the error of `Atoi` is dropped, so
a byte that is not a digit counts as the digit 0. -/
def calculateLuhnCheckDigit.loop : List Nat → Int → Bool → Int
  | [], sum, _ => sum
  | b :: rest, sum, alternate =>
    let digit := (atoiByte b).getD 0
    calculateLuhnCheckDigit.loop rest (sum + luhnDigit alternate digit) (!alternate)

def calculateLuhnCheckDigit (number : Bytes) : Int :=
  let sum := calculateLuhnCheckDigit.loop number.reverse 0 true
  (10 - (sum % 10)) % 10

/-- The call `rand.Intn(n)` on a source of random draws: the value drawn, in
`[0, n)`, and the rest of the source. -/
def Intn (draws : List Nat) (n : Nat) : Nat × List Nat :=
  (draws.headD 0 % n, draws.tail)

/-- The prefixes `GenerateCardNumber` chooses from: "4", "5", "34", "37",
"6". -/
def prefixes : List Bytes := [[52], [53], [51, 52], [51, 55], [54]]

/-- The loop `for cardNumber.Len() < length-1` of `GenerateCardNumber`; the
first argument bounds the number of iterations. -/
def GenerateCardNumber.loop (length : Int) : Nat → List Nat → Bytes → Bytes
  | 0, _, cardNumber => cardNumber
  | fuel + 1, draws, cardNumber =>
    if (cardNumber.length : Int) < length - 1 then
      let (d, draws1) := Intn draws 10
      GenerateCardNumber.loop length fuel draws1 (cardNumber ++ Itoa d)
    else cardNumber

/-- The function `GenerateCardNumber(prefix, length)` over the random draws
`draws`; `pfx` is the argument `prefix`.  The loop appends one byte per
iteration, so `length - 1 - len(prefix)` iterations bring it to its exit. -/
def GenerateCardNumber (draws : List Nat) (pfx : Bytes) (length : Int) : Bytes :=
  let (pfx1, draws1) :=
    if pfx = [] then
      let (i, draws0) := Intn draws prefixes.length
      (prefixes.getD i [], draws0)
    else (pfx, draws)
  let cardNumber :=
    GenerateCardNumber.loop length (length - 1 - pfx1.length).toNat draws1 pfx1
  cardNumber ++ Itoa (calculateLuhnCheckDigit cardNumber)

end security

/-! ## `core/dbaccess`: the store and the repositories -/

namespace dbaccess

open domain

def ErrNotFound : String := "record not found"
def ErrAlreadyExists : String := "record already exists"
def ErrInvalidData : String := "invalid data"
def ErrDatabaseError : String := "dbcore error"

/-- The tables the credit engine and the scheduler read and write;
`schedules` is the table `payment_schedules`. -/
structure Store where
  credits : List Credit := []
  accounts : List Account := []
  transactions : List Transaction := []
  schedules : List PaymentSchedule := []
  users : List User := []
deriving DecidableEq

/-- The database handle: the store, and the outcomes of the coming round
trips (`true`: the round trip fails).  Past the end of the script every round
trip works. -/
structure DB where
  store : Store
  script : List Bool := []
deriving DecidableEq

/-- One round trip: whether it fails, and the handle afterwards. -/
def DB.roundTrip (db : DB) : Bool × DB :=
  match db.script with
  | [] => (false, db)
  | b :: rest => (b, { db with script := rest })

/-- No coming round trip fails. -/
def DB.quiet (db : DB) : Prop := ∀ b ∈ db.script, b = false

instance (db : DB) : Decidable db.quiet := by
  unfold DB.quiet
  infer_instance

/-- The key given to a newly inserted row: one more than the largest key. -/
def nextID (ids : List Nat) : Nat := ids.foldl max 0 + 1

namespace creditRepository

/-- The method `GetByID` (`First(&credit, id)`). -/
def GetByID (db : DB) (id : Nat) : Except String Credit × DB :=
  let (fails, db1) := db.roundTrip
  if fails then (.error ErrDatabaseError, db1)
  else
    match db1.store.credits.find? (fun c => c.ID = id) with
    | none => (.error ErrNotFound, db1)
    | some c => (.ok c, db1)

/-- The statement `tx.Save(credit)` for a row that carries its key (every
row the engine saves was read from the table): the row replaces the stored
row of that key, or is inserted when there is none. -/
def save (cs : List Credit) (c : Credit) : List Credit :=
  if cs.any (fun x => x.ID = c.ID) then cs.map (fun x => if x.ID = c.ID then c else x)
  else cs ++ [c]

/-- The method `Update`: validation, then `Save`, in one database
transaction; a failed round trip leaves the store as it was. -/
def Update (db : DB) (credit : Credit) : Except String Unit × DB :=
  let (fails, db1) := db.roundTrip
  if fails then (.error ErrDatabaseError, db1)
  else
    match credit.Validate with
    | .error _ => (.error ErrInvalidData, db1)
    | .ok _ =>
      (.ok (), { db1 with store := { db1.store with credits := save db1.store.credits credit } })

/-- The method `Create`: validation, then insertion under a new key; the
credit is returned with the key the table gave it.  `tx.Create` fills the
column `CreatedAt` of a record that has the zero time there with the reading
`now` of the clock. -/
def Create (db : DB) (now : time.Time) (credit : Credit) : Except String Credit × DB :=
  let (fails, db1) := db.roundTrip
  if fails then (.error ErrDatabaseError, db1)
  else
    match credit.Validate with
    | .error _ => (.error ErrInvalidData, db1)
    | .ok _ =>
      let stored := { credit with
        ID := nextID (db1.store.credits.map (fun c => c.ID))
        CreatedAt := if credit.CreatedAt.IsZero then now else credit.CreatedAt }
      (.ok stored, { db1 with store := { db1.store with credits := db1.store.credits ++ [stored] } })

/-- The method `GetActiveCredits`: `status = ACTIVE`. -/
def GetActiveCredits (db : DB) : Except String (List Credit) × DB :=
  let (fails, db1) := db.roundTrip
  if fails then (.error ErrDatabaseError, db1)
  else (.ok (db1.store.credits.filter (fun c => c.Status = CreditStatusActive)), db1)

/-- The method `GetCreditsByDateRange`:
`created_at BETWEEN startDate AND endDate`, bounds included. -/
def GetCreditsByDateRange (db : DB) (startDate endDate : time.Time) :
    Except String (List Credit) × DB :=
  let (fails, db1) := db.roundTrip
  if fails then (.error ErrDatabaseError, db1)
  else
    (.ok (db1.store.credits.filter
      (fun c => !c.CreatedAt.Before startDate && !endDate.Before c.CreatedAt)), db1)

/-- The method `GetPaymentSchedule`: the stored schedule rows with
`credit_id = creditID`. -/
def GetPaymentSchedule (db : DB) (creditID : Nat) : Except String (List PaymentSchedule) × DB :=
  let (fails, db1) := db.roundTrip
  if fails then (.error ErrDatabaseError, db1)
  else (.ok (db1.store.schedules.filter (fun p => p.CreditID = creditID)), db1)

/-- The statement `tx.Save(payment)` on the schedule table. -/
def saveSchedule (ps : List PaymentSchedule) (p : PaymentSchedule) : List PaymentSchedule :=
  if ps.any (fun x => x.ID = p.ID) then ps.map (fun x => if x.ID = p.ID then p else x)
  else ps ++ [p]

/-- The method `UpdatePaymentSchedule`: `Save`, without validation. -/
def UpdatePaymentSchedule (db : DB) (payment : PaymentSchedule) : Except String Unit × DB :=
  let (fails, db1) := db.roundTrip
  if fails then (.error ErrDatabaseError, db1)
  else
    (.ok (), { db1 with store := { db1.store with
      schedules := saveSchedule db1.store.schedules payment } })

/-- The method `GetOverdueCredits`: `status = ACTIVE AND next_payment < now`. -/
def GetOverdueCredits (db : DB) (now : time.Time) : Except String (List Credit) × DB :=
  let (fails, db1) := db.roundTrip
  if fails then (.error ErrDatabaseError, db1)
  else
    (.ok (db1.store.credits.filter
      (fun c => c.Status = CreditStatusActive && c.NextPayment.Before now)), db1)

end creditRepository

namespace accountRepository

def GetByID (db : DB) (id : Nat) : Except String Account × DB :=
  let (fails, db1) := db.roundTrip
  if fails then (.error ErrDatabaseError, db1)
  else
    match db1.store.accounts.find? (fun a => a.ID = id) with
    | none => (.error ErrNotFound, db1)
    | some a => (.ok a, db1)

/-- The statement `tx.Save(account)`, as for credits. -/
def save (as : List Account) (a : Account) : List Account :=
  if as.any (fun x => x.ID = a.ID) then as.map (fun x => if x.ID = a.ID then a else x)
  else as ++ [a]

def Update (db : DB) (account : Account) : Except String Unit × DB :=
  let (fails, db1) := db.roundTrip
  if fails then (.error ErrDatabaseError, db1)
  else
    match account.Validate with
    | .error _ => (.error ErrInvalidData, db1)
    | .ok _ =>
      (.ok (), { db1 with store := { db1.store with accounts := save db1.store.accounts account } })

end accountRepository

namespace transactionRepository

/-- The method `GetByType`: the rows of the given type, in table order. -/
def GetByType (db : DB) (transactionType : TransactionType) :
    Except String (List Transaction) × DB :=
  let (fails, db1) := db.roundTrip
  if fails then (.error ErrDatabaseError, db1)
  else (.ok (db1.store.transactions.filter (fun t => t.TxType = transactionType)), db1)

/-- The method `Create`: validation, then insertion under a new key. -/
def Create (db : DB) (transaction : Transaction) : Except String Unit × DB :=
  let (fails, db1) := db.roundTrip
  if fails then (.error ErrDatabaseError, db1)
  else
    match transaction.Validate with
    | .error _ => (.error ErrInvalidData, db1)
    | .ok _ =>
      (.ok (), { db1 with store := { db1.store with
        transactions := db1.store.transactions ++
          [{ transaction with ID := nextID (db1.store.transactions.map (fun t => t.ID)) }] } })

end transactionRepository

namespace userRepository

def GetByID (db : DB) (id : Nat) : Except String User × DB :=
  let (fails, db1) := db.roundTrip
  if fails then (.error ErrDatabaseError, db1)
  else
    match db1.store.users.find? (fun u => u.ID = id) with
    | none => (.error ErrNotFound, db1)
    | some u => (.ok u, db1)

end userRepository

end dbaccess

/-! ## `core/services/credit_service.go` -/

namespace services

open domain dbaccess

namespace creditService

/-- The loop `for i := 1; i <= credit.Term; i++` of `GetPaymentSchedule`:
the entries still to be produced, from installment `i` on, with the running
`remainingAmount`; the first argument counts the iterations left. -/
def GetPaymentSchedule.loop (credit : Credit) (monthlyRate : ℚ) :
    Nat → Int → ℚ → List PaymentSchedule
  | 0, _, _ => []
  | k + 1, i, remainingAmount =>
    let interestAmount := remainingAmount * monthlyRate
    let principalAmount := credit.CalculateMonthlyPayment - interestAmount
    { ID := 0
      CreditID := credit.ID
      PaymentNumber := i
      DueDate := credit.StartDate.AddDate 0 i 0
      Amount := credit.CalculateMonthlyPayment
      Interest := interestAmount
      Principal := principalAmount
      TotalAmount := credit.CalculateMonthlyPayment
      Status := PaymentStatusPending
      PaidAt := none
      Credit := credit } ::
      GetPaymentSchedule.loop credit monthlyRate k (i + 1) (remainingAmount - principalAmount)

def GetPaymentSchedule (db : DB) (creditID : Nat) : Except String (List PaymentSchedule) × DB :=
  match creditRepository.GetByID db creditID with
  | (.error err, db1) => (.error err, db1)
  | (.ok credit0, db1) =>
    let credit :=
      if credit0.LastPayment.IsZero then { credit0 with LastPayment := credit0.StartDate }
      else credit0
    (.ok (GetPaymentSchedule.loop credit (credit.InterestRate / 12 / 100) credit.Term.toNat 1
      credit.Amount), db1)

/-- The duplicate check of `ProcessPayment`, the loop over the PAYMENT
transactions: `none` when a transaction makes the call return "already
processed", otherwise the value the variable `creditID` holds after the loop
(the scanner writes into it). -/
def ProcessPayment.scan (accountID : Nat) (paymentNumber : Int) :
    List Transaction → Nat → Option Nat
  | [], creditID => some creditID
  | t :: ts, creditID =>
    if t.FromAccountID = accountID ∧ t.Status = TransactionStatusCompleted then
      let r := fmt.SscanfPayment t.Description creditID
      if r.failed = false ∧ r.paidPaymentNumber = paymentNumber then none
      else ProcessPayment.scan accountID paymentNumber ts r.creditID
    else ProcessPayment.scan accountID paymentNumber ts creditID

/-- The method `ProcessPayment`; `now` is the reading of `time.Now()`. -/
def ProcessPayment (db : DB) (now : time.Time) (creditID : Nat) (paymentNumber : Int) :
    Except String Unit × DB :=
  match creditRepository.GetByID db creditID with
  | (.error err, db1) => (.error ("failed to get credit: " ++ err), db1)
  | (.ok credit, db1) =>
  match transactionRepository.GetByType db1 TransactionTypePayment with
  | (.error err, db2) => (.error ("failed to get payment transactions: " ++ err), db2)
  | (.ok transactions, db2) =>
  match ProcessPayment.scan credit.AccountID paymentNumber transactions creditID with
  | none => (.error ("payment #" ++ fmt.formatInt paymentNumber ++ " already processed"), db2)
  | some creditID1 =>
  match GetPaymentSchedule db2 creditID1 with
  | (.error err, db3) => (.error ("failed to get payment schedule: " ++ err), db3)
  | (.ok schedule, db3) =>
  match schedule.find? (fun p => p.PaymentNumber = paymentNumber) with
  | none => (.error "payment not found", db3)
  | some payment =>
  match accountRepository.GetByID db3 credit.AccountID with
  | (.error err, db4) => (.error ("failed to get account: " ++ err), db4)
  | (.ok account, db4) =>
  if account.Balance < payment.TotalAmount then
    let penalty := payment.TotalAmount * (1 / 10)
    let _payment1 := { payment with TotalAmount := payment.TotalAmount + penalty }
    let credit1 := { credit with Status := CreditStatusOverdue }
    match creditRepository.Update db4 credit1 with
    | (.error err, db5) => (.error ("failed to update credit status: " ++ err), db5)
    | (.ok _, db5) => (.error "insufficient funds, penalty applied", db5)
  else
  let account1 := { account with Balance := account.Balance - payment.TotalAmount }
  match accountRepository.Update db4 account1 with
  | (.error err, db5) => (.error ("failed to update account balance: " ++ err), db5)
  | (.ok _, db5) =>
  let transaction : Transaction :=
    { ID := 0
      TxType := TransactionTypePayment
      FromAccountID := credit.AccountID
      ToAccountID := 0
      Amount := payment.TotalAmount
      Description := fmt.SprintfPayment credit.ID paymentNumber
      Status := TransactionStatusCompleted }
  match transactionRepository.Create db5 transaction with
  | (.error err, db6) => (.error ("failed to create transaction: " ++ err), db6)
  | (.ok _, db6) =>
  let _payment1 := { payment with Status := PaymentStatusPaid, PaidAt := some now }
  let credit1 := { credit with TotalPaid := credit.TotalPaid + payment.TotalAmount }
  let credit2 := { credit1 with RemainingDebt := credit1.CalculateRemainingDebt }
  let credit3 := { credit2 with LastPayment := now }
  let credit4 := { credit3 with NextPayment := credit3.CalculateNextPaymentDate }
  let credit5 :=
    if paymentNumber = credit.Term then { credit4 with Status := CreditStatusPaid } else credit4
  match creditRepository.Update db6 credit5 with
  | (.error err, db7) => (.error ("failed to update credit: " ++ err), db7)
  | (.ok _, db7) => (.ok (), db7)

/-- The body of the outer loop of `ProcessOverduePayments` for one credit of
the list: `none` when the sweep goes on with the next credit, `some err` when
it returns `err`. -/
def ProcessOverduePayments.step (db : DB) (now : time.Time) (credit : Credit) :
    Option String × DB :=
  match GetPaymentSchedule db credit.ID with
  | (.error err, db1) =>
    (some ("failed to get payment schedule for credit " ++ fmt.formatUint credit.ID ++ ": "
      ++ err), db1)
  | (.ok schedule, db1) =>
    match schedule.find? (fun p => p.Status = PaymentStatusPending && p.DueDate.Before now) with
    | none => (none, db1)
    | some payment =>
      match ProcessPayment db1 now credit.ID payment.PaymentNumber with
      | (.ok _, db2) => (none, db2)
      | (.error _, db2) =>
        let credit1 := { credit with Status := CreditStatusOverdue }
        match creditRepository.Update db2 credit1 with
        | (.error err, db3) => (some ("failed to update credit status: " ++ err), db3)
        | (.ok _, db3) => (none, db3)

/-- The outer loop of `ProcessOverduePayments` over the overdue credits. -/
def ProcessOverduePayments.loop (now : time.Time) : List Credit → DB → Except String Unit × DB
  | [], db => (.ok (), db)
  | credit :: rest, db =>
    match ProcessOverduePayments.step db now credit with
    | (some err, db1) => (.error err, db1)
    | (none, db1) => ProcessOverduePayments.loop now rest db1

/-- The method `ProcessOverduePayments`; every reading of `time.Now()` during
the sweep is `now`. -/
def ProcessOverduePayments (db : DB) (now : time.Time) : Except String Unit × DB :=
  match creditRepository.GetOverdueCredits db now with
  | (.error err, db1) => (.error ("failed to get overdue credits: " ++ err), db1)
  | (.ok overdueCredits, db1) => ProcessOverduePayments.loop now overdueCredits db1

/-- The description written by
`fmt.Sprintf("Зачисление по кредиту #%d: %s", credit.ID, description)`. -/
def disbursementDescription (id : Nat) (description : String) : String :=
  "Зачисление по кредиту #" ++ fmt.formatUint id ++ ": " ++ description

/-- The credit record built by `CreateCredit` from its arguments, the rate
`interestRate = keyRate + 5.0` and the reading `now` of the clock. -/
def CreateCredit.credit (now : time.Time) (userID accountID : Nat) (amount : ℚ)
    (termMonths : Int) (interestRate : ℚ) : Credit :=
  { ID := 0
    UserID := userID
    AccountID := accountID
    Amount := amount
    Term := termMonths
    InterestRate := interestRate
    Status := CreditStatusActive
    StartDate := now
    EndDate := now.AddDate 0 termMonths 0
    PaymentDay := now.Day
    NextPayment := now.AddDate 0 1 0
    TotalPaid := 0
    RemainingDebt := amount
    OverdueAmount := 0
    LastPayment := now }

/-- The transaction record built by `CreateCredit` for the stored credit. -/
def CreateCredit.transaction (credit : Credit) (accountID : Nat) (amount : ℚ)
    (description : String) : Transaction :=
  { ID := 0
    TxType := TransactionTypeCredit
    ToAccountID := accountID
    FromAccountID := 0
    Amount := amount
    Description := disbursementDescription credit.ID description
    Status := TransactionStatusCompleted }

/-- The method `CreateCredit`; `keyRate` is what `keyRateService.GetKeyRate()`
returns and `now` the reading of `time.Now()`. -/
def CreateCredit (db : DB) (keyRate : Except String ℚ) (now : time.Time) (userID accountID : Nat)
    (amount : ℚ) (termMonths : Int) (description : String) : Except String Credit × DB :=
  match accountRepository.GetByID db accountID with
  | (.error err, db1) => (.error ("failed to get account: " ++ err), db1)
  | (.ok account, db1) =>
  if account.UserID ≠ userID then (.error "account does not belong to the user", db1)
  else
  match keyRate with
  | .error err => (.error ("failed to get key rate: " ++ err), db1)
  | .ok rate =>
  let interestRate := rate + 5
  let credit := CreateCredit.credit now userID accountID amount termMonths interestRate
  match creditRepository.Create db1 now credit with
  | (.error err, db2) => (.error ("failed to create credit: " ++ err), db2)
  | (.ok credit1, db2) =>
  let account1 := { account with Balance := account.Balance + amount }
  match accountRepository.Update db2 account1 with
  | (.error err, db3) => (.error ("failed to update account balance: " ++ err), db3)
  | (.ok _, db3) =>
  match transactionRepository.Create db3
      (CreateCredit.transaction credit1 accountID amount description) with
  | (.error err, db4) => (.error ("failed to create transaction: " ++ err), db4)
  | (.ok _, db4) => (.ok credit1, db4)

/-- The loop of `GetPaymentSchedule` in `float64`. -/
def GetPaymentSchedule.loop64 (credit : Credit64) (monthlyRate : float64) :
    Nat → Int → float64 → List PaymentSchedule64
  | 0, _, _ => []
  | k + 1, i, remainingAmount =>
    let interestAmount := remainingAmount * monthlyRate
    let principalAmount := credit.CalculateMonthlyPayment - interestAmount
    { PaymentNumber := i
      Amount := credit.CalculateMonthlyPayment
      Interest := interestAmount
      Principal := principalAmount
      TotalAmount := credit.CalculateMonthlyPayment } ::
      GetPaymentSchedule.loop64 credit monthlyRate k (i + 1) (remainingAmount - principalAmount)

/-- The schedule `GetPaymentSchedule` computes for a stored credit, in
`float64`. -/
def GetPaymentSchedule64 (credit : Credit64) : List PaymentSchedule64 :=
  GetPaymentSchedule.loop64 credit (credit.InterestRate / 12 / 100) credit.Term.toNat 1
    credit.Amount

/-- The amounts a `ProcessPayment` that returns nil stores in the credit, in
`float64`: `credit.TotalPaid += payment.TotalAmount`, then
`credit.RemainingDebt = credit.CalculateRemainingDebt()`. -/
def ProcessPayment.credit64 (credit : Credit64) (payment : PaymentSchedule64) : Credit64 :=
  let credit1 := { credit with TotalPaid := credit.TotalPaid + payment.TotalAmount }
  { credit1 with RemainingDebt := credit1.CalculateRemainingDebt }

/-- A client of the service that calls `ProcessPayment(creditID, n)` for each
installment number of a list in turn, each call with its own reading of the
clock, and stops at the first call that returns an error. -/
def ProcessPayment.each (creditID : Nat) : DB → List (time.Time × Int) → Except String Unit × DB
  | db, [] => (.ok (), db)
  | db, (now, n) :: rest =>
    match ProcessPayment db now creditID n with
    | (.error err, db1) => (.error err, db1)
    | (.ok _, db1) => ProcessPayment.each creditID db1 rest

end creditService

/-! ## `core/services/scheduler.go` -/

/-- The notifier `SendPaymentNotification(email, paymentType, amount)`: the
error it returns, if any. -/
abbrev Notifier := String → String → ℚ → Except String Unit

namespace Scheduler

/-- The payment record built by `processCreditPayment`. -/
def processCreditPayment.transaction (credit : Credit) (monthlyPayment : ℚ) : Transaction :=
  { ID := 0
    TxType := TransactionTypePayment
    FromAccountID := credit.AccountID
    ToAccountID := 0
    Amount := monthlyPayment
    Description := "Платеж по кредиту #" ++ fmt.formatUint credit.ID
    Status := TransactionStatusCompleted }

/-- The penalty record built by `processCreditPayment`. -/
def processCreditPayment.penaltyTransaction (credit : Credit) (penalty : ℚ) : Transaction :=
  { ID := 0
    TxType := TransactionTypePayment
    FromAccountID := credit.AccountID
    ToAccountID := 0
    Amount := penalty
    Description := "Штраф за просрочку платежа по кредиту #" ++ fmt.formatUint credit.ID
    Status := TransactionStatusCompleted }

/-- The body of the loop of `processCreditPayment(credit)` for one element
`payment` of the list it calls `schedule`.  Every error is printed and the
loop goes on (`continue`); the assignments to `payment` change the loop
variable only, nothing saves it; the result of the notifier is printed and
dropped. -/
def processCreditPayment.step (db : DB) (notify : Notifier) (now : time.Time)
    (credit payment : Credit) : DB :=
  if payment.NextPayment.Before now ∧ payment.Status = CreditStatusActive then
    match accountRepository.GetByID db credit.AccountID with
    | (.error _, db1) => db1
    | (.ok account, db1) =>
    let monthlyPayment := payment.CalculateMonthlyPayment
    if account.Balance ≥ monthlyPayment then
      let account1 := { account with Balance := account.Balance - monthlyPayment }
      match accountRepository.Update db1 account1 with
      | (.error _, db2) => db2
      | (.ok _, db2) =>
      match transactionRepository.Create db2
          (processCreditPayment.transaction credit monthlyPayment) with
      | (.error _, db3) => db3
      | (.ok _, db3) =>
      match userRepository.GetByID db3 account.UserID with
      | (.error _, db4) => db4
      | (.ok user, db4) =>
      match notify user.Email "Платеж по кредиту" monthlyPayment with
      | .error _ => db4
      | .ok _ => db4
    else
      let penalty := monthlyPayment * (1 / 10)
      match transactionRepository.Create db1
          (processCreditPayment.penaltyTransaction credit penalty) with
      | (.error _, db2) => db2
      | (.ok _, db2) =>
      match userRepository.GetByID db2 account.UserID with
      | (.error _, db3) => db3
      | (.ok user, db3) =>
      match notify user.Email "Просрочка платежа по кредиту" (monthlyPayment + penalty) with
      | .error _ => db3
      | .ok _ => db3
  else db

/-- The method `processCreditPayment(credit)`; `now` is the reading of
`time.Now()` before the loop. -/
def processCreditPayment (db : DB) (notify : Notifier) (now : time.Time) (credit : Credit) : DB :=
  match creditRepository.GetCreditsByDateRange db credit.StartDate credit.EndDate with
  | (.error _, db1) => db1
  | (.ok schedule, db1) =>
    schedule.foldl (fun d payment => processCreditPayment.step d notify now credit payment) db1

/-- The transaction record built by `Scheduler.ProcessPayment`. -/
def ProcessPayment.transaction (credit : Credit) (payment : PaymentSchedule) : Transaction :=
  { ID := 0
    FromAccountID := credit.AccountID
    ToAccountID := 0
    Amount := payment.Amount
    TxType := "CREDIT_PAYMENT"
    Status := "COMPLETED"
    Description := "Платеж по кредиту #" ++ fmt.formatUint credit.ID }

/-- The method `Scheduler.ProcessPayment`. -/
def ProcessPayment (db : DB) (notify : Notifier) (creditID : Nat) (paymentNumber : Int) :
    Except String Unit × DB :=
  match creditRepository.GetByID db creditID with
  | (.error err, db1) => (.error ("failed to get credit: " ++ err), db1)
  | (.ok credit, db1) =>
  match accountRepository.GetByID db1 credit.AccountID with
  | (.error err, db2) => (.error ("failed to get account: " ++ err), db2)
  | (.ok account, db2) =>
  match creditRepository.GetPaymentSchedule db2 creditID with
  | (.error err, db3) => (.error ("failed to get payment schedule: " ++ err), db3)
  | (.ok schedule, db3) =>
  match schedule.find? (fun p => p.PaymentNumber = paymentNumber) with
  | none => (.error "payment not found", db3)
  | some payment =>
  if account.Balance < payment.Amount then (.error "insufficient funds", db3)
  else
  let account1 := { account with Balance := account.Balance - payment.Amount }
  match accountRepository.Update db3 account1 with
  | (.error err, db4) => (.error ("failed to update account: " ++ err), db4)
  | (.ok _, db4) =>
  let payment1 := { payment with Status := "COMPLETED" }
  match creditRepository.UpdatePaymentSchedule db4 payment1 with
  | (.error err, db5) => (.error ("failed to update payment schedule: " ++ err), db5)
  | (.ok _, db5) =>
  match transactionRepository.Create db5 (ProcessPayment.transaction credit payment1) with
  | (.error err, db6) => (.error ("failed to create transaction: " ++ err), db6)
  | (.ok _, db6) =>
  match userRepository.GetByID db6 account.UserID with
  | (.error err, db7) => (.error ("failed to get user: " ++ err), db7)
  | (.ok user, db7) =>
  match notify user.Email "Платеж по кредиту" payment1.Amount with
  | .error err => (.error ("failed to send notification: " ++ err), db7)
  | .ok _ => (.ok (), db7)

/-- The body of the loop of `CheckPayments` for one credit of the list:
`none` when the sweep goes on with the next credit, `some err` when it
returns `err`. -/
def CheckPayments.step (db : DB) (notify : Notifier) (now : time.Time) (credit : Credit) :
    Option String × DB :=
  match accountRepository.GetByID db credit.AccountID with
  | (.error err, db1) => (some ("failed to get account: " ++ err), db1)
  | (.ok account, db1) =>
  match userRepository.GetByID db1 account.UserID with
  | (.error err, db2) => (some ("failed to get user: " ++ err), db2)
  | (.ok user, db2) =>
  if now.After credit.NextPayment then
    match creditRepository.GetPaymentSchedule db2 credit.ID with
    | (.error err, db3) => (some ("failed to get payment schedule: " ++ err), db3)
    | (.ok schedule, db3) =>
    match schedule.find? (fun p => p.Status = "PENDING") with
    | none => (none, db3)
    | some nextPayment =>
      if account.Balance ≥ nextPayment.Amount then
        match ProcessPayment db3 notify credit.ID nextPayment.PaymentNumber with
        | (.error err, db4) => (some ("failed to process payment: " ++ err), db4)
        | (.ok _, db4) => (none, db4)
      else
        let nextPayment1 := { nextPayment with Status := "OVERDUE" }
        match creditRepository.UpdatePaymentSchedule db3 nextPayment1 with
        | (.error err, db4) => (some ("failed to update payment schedule: " ++ err), db4)
        | (.ok _, db4) =>
        match notify user.Email "Просрочка платежа по кредиту" nextPayment1.Amount with
        | .error err => (some ("failed to send notification: " ++ err), db4)
        | .ok _ => (none, db4)
  else (none, db2)

/-- The loop of `CheckPayments` over the active credits. -/
def CheckPayments.loop (notify : Notifier) (now : time.Time) :
    List Credit → DB → Except String Unit × DB
  | [], db => (.ok (), db)
  | credit :: rest, db =>
    match CheckPayments.step db notify now credit with
    | (some err, db1) => (.error err, db1)
    | (none, db1) => CheckPayments.loop notify now rest db1

/-- The method `CheckPayments`; every reading of `time.Now()` during the
sweep is `now`. -/
def CheckPayments (db : DB) (notify : Notifier) (now : time.Time) : Except String Unit × DB :=
  match creditRepository.GetActiveCredits db with
  | (.error err, db1) => (.error ("failed to get active credits: " ++ err), db1)
  | (.ok credits, db1) => CheckPayments.loop notify now credits db1

end Scheduler

end services

/-! ## Sample data -/

namespace sample

open domain dbaccess

/-- A loan of 100 over two months at 12 % a year, drawn on account 10. -/
def credit : Credit :=
  { ID := 1, AccountID := 10, UserID := 1, Amount := 100, Term := 2, InterestRate := 12,
    Status := CreditStatusActive, StartDate := ⟨2024, 1, 15, 0⟩, EndDate := ⟨2024, 3, 15, 0⟩,
    PaymentDay := 15, NextPayment := ⟨2024, 2, 15, 0⟩, TotalPaid := 0, RemainingDebt := 100,
    OverdueAmount := 0, LastPayment := ⟨2024, 1, 15, 0⟩ }

/-- The owner's account, holding 500. -/
def account : Account := { ID := 10, UserID := 1, Balance := 500 }

/-- A store with the sample loan, its account and an empty transaction log. -/
def db : DB := { store := { credits := [credit], accounts := [account] } }

/-- The reading of the clock during the sample calls. -/
def now : time.Time := ⟨2024, 2, 15, 0⟩

/-- The record of a payment of `amount` for installment `n` of credit `id`,
drawn on account 10, stored under `key`. -/
def paymentTx (key id : Nat) (n : Int) (amount : ℚ) : Transaction :=
  { ID := key, TxType := TransactionTypePayment, Status := TransactionStatusCompleted,
    Amount := amount, FromAccountID := 10, ToAccountID := 0,
    Description := fmt.SprintfPayment id n }

/-- The sample loan after a payment of `amount` made at `now`. -/
def creditAfter (c : Credit) (amount : ℚ) (status : CreditStatus) : Credit :=
  { c with
    TotalPaid := c.TotalPaid + amount
    RemainingDebt := c.CalculateTotalAmount - (c.TotalPaid + amount)
    LastPayment := now
    NextPayment := ({ c with LastPayment := now }).CalculateNextPaymentDate
    Status := status }

/-- The sample store after the first installment of the sample loan has been
paid. -/
def dbPaid : DB :=
  { store :=
      { credits := [creditAfter credit credit.CalculateMonthlyPayment CreditStatusActive]
        accounts := [{ account with Balance := account.Balance - credit.CalculateMonthlyPayment }]
        transactions := [paymentTx 1 1 1 credit.CalculateMonthlyPayment] } }

/-- The sample store after the last installment (number 2) of the sample loan
has been paid first. -/
def dbPaidLast : DB :=
  { store :=
      { credits := [creditAfter credit credit.CalculateMonthlyPayment CreditStatusPaid]
        accounts := [{ account with Balance := account.Balance - credit.CalculateMonthlyPayment }]
        transactions := [paymentTx 1 1 2 credit.CalculateMonthlyPayment] } }

/-- A second loan drawn on the same account 10: 10 over two months at 12 %. -/
def creditB : Credit :=
  { ID := 2, AccountID := 10, UserID := 1, Amount := 10, Term := 2, InterestRate := 12,
    Status := CreditStatusActive, StartDate := ⟨2024, 1, 15, 0⟩, EndDate := ⟨2024, 3, 15, 0⟩,
    PaymentDay := 15, NextPayment := ⟨2024, 2, 15, 0⟩, TotalPaid := 0, RemainingDebt := 10,
    OverdueAmount := 0, LastPayment := ⟨2024, 1, 15, 0⟩ }

/-- Both loans on account 10 holding `balance`; the log records the payment
of installment `n` of the second loan and nothing for the first loan. -/
def dbShared (balance : ℚ) (n : Int) : DB :=
  { store :=
      { credits := [credit, creditB]
        accounts := [{ account with Balance := balance }]
        transactions := [paymentTx 1 2 n creditB.CalculateMonthlyPayment] } }

/-- The store `dbShared balance 2` after `ProcessPayment(1, 1)`. -/
def dbSharedPaid (balance : ℚ) : DB :=
  { store :=
      { credits := [creditAfter credit creditB.CalculateMonthlyPayment CreditStatusActive, creditB]
        accounts := [{ account with Balance := balance - creditB.CalculateMonthlyPayment }]
        transactions := [paymentTx 1 2 2 creditB.CalculateMonthlyPayment,
          paymentTx 2 1 1 creditB.CalculateMonthlyPayment] } }

/-- The sample loan on an account without funds, nothing paid yet. -/
def dbEmpty : DB :=
  { store := { credits := [credit], accounts := [{ account with Balance := 0 }] } }

/-- The store `dbEmpty` after `ProcessPayment(1, 1)`. -/
def dbEmptyAfter : DB :=
  { store :=
      { credits := [{ credit with Status := CreditStatusOverdue }]
        accounts := [{ account with Balance := 0 }] } }

/-- The sample loan closed by the payment of its last installment (number 2),
on an account left without funds. -/
def dbClosed : DB :=
  { store :=
      { credits := [creditAfter credit credit.CalculateMonthlyPayment CreditStatusPaid]
        accounts := [{ account with Balance := 0 }]
        transactions := [paymentTx 1 1 2 credit.CalculateMonthlyPayment] } }

/-- The store `dbClosed` after `ProcessPayment(1, 1)`. -/
def dbClosedAfter : DB :=
  { store :=
      { credits := [creditAfter credit credit.CalculateMonthlyPayment CreditStatusOverdue]
        accounts := [{ account with Balance := 0 }]
        transactions := [paymentTx 1 1 2 credit.CalculateMonthlyPayment] } }

/-- A store with the owner's account and no loan yet. -/
def dbFresh : DB := { store := { accounts := [account] } }

/-- The store `dbFresh` with a script in which the third round trip of the
coming call fails. -/
def dbFreshThirdFails : DB :=
  { store := { accounts := [account] }, script := [false, false, true] }

/-- The credit stored by `CreateCredit(1, 10, 100, 2, "loan")` in `dbFresh`
at a benchmark rate of 7 %. -/
def creditNew : Credit :=
  { services.creditService.CreateCredit.credit now 1 10 100 2 (7 + 5) with
    ID := 1, CreatedAt := now }

/-- The store `dbFresh` after that origination. -/
def dbOriginated : DB :=
  { store :=
      { credits := [creditNew]
        accounts := [{ account with Balance := account.Balance + 100 }]
        transactions := [{ services.creditService.CreateCredit.transaction creditNew 10 100 "loan"
          with ID := 1 }] } }

/-- The store `dbFreshThirdFails` after the origination whose account update
fails. -/
def dbHalfOriginated : DB :=
  { store := { credits := [creditNew], accounts := [account] } }

/-- The sample store with a script in which the sixth round trip of the
coming call (the transaction append of `ProcessPayment`) fails. -/
def dbSixthFails : DB :=
  { store := { credits := [credit], accounts := [account] }
    script := [false, false, false, false, false, true] }

/-- The store `dbSixthFails` after the payment whose transaction append
fails: the account is debited, nothing else is written. -/
def dbDebited : DB :=
  { store :=
      { credits := [credit]
        accounts :=
          [{ account with Balance := account.Balance - credit.CalculateMonthlyPayment }] } }

/-- The owner of account 10. -/
def user : User := { ID := 1, Email := "owner@example.com" }

/-- A notifier that delivers every message. -/
def notifyOk : services.Notifier := fun _ _ _ => .ok ()

/-- A stored schedule row: installment 1 of the sample loan, 50, not yet
paid. -/
def row : PaymentSchedule :=
  { ID := 1, CreditID := 1, PaymentNumber := 1, DueDate := ⟨2024, 2, 15, 0⟩, Amount := 50,
    Interest := 1, Principal := 49, TotalAmount := 50, Status := "PENDING", PaidAt := none,
    Credit := credit }

/-- The sample store with the schedule row of the sample loan and the owner
in the user table. -/
def dbScheduled : DB :=
  { store :=
      { credits := [credit], accounts := [account], schedules := [row], users := [user] } }

/-- The store `dbScheduled` after `creditService.ProcessPayment(1, 1)`. -/
def dbScheduledPaid : DB :=
  { store :=
      { credits := [creditAfter credit credit.CalculateMonthlyPayment CreditStatusActive]
        accounts := [{ account with Balance := account.Balance - credit.CalculateMonthlyPayment }]
        transactions := [paymentTx 1 1 1 credit.CalculateMonthlyPayment]
        schedules := [row]
        users := [user] } }

/-- The store `dbScheduled` after `Scheduler.ProcessPayment(1, 1)`. -/
def dbScheduledDebited : DB :=
  { store :=
      { credits := [credit]
        accounts := [{ account with Balance := account.Balance - row.Amount }]
        schedules := [{ row with Status := "COMPLETED" }]
        users := [user] } }

/-- A third loan, drawn on account 30, whose payment date has passed at
`now`. -/
def creditC : Credit :=
  { credit with ID := 3, AccountID := 30, NextPayment := ⟨2024, 1, 15, 0⟩ }

/-- The account of the third loan, without funds. -/
def accountC : Account := { ID := 30, UserID := 1, Balance := 0 }

/-- The stored schedule row of the third loan: installment 1, 5, not yet
paid. -/
def rowC : PaymentSchedule :=
  { ID := 3, CreditID := 3, PaymentNumber := 1, DueDate := ⟨2024, 1, 15, 0⟩, Amount := 5,
    Interest := 1, Principal := 4, TotalAmount := 5, Status := "PENDING", PaidAt := none,
    Credit := creditC }

/-- Three ACTIVE loans; the fourth round trip of the coming call (the fetch
of the account of the second loan by `CheckPayments`) fails. -/
def dbThree : DB :=
  { store :=
      { credits := [credit, creditB, creditC], accounts := [account, accountC],
        schedules := [rowC], users := [user] }
    script := [false, false, false, true] }

/-- The store `dbThree` after `CheckPayments`: nothing is written. -/
def dbThreeAfter : DB :=
  { store :=
      { credits := [credit, creditB, creditC], accounts := [account, accountC],
        schedules := [rowC], users := [user] } }

/-- The store `dbThree` without the second loan, no round trip failing. -/
def dbTwo : DB :=
  { store :=
      { credits := [credit, creditC], accounts := [account, accountC], schedules := [rowC],
        users := [user] } }

/-- The store `dbTwo` after `CheckPayments`: the row of the third loan is
marked overdue. -/
def dbTwoAfter : DB :=
  { store :=
      { credits := [credit, creditC], accounts := [account, accountC],
        schedules := [{ rowC with Status := "OVERDUE" }], users := [user] } }

/-- A later reading of the clock, after the second due date of the sample
loan. -/
def nowLate : time.Time := ⟨2024, 3, 20, 0⟩

/-- The sample loan in the state OVERDUE. -/
def creditOverdue : Credit := { credit with Status := CreditStatusOverdue }

/-- A notifier that fails on every message. -/
def notifyFail : services.Notifier := fun _ _ _ => .error "smtp: connection refused"

/-- A fourth loan, drawn on account 30 like the third, also past its payment
date at `now`. -/
def creditD : Credit :=
  { credit with ID := 4, AccountID := 30, NextPayment := ⟨2024, 1, 15, 0⟩ }

/-- The stored schedule row of the fourth loan: installment 1, 5, not yet
paid. -/
def rowD : PaymentSchedule :=
  { ID := 4, CreditID := 4, PaymentNumber := 1, DueDate := ⟨2024, 1, 15, 0⟩, Amount := 5,
    Interest := 1, Principal := 4, TotalAmount := 5, Status := "PENDING", PaidAt := none,
    Credit := creditD }

/-- Two ACTIVE loans, both due, on an account without funds. -/
def dbDue : DB :=
  { store :=
      { credits := [creditC, creditD], accounts := [accountC], schedules := [rowC, rowD],
        users := [user] } }

/-- The store `dbDue` after a sweep whose notifications are delivered: both
rows are marked overdue. -/
def dbDueSwept : DB :=
  { store :=
      { credits := [creditC, creditD], accounts := [accountC],
        schedules := [{ rowC with Status := "OVERDUE" }, { rowD with Status := "OVERDUE" }],
        users := [user] } }

/-- The store `dbDue` after a sweep whose first notification fails: only the
first row is marked overdue. -/
def dbDueStopped : DB :=
  { store :=
      { credits := [creditC, creditD], accounts := [accountC],
        schedules := [{ rowC with Status := "OVERDUE" }, rowD],
        users := [user] } }

/-- The schedule row of the third loan with the status constant of the
domain, `PaymentStatusPending`. -/
def rowLower : PaymentSchedule := { rowC with Status := PaymentStatusPending }

/-- The third loan, due, with that row. -/
def dbLower : DB :=
  { store :=
      { credits := [creditC], accounts := [accountC], schedules := [rowLower],
        users := [user] } }

/-- The sample loan with its creation stamp. -/
def creditFirst : Credit := { credit with CreatedAt := ⟨2024, 1, 15, 0⟩ }

/-- A loan of another user on account 20, created while the sample loan
runs: 10 over two months at 12 %, from 1 February 2024. -/
def creditOther : Credit :=
  { ID := 2, AccountID := 20, UserID := 2, Amount := 10, Term := 2, InterestRate := 12,
    Status := CreditStatusActive, StartDate := ⟨2024, 2, 1, 0⟩, EndDate := ⟨2024, 4, 1, 0⟩,
    PaymentDay := 1, NextPayment := ⟨2024, 3, 1, 0⟩, TotalPaid := 0, RemainingDebt := 10,
    OverdueAmount := 0, LastPayment := ⟨2024, 2, 1, 0⟩, CreatedAt := ⟨2024, 2, 1, 0⟩ }

/-- The account of the other user, holding 300. -/
def accountOther : Account := { ID := 20, UserID := 2, Balance := 300 }

/-- The two loans, each on its own account, nothing paid yet. -/
def dbSweep : DB :=
  { store :=
      { credits := [creditFirst, creditOther], accounts := [account, accountOther],
        users := [user] } }

/-- The store `dbSweep` after `processCreditPayment(creditFirst)`: account 10
is debited by the monthly payment of either loan. -/
def dbSweepAfter : DB :=
  { store :=
      { credits := [creditFirst, creditOther]
        accounts :=
          [{ account with
              Balance := account.Balance - creditFirst.CalculateMonthlyPayment
                - creditOther.CalculateMonthlyPayment },
            accountOther]
        transactions :=
          [{ services.Scheduler.processCreditPayment.transaction creditFirst
              creditFirst.CalculateMonthlyPayment with ID := 1 },
            { services.Scheduler.processCreditPayment.transaction creditFirst
              creditOther.CalculateMonthlyPayment with ID := 2 }]
        users := [user] } }

/-- The store `dbPaid` after `ProcessOverduePayments` at `nowLate`. -/
def dbPaidOverdue : DB :=
  { store :=
      { credits := [creditAfter credit credit.CalculateMonthlyPayment CreditStatusOverdue]
        accounts := [{ account with Balance := account.Balance - credit.CalculateMonthlyPayment }]
        transactions := [paymentTx 1 1 1 credit.CalculateMonthlyPayment] } }

/-- The digits "7992739871". -/
def digits : Bytes := [55, 57, 57, 50, 55, 51, 57, 56, 55, 49]

/-- A loan of 120000 over six months at 15 % a year, as created: nothing
paid, the principal as remaining debt; the amounts as `float64`. -/
def loan64 : Credit64 :=
  { Amount := 120000, Term := 6, InterestRate := 15, Status := CreditStatusActive,
    PaymentDay := 15, TotalPaid := 0, RemainingDebt := 120000 }

/-- The loan `loan64` with the interest rate NaN. -/
def loanNaN : Credit64 := { loan64 with InterestRate := float64.nan }

/-- The loan `loan64` at a rate of 1e-14 % a year (the `float64` nearest to
`1 / 10 ^ 14`). -/
def loanTiny : Credit64 := { loan64 with InterestRate := float64.round 1 (10 ^ 14) }

/-- The sample loan with an interest rate of zero. -/
def creditZeroRate : Credit := { credit with InterestRate := 0 }

/-- The sample loan with payment day 31, last paid on 31 January 2023. -/
def creditEndOfMonth : Credit :=
  { credit with
    PaymentDay := 31
    LastPayment := ⟨2023, 1, 31, 0⟩ }

end sample

/-! # Theorems -/

open domain dbaccess services services.creditService

/-! ## The annuity payment -/

theorem pow_natCast (n : ℕ) : ∀ x : ℚ, pow x (n : ℤ) = x ^ n := by
  induction n using Nat.strong_induction_on with
  | _ n ih =>
    intro x
    rw [pow]
    by_cases h0 : n = 0
    · subst h0; simp
    · have hpos : ¬ ((n : ℤ) < 0) := by omega
      have hne : ¬ ((n : ℤ) = 0) := by omega
      rw [if_neg hne, if_neg hpos]
      by_cases he : (n : ℤ) % 2 = 0
      · rw [if_pos he]
        have h2 : (n : ℤ) / 2 = ((n / 2 : ℕ) : ℤ) := by omega
        rw [h2, ih (n / 2) (by omega), ← pow_two, ← pow_mul]
        congr 1; omega
      · rw [if_neg he]
        have h2 : ((n : ℤ) - 1) / 2 = ((n / 2 : ℕ) : ℤ) := by omega
        rw [h2, ih (n / 2) (by omega), ← pow_two, ← pow_mul, ← pow_succ']
        congr 1; omega

theorem pow_eq_zpow (x : ℚ) (n : ℤ) : pow x n = x ^ n := by
  rcases Int.lt_or_le n 0 with h | h
  · rw [pow, if_neg (by omega), if_pos h]
    obtain ⟨k, hk⟩ := Int.eq_ofNat_of_zero_le (show 0 ≤ -n by omega)
    rw [hk, pow_natCast]
    have : n = -(k : ℤ) := by omega
    rw [this, zpow_neg, zpow_natCast, one_div]
  · obtain ⟨k, hk⟩ := Int.eq_ofNat_of_zero_le h
    rw [hk, pow_natCast, zpow_natCast]

/-- With a positive rate and a term of at least one month the denominator of
the annuity formula is positive. -/
theorem annuity_denominator_pos (r : ℚ) (t : ℤ) (hr : 0 < r) (ht : 1 ≤ t) :
    0 < 1 - (1 + r) ^ (-t) := by
  obtain ⟨k, hk⟩ := Int.eq_ofNat_of_zero_le (show 0 ≤ t by omega)
  subst hk
  have hq : 1 < (1 + r) ^ k := one_lt_pow₀ (by linarith) (by omega)
  rw [zpow_neg, zpow_natCast, sub_pos]
  exact inv_lt_one_of_one_lt₀ hq

/-- The code's denominator `1 - 1/pow(1+r, Term)` is `1 - (1+r)^(-Term)`. -/
theorem CalculateMonthlyPayment_formula (c : Credit) :
    c.CalculateMonthlyPayment
      = c.Amount * (c.InterestRate / 12 / 100)
          / (1 - (1 + c.InterestRate / 12 / 100) ^ (-c.Term)) := by
  simp only [Credit.CalculateMonthlyPayment, pow_eq_zpow, zpow_neg, one_div]

/-- The monthly payment of a credit with positive amount and rate and a term
of at least one month is positive. -/
theorem CalculateMonthlyPayment_pos (c : Credit)
    (hA : 0 < c.Amount) (hT : 1 ≤ c.Term) (hR : 0 < c.InterestRate) :
    0 < c.CalculateMonthlyPayment := by
  rw [CalculateMonthlyPayment_formula]
  exact div_pos (mul_pos hA (by positivity))
    (annuity_denominator_pos (c.InterestRate / 12 / 100) c.Term (by positivity) hT)

/-- C1: for a credit with `Amount > 0`, `Term ≥ 1` and `InterestRate > 0`,
`CalculateMonthlyPayment` is the annuity payment
`Amount * r / (1 - (1 + r)^(-Term))` with `r = InterestRate / 12 / 100`, the
power being the mathematical one; the denominator is positive, so the
quotient is a genuine division, and so is the payment. -/
theorem CalculateMonthlyPayment_eq_annuity (c : Credit)
    (hA : 0 < c.Amount) (hT : 1 ≤ c.Term) (hR : 0 < c.InterestRate) :
    c.CalculateMonthlyPayment
        = c.Amount * (c.InterestRate / 12 / 100)
            / (1 - (1 + c.InterestRate / 12 / 100) ^ (-c.Term))
      ∧ 0 < 1 - (1 + c.InterestRate / 12 / 100) ^ (-c.Term)
      ∧ 0 < c.CalculateMonthlyPayment :=
  ⟨CalculateMonthlyPayment_formula c,
    annuity_denominator_pos (c.InterestRate / 12 / 100) c.Term (by positivity) hT,
    CalculateMonthlyPayment_pos c hA hT hR⟩

theorem CalculateMonthlyPayment_eq_annuity_witness :
    sample.credit.CalculateMonthlyPayment
        = sample.credit.Amount * (sample.credit.InterestRate / 12 / 100)
            / (1 - (1 + sample.credit.InterestRate / 12 / 100) ^ (-sample.credit.Term))
      ∧ 0 < 1 - (1 + sample.credit.InterestRate / 12 / 100) ^ (-sample.credit.Term)
      ∧ 0 < sample.credit.CalculateMonthlyPayment :=
  CalculateMonthlyPayment_eq_annuity sample.credit (by norm_num [sample.credit])
    (by norm_num [sample.credit]) (by norm_num [sample.credit])

/-! ## The payment schedule -/

theorem loop_length (c : Credit) (r : ℚ) (k : ℕ) :
    ∀ (i : ℤ) (rem : ℚ), (GetPaymentSchedule.loop c r k i rem).length = k := by
  induction k with
  | zero => intro i rem; simp [GetPaymentSchedule.loop]
  | succ k ih => intro i rem; simp [GetPaymentSchedule.loop, ih]

/-- The principal parts of `k` consecutive entries add up to the decrease of
the running remaining amount, in closed form. -/
theorem loop_principal_sum (c : Credit) (r : ℚ) (hr : r ≠ 0) (k : ℕ) :
    ∀ (i : ℤ) (rem : ℚ),
      ((GetPaymentSchedule.loop c r k i rem).map (fun e => e.Principal)).sum
        = rem - (rem * (1 + r) ^ k - c.CalculateMonthlyPayment * ((1 + r) ^ k - 1) / r) := by
  induction k with
  | zero => intro i rem; simp [GetPaymentSchedule.loop]
  | succ k ih =>
    intro i rem
    simp only [GetPaymentSchedule.loop, List.map_cons, List.sum_cons, ih]
    field_simp
    ring

theorem monthly_closed (c : Credit) (hR : 0 < c.InterestRate) (k : ℕ) (hk : c.Term = (k : ℤ))
    (hk1 : 1 ≤ k) :
    c.CalculateMonthlyPayment * ((1 + c.InterestRate / 12 / 100) ^ k - 1)
        / (c.InterestRate / 12 / 100)
      = c.Amount * (1 + c.InterestRate / 12 / 100) ^ k := by
  have hr : 0 < c.InterestRate / 12 / 100 := by positivity
  have hq : 1 < (1 + c.InterestRate / 12 / 100) ^ k :=
    one_lt_pow₀ (by linarith) (by omega)
  have hq0 : (1 + c.InterestRate / 12 / 100) ^ k ≠ 0 := by positivity
  simp only [Credit.CalculateMonthlyPayment, pow_eq_zpow, hk, zpow_natCast]
  generalize (1 + c.InterestRate / 12 / 100) ^ k = Q at hq hq0
  generalize c.InterestRate / 12 / 100 = r at hr
  have h1 : Q - 1 ≠ 0 := by linarith
  have h2 : (1 : ℚ) - 1 / Q ≠ 0 := by
    rw [one_sub_div hq0]; exact div_ne_zero h1 hq0
  field_simp
  ring

/-- The monthly payment does not depend on `LastPayment`. -/
theorem CalculateMonthlyPayment_congr (c d : Credit) (hA : d.Amount = c.Amount)
    (hT : d.Term = c.Term) (hR : d.InterestRate = c.InterestRate) :
    d.CalculateMonthlyPayment = c.CalculateMonthlyPayment := by
  simp only [Credit.CalculateMonthlyPayment, hA, hT, hR]

/-- What `GetPaymentSchedule` returns once the credit has been read. -/
theorem GetPaymentSchedule_of_get (db db1 : DB) (creditID : Nat) (c : Credit)
    (hget : creditRepository.GetByID db creditID = (.ok c, db1)) :
    ∃ d : Credit, d.Amount = c.Amount ∧ d.Term = c.Term ∧ d.InterestRate = c.InterestRate
      ∧ GetPaymentSchedule db creditID
          = (.ok (GetPaymentSchedule.loop d (c.InterestRate / 12 / 100) c.Term.toNat 1 c.Amount),
              db1) := by
  by_cases hz : c.LastPayment.IsZero = true
  · exact ⟨{ c with LastPayment := c.StartDate }, rfl, rfl, rfl, by
      simp [GetPaymentSchedule, hget, hz]⟩
  · exact ⟨c, rfl, rfl, rfl, by simp [GetPaymentSchedule, hget, hz]⟩


theorem loop_entry (c : Credit) (r : ℚ) (k : ℕ) :
    ∀ (i : ℤ) (rem : ℚ), ∀ e ∈ GetPaymentSchedule.loop c r k i rem,
      e.Interest + e.Principal = e.Amount ∧ e.Amount = e.TotalAmount
        ∧ e.Amount = c.CalculateMonthlyPayment := by
  induction k with
  | zero => intro i rem e he; simp [GetPaymentSchedule.loop] at he
  | succ k ih =>
    intro i rem e he
    simp only [GetPaymentSchedule.loop, List.mem_cons] at he
    rcases he with rfl | he
    · exact ⟨by ring, rfl, rfl⟩
    · exact ih _ _ e he

/-- C2: for a stored credit with `InterestRate > 0` and `Term ≥ 1` (so for
every valid credit: `Amount > 0`, `0 < InterestRate ≤ 100`, `1 ≤ Term ≤ 360`)
`GetPaymentSchedule` returns `Term` entries whose `Principal` fields add up to
exactly `Amount`, in exact arithmetic. -/
theorem schedule_principal_sum (db db1 : DB) (creditID : Nat) (c : Credit)
    (hget : creditRepository.GetByID db creditID = (.ok c, db1))
    (hR : 0 < c.InterestRate) (hT : 1 ≤ c.Term) :
    ∃ schedule, GetPaymentSchedule db creditID = (.ok schedule, db1)
      ∧ (schedule.length : ℤ) = c.Term
      ∧ (schedule.map (fun e => e.Principal)).sum = c.Amount := by
  obtain ⟨d, hdA, hdT, hdR, hs⟩ := GetPaymentSchedule_of_get db db1 creditID c hget
  obtain ⟨k, hk⟩ := Int.eq_ofNat_of_zero_le (show 0 ≤ c.Term by omega)
  refine ⟨_, hs, ?_, ?_⟩
  · rw [loop_length, hk]; simp
  · have hr : c.InterestRate / 12 / 100 ≠ 0 := by positivity
    rw [loop_principal_sum d _ hr, CalculateMonthlyPayment_congr c d hdA hdT hdR, hk,
      Int.toNat_ofNat, monthly_closed c hR k hk (by omega)]
    ring

theorem schedule_principal_sum_witness :
    ∃ schedule, GetPaymentSchedule sample.db 1 = (.ok schedule, sample.db)
      ∧ (schedule.length : ℤ) = sample.credit.Term
      ∧ (schedule.map (fun e => e.Principal)).sum = sample.credit.Amount :=
  schedule_principal_sum sample.db sample.db 1 sample.credit rfl
    (by norm_num [sample.credit]) (by norm_num [sample.credit])

/-- In exact arithmetic, for every stored credit, `GetPaymentSchedule` returns
`Term` entries, and in each of them `Interest + Principal` is the entry's
`Amount`, which is also its `TotalAmount` and is `CalculateMonthlyPayment()`
of the credit, the same value in all entries. -/
theorem schedule_split_exact (db db1 : DB) (creditID : Nat) (c : Credit)
    (hget : creditRepository.GetByID db creditID = (.ok c, db1)) :
    ∃ schedule, GetPaymentSchedule db creditID = (.ok schedule, db1)
      ∧ schedule.length = c.Term.toNat
      ∧ ∀ e ∈ schedule, e.Interest + e.Principal = e.Amount ∧ e.Amount = e.TotalAmount
          ∧ e.Amount = c.CalculateMonthlyPayment := by
  obtain ⟨d, hdA, hdT, hdR, hs⟩ := GetPaymentSchedule_of_get db db1 creditID c hget
  refine ⟨_, hs, loop_length _ _ _ _ _, ?_⟩
  intro e he
  rw [← CalculateMonthlyPayment_congr c d hdA hdT hdR]
  exact loop_entry d _ _ _ _ e he

/-! ## Payment descriptions: writing and reading back -/

open fmt


theorem digitChar_isDecimalDigit (d : ℕ) (hd : d < 10) :
    isDecimalDigit (Nat.digitChar d) = true ∧ (Nat.digitChar d).toNat - 48 = d := by
  interval_cases d <;> exact ⟨by decide, by decide⟩

/-- The digits written for `n` in front of `acc`. -/
theorem toDigitsCore_spec (fuel : ℕ) : ∀ (n : ℕ) (acc : List Char), n < fuel →
    ∃ l : List Char, Nat.toDigitsCore 10 fuel n acc = l ++ acc ∧ l ≠ []
      ∧ (∀ c ∈ l, isDecimalDigit c = true)
      ∧ ∀ a : ℕ, l.foldl (fun a c => 10 * a + (c.toNat - 48)) a = a * 10 ^ l.length + n := by
  induction fuel with
  | zero => intro n acc h; omega
  | succ fuel ih =>
    intro n acc h
    have hd := digitChar_isDecimalDigit (n % 10) (Nat.mod_lt _ (by norm_num))
    simp only [Nat.toDigitsCore]
    by_cases h0 : n / 10 = 0
    · rw [if_pos h0]
      have hn : n % 10 = n := by omega
      refine ⟨[Nat.digitChar (n % 10)], by simp, by simp, ?_, ?_⟩
      · intro c hc
        simp only [List.mem_singleton] at hc
        rw [hc]; exact hd.1
      · intro a
        simp only [List.foldl_cons, List.foldl_nil, List.length_singleton, pow_one, hd.2]
        omega
    · rw [if_neg h0]
      obtain ⟨l, hl, hne, hdig, hval⟩ := ih (n / 10) (Nat.digitChar (n % 10) :: acc) (by omega)
      refine ⟨l ++ [Nat.digitChar (n % 10)], by simp [hl], by simp, ?_, ?_⟩
      · intro c hc
        simp only [List.mem_append, List.mem_singleton] at hc
        rcases hc with hc | hc
        · exact hdig c hc
        · rw [hc]; exact hd.1
      · intro a
        simp only [List.foldl_append, List.foldl_cons, List.foldl_nil, hval, hd.2,
          List.length_append, List.length_singleton, pow_succ]
        nlinarith [Nat.div_add_mod n 10]

theorem toDigits_spec (n : ℕ) :
    Nat.toDigits 10 n ≠ [] ∧ (∀ c ∈ Nat.toDigits 10 n, isDecimalDigit c = true)
      ∧ digitsValue (Nat.toDigits 10 n) = n := by
  obtain ⟨l, hl, hne, hdig, hval⟩ := toDigitsCore_spec (n + 1) n [] (by omega)
  simp only [List.append_nil] at hl
  unfold Nat.toDigits digitsValue
  rw [hl]
  exact ⟨hne, hdig, by simpa using hval 0⟩

theorem takeWhile_digits (l rest : List Char) (hl : ∀ c ∈ l, isDecimalDigit c = true)
    (hrest : ∀ c, rest.head? = some c → isDecimalDigit c = false) :
    (l ++ rest).takeWhile isDecimalDigit = l ∧ (l ++ rest).dropWhile isDecimalDigit = rest := by
  induction l with
  | nil =>
    cases rest with
    | nil => simp
    | cons c cs =>
      have := hrest c rfl
      simp [List.takeWhile, List.dropWhile, this]
  | cons d l ih =>
    have hd := hl d (List.mem_cons_self _ _)
    have := ih (fun c hc => hl c (List.mem_cons_of_mem _ hc))
    simp [List.takeWhile, List.dropWhile, hd, this]

theorem SkipSpace_of_head (c : Char) (cs : List Char) (h1 : isSpace c = false) :
    SkipSpace (c :: cs) = some (c :: cs) := by
  have hr : c ≠ '\r' := by rintro rfl; simp [isSpace] at h1
  have hn : c ≠ '\n' := by rintro rfl; simp [isSpace] at h1
  simp [SkipSpace, hr, hn, h1]

theorem isSpace_of_digit (c : Char) (h : isDecimalDigit c = true) : isSpace c = false := by
  simp only [isDecimalDigit, Bool.and_eq_true, decide_eq_true_eq] at h
  simp only [isSpace, Bool.or_eq_false_iff, Bool.and_eq_false_imp, decide_eq_true_eq,
    decide_eq_false_iff_not]
  omega

theorem scanUint_digits (n : ℕ) (hn : n < 2 ^ 64) (rest : List Char)
    (hrest : ∀ c, rest.head? = some c → isDecimalDigit c = false) :
    scanUint (Nat.toDigits 10 n ++ rest) = some (n, rest) := by
  obtain ⟨hne, hdig, hval⟩ := toDigits_spec n
  obtain ⟨d, ds, hds⟩ := List.exists_cons_of_ne_nil hne
  have hsk : SkipSpace (Nat.toDigits 10 n ++ rest) = some (Nat.toDigits 10 n ++ rest) := by
    rw [hds, List.cons_append]
    exact SkipSpace_of_head _ _ (isSpace_of_digit d (hdig d (by simp [hds])))
  obtain ⟨ht, hd⟩ := takeWhile_digits _ rest hdig hrest
  simp only [scanUint, hsk, ht, hd, hval, if_neg hne, if_pos hn]

theorem head_digit_ne (l : List Char) (hl : ∀ c ∈ l, isDecimalDigit c = true) (x : Char)
    (hx : isDecimalDigit x = false) : l.head? ≠ some x := by
  cases l with
  | nil => simp
  | cons d ds =>
    intro h
    simp only [List.head?_cons, Option.some.injEq] at h
    have := hl d (List.mem_cons_self _ _)
    rw [h, hx] at this
    exact Bool.noConfusion this

theorem scanInt_formatInt (n : ℤ) (hlo : -(2 ^ 63 : ℤ) ≤ n) (hhi : n < 2 ^ 63) :
    scanInt (formatInt n).toList = some (n, []) := by
  by_cases hneg : n < 0
  · obtain ⟨hne, hdig, hval⟩ := toDigits_spec (-n).toNat
    obtain ⟨ht, hd⟩ := takeWhile_digits _ [] hdig (by simp)
    simp only [List.append_nil] at ht hd
    have hl : (formatInt n).toList = '-' :: Nat.toDigits 10 (-n).toNat := by
      simp [formatInt, hneg, Nat.repr, List.asString]
    have hsk := SkipSpace_of_head '-' (Nat.toDigits 10 (-n).toNat) (by decide)
    have hv : -(((-n).toNat : ℕ) : ℤ) = n := by omega
    simp only [scanInt, hl, hsk, List.head?_cons, List.tail_cons, or_true, if_true, ht, hd, hval,
      if_neg hne, hv]
    rw [if_pos ⟨hlo, hhi⟩]
  · obtain ⟨hne, hdig, hval⟩ := toDigits_spec n.toNat
    obtain ⟨ht, hd⟩ := takeWhile_digits _ [] hdig (by simp)
    simp only [List.append_nil] at ht hd
    have hl : (formatInt n).toList = Nat.toDigits 10 n.toNat := by
      simp [formatInt, hneg, Nat.repr, List.asString]
    obtain ⟨d, ds, hds⟩ := List.exists_cons_of_ne_nil hne
    have hsk : SkipSpace (Nat.toDigits 10 n.toNat) = some (Nat.toDigits 10 n.toNat) := by
      rw [hds]
      exact SkipSpace_of_head _ _ (isSpace_of_digit d (hdig d (by simp [hds])))
    have hp := head_digit_ne _ hdig '+' (by decide)
    have hm := head_digit_ne _ hdig '-' (by decide)
    have hv : ((n.toNat : ℕ) : ℤ) = n := by omega
    simp only [scanInt, hl, hsk, hp, hm, or_self, if_false, ht, hd, hval, if_neg hne, hv]
    rw [if_pos ⟨hlo, hhi⟩]

theorem advance_prefix (rest : List Char) :
    advance false paymentPrefix.toList (paymentPrefix.toList ++ rest) = some rest := rfl

theorem advance_infix (rest : List Char) :
    advance false paymentInfix.toList (paymentInfix.toList ++ rest) = some rest := rfl

/-- Reading back a written payment description gives the two numbers. -/
theorem SscanfPayment_SprintfPayment (id : ℕ) (n : ℤ) (hid : id < 2 ^ 64)
    (hlo : -(2 ^ 63 : ℤ) ≤ n) (hhi : n < 2 ^ 63) (creditID : ℕ) :
    SscanfPayment (SprintfPayment id n) creditID = ⟨id, n, false⟩ := by
  have hl : (SprintfPayment id n).toList
      = paymentPrefix.toList ++ (Nat.toDigits 10 id
          ++ (paymentInfix.toList ++ (formatInt n).toList)) := by
    simp [SprintfPayment, formatUint, Nat.repr, List.asString, List.append_assoc]
  have h2 := scanUint_digits id hid (paymentInfix.toList ++ (formatInt n).toList) (by
    intro c hc
    have : c = ',' := by
      simpa [paymentInfix] using hc.symm
    rw [this]; decide)
  simp only [SscanfPayment, hl, advance_prefix, h2, advance_infix, scanInt_formatInt n hlo hhi]
theorem roundTrip_cases (db : DB) :
    (∃ db1, db.roundTrip = (true, db1) ∧ db1.store = db.store) ∨
    (∃ db1, db.roundTrip = (false, db1) ∧ db1.store = db.store ∧ (db.quiet → db1.quiet)) := by
  rcases db with ⟨st, sc⟩
  cases sc with
  | nil => exact Or.inr ⟨_, rfl, rfl, fun h => h⟩
  | cons b rest =>
    cases b with
    | true => exact Or.inl ⟨_, rfl, rfl⟩
    | false =>
      refine Or.inr ⟨_, rfl, rfl, fun h => ?_⟩
      intro b hb
      exact h b (List.mem_cons_of_mem _ hb)

theorem roundTrip_quiet (db : DB) (h : db.quiet) :
    ∃ db1, db.roundTrip = (false, db1) ∧ db1.store = db.store ∧ db1.quiet := by
  rcases db with ⟨st, sc⟩
  cases sc with
  | nil => exact ⟨_, rfl, rfl, h⟩
  | cons b rest =>
    have hb : b = false := h b (List.mem_cons_self _ _)
    subst hb
    exact ⟨_, rfl, rfl, fun b hb => h b (List.mem_cons_of_mem _ hb)⟩


theorem creditRepository_GetByID_ok (db db1 : DB) (id : ℕ) (c : Credit)
    (h : creditRepository.GetByID db id = (.ok c, db1)) :
    db.store.credits.find? (fun c => c.ID = id) = some c ∧ db1.store = db.store
      ∧ (db.quiet → db1.quiet) := by
  unfold creditRepository.GetByID at h
  rcases roundTrip_cases db with ⟨d, hd, hs⟩ | ⟨d, hd, hs, hq⟩
  · simp [hd] at h
  · simp only [hd, Bool.false_eq_true, if_false] at h
    split at h
    · simp at h
    · rename_i c1 hc
      simp only [Prod.mk.injEq, Except.ok.injEq] at h
      obtain ⟨rfl, rfl⟩ := h
      rw [hs] at hc
      exact ⟨hc, hs, hq⟩

theorem creditRepository_GetByID_quiet (db : DB) (id : ℕ) (c : Credit) (hq : db.quiet)
    (hc : db.store.credits.find? (fun c => c.ID = id) = some c) :
    ∃ db1, creditRepository.GetByID db id = (.ok c, db1) ∧ db1.store = db.store ∧ db1.quiet := by
  obtain ⟨d, hd, hs, hq1⟩ := roundTrip_quiet db hq
  refine ⟨d, ?_, hs, hq1⟩
  simp [creditRepository.GetByID, hd, hs, hc]

theorem accountRepository_GetByID_ok (db db1 : DB) (id : ℕ) (a : Account)
    (h : accountRepository.GetByID db id = (.ok a, db1)) :
    db.store.accounts.find? (fun a => a.ID = id) = some a ∧ db1.store = db.store
      ∧ (db.quiet → db1.quiet) := by
  unfold accountRepository.GetByID at h
  rcases roundTrip_cases db with ⟨d, hd, hs⟩ | ⟨d, hd, hs, hq⟩
  · simp [hd] at h
  · simp only [hd, Bool.false_eq_true, if_false] at h
    split at h
    · simp at h
    · rename_i c1 hc
      simp only [Prod.mk.injEq, Except.ok.injEq] at h
      obtain ⟨rfl, rfl⟩ := h
      rw [hs] at hc
      exact ⟨hc, hs, hq⟩

theorem accountRepository_GetByID_quiet (db : DB) (id : ℕ) (a : Account) (hq : db.quiet)
    (hc : db.store.accounts.find? (fun a => a.ID = id) = some a) :
    ∃ db1, accountRepository.GetByID db id = (.ok a, db1) ∧ db1.store = db.store ∧ db1.quiet := by
  obtain ⟨d, hd, hs, hq1⟩ := roundTrip_quiet db hq
  refine ⟨d, ?_, hs, hq1⟩
  simp [accountRepository.GetByID, hd, hs, hc]

theorem transactionRepository_GetByType_ok (db db1 : DB) (ty : TransactionType)
    (ts : List Transaction) (h : transactionRepository.GetByType db ty = (.ok ts, db1)) :
    ts = db.store.transactions.filter (fun t => t.TxType = ty) ∧ db1.store = db.store
      ∧ (db.quiet → db1.quiet) := by
  unfold transactionRepository.GetByType at h
  rcases roundTrip_cases db with ⟨d, hd, hs⟩ | ⟨d, hd, hs, hq⟩
  · simp [hd] at h
  · simp only [hd, Bool.false_eq_true, if_false, Prod.mk.injEq, Except.ok.injEq] at h
    obtain ⟨rfl, rfl⟩ := h
    exact ⟨by rw [hs], hs, hq⟩

theorem transactionRepository_GetByType_quiet (db : DB) (ty : TransactionType) (hq : db.quiet) :
    ∃ db1, transactionRepository.GetByType db ty
        = (.ok (db.store.transactions.filter (fun t => t.TxType = ty)), db1)
      ∧ db1.store = db.store ∧ db1.quiet := by
  obtain ⟨d, hd, hs, hq1⟩ := roundTrip_quiet db hq
  refine ⟨d, ?_, hs, hq1⟩
  simp [transactionRepository.GetByType, hd, hs]

theorem accountRepository_Update_ok (db db1 : DB) (a : Account)
    (h : accountRepository.Update db a = (.ok (), db1)) :
    0 ≤ a.Balance
      ∧ db1.store = { db.store with accounts := accountRepository.save db.store.accounts a }
      ∧ (db.quiet → db1.quiet) := by
  unfold accountRepository.Update at h
  rcases roundTrip_cases db with ⟨d, hd, hs⟩ | ⟨d, hd, hs, hq⟩
  · simp [hd] at h
  · simp only [hd, Bool.false_eq_true, if_false] at h
    split at h
    · simp at h
    · rename_i hv
      simp only [Prod.mk.injEq, true_and] at h
      subst h
      refine ⟨?_, by simp [hs], fun hq0 => hq hq0⟩
      by_contra hneg
      simp [Account.Validate, Account.ValidateBalance, not_le.mp hneg] at hv

theorem accountRepository_Update_quiet (db : DB) (a : Account) (hq : db.quiet)
    (ha : 0 ≤ a.Balance) :
    ∃ db1, accountRepository.Update db a = (.ok (), db1)
      ∧ db1.store = { db.store with accounts := accountRepository.save db.store.accounts a }
      ∧ db1.quiet := by
  obtain ⟨d, hd, hs, hq1⟩ := roundTrip_quiet db hq
  refine ⟨{ d with store := { d.store with
    accounts := accountRepository.save d.store.accounts a } }, ?_, ?_, hq1⟩
  · simp [accountRepository.Update, hd, Account.Validate, Account.ValidateBalance, not_lt.mpr ha]
  · simp [hs]

theorem transactionRepository_Create_ok (db db1 : DB) (t : Transaction)
    (h : transactionRepository.Create db t = (.ok (), db1)) :
    t.Validate = .ok ()
      ∧ db1.store = { db.store with transactions := db.store.transactions ++
          [{ t with ID := nextID (db.store.transactions.map (fun t => t.ID)) }] }
      ∧ (db.quiet → db1.quiet) := by
  unfold transactionRepository.Create at h
  rcases roundTrip_cases db with ⟨d, hd, hs⟩ | ⟨d, hd, hs, hq⟩
  · simp [hd] at h
  · simp only [hd, Bool.false_eq_true, if_false] at h
    split at h
    · simp at h
    · rename_i hv
      simp only [Prod.mk.injEq, true_and] at h
      subst h
      exact ⟨hv, by simp [hs], fun hq0 => hq hq0⟩

theorem transactionRepository_Create_quiet (db : DB) (t : Transaction) (hq : db.quiet)
    (hv : t.Validate = .ok ()) :
    ∃ db1, transactionRepository.Create db t = (.ok (), db1)
      ∧ db1.store = { db.store with transactions := db.store.transactions ++
          [{ t with ID := nextID (db.store.transactions.map (fun t => t.ID)) }] }
      ∧ db1.quiet := by
  obtain ⟨d, hd, hs, hq1⟩ := roundTrip_quiet db hq
  refine ⟨{ d with store := { d.store with transactions := d.store.transactions ++
    [{ t with ID := nextID (d.store.transactions.map (fun t => t.ID)) }] } }, ?_, ?_, hq1⟩
  · simp [transactionRepository.Create, hd, hv]
  · simp [hs]

theorem creditRepository_Update_ok (db db1 : DB) (c : Credit)
    (h : creditRepository.Update db c = (.ok (), db1)) :
    c.Validate = .ok ()
      ∧ db1.store = { db.store with credits := creditRepository.save db.store.credits c }
      ∧ (db.quiet → db1.quiet) := by
  unfold creditRepository.Update at h
  rcases roundTrip_cases db with ⟨d, hd, hs⟩ | ⟨d, hd, hs, hq⟩
  · simp [hd] at h
  · simp only [hd, Bool.false_eq_true, if_false] at h
    split at h
    · simp at h
    · rename_i hv
      simp only [Prod.mk.injEq, true_and] at h
      subst h
      exact ⟨hv, by simp [hs], fun hq0 => hq hq0⟩

theorem creditRepository_Update_quiet (db : DB) (c : Credit) (hq : db.quiet)
    (hv : c.Validate = .ok ()) :
    ∃ db1, creditRepository.Update db c = (.ok (), db1)
      ∧ db1.store = { db.store with credits := creditRepository.save db.store.credits c }
      ∧ db1.quiet := by
  obtain ⟨d, hd, hs, hq1⟩ := roundTrip_quiet db hq
  refine ⟨{ d with store := { d.store with
    credits := creditRepository.save d.store.credits c } }, ?_, ?_, hq1⟩
  · simp [creditRepository.Update, hd, hv]
  · simp [hs]


/-- The steps of a `ProcessPayment` that returns nil. -/
theorem ProcessPayment_ok_inv (db db' : DB) (now : time.Time) (creditID : ℕ) (n : ℤ)
    (h : ProcessPayment db now creditID n = (.ok (), db')) :
    ∃ (credit : Credit) (db1 : DB) (transactions : List Transaction) (db2 : DB) (creditID1 : ℕ)
      (schedule : List PaymentSchedule) (db3 : DB) (payment : PaymentSchedule)
      (account : Account) (db4 db5 db6 : DB),
      creditRepository.GetByID db creditID = (.ok credit, db1)
      ∧ transactionRepository.GetByType db1 TransactionTypePayment = (.ok transactions, db2)
      ∧ ProcessPayment.scan credit.AccountID n transactions creditID = some creditID1
      ∧ GetPaymentSchedule db2 creditID1 = (.ok schedule, db3)
      ∧ schedule.find? (fun p => p.PaymentNumber = n) = some payment
      ∧ accountRepository.GetByID db3 credit.AccountID = (.ok account, db4)
      ∧ ¬ account.Balance < payment.TotalAmount
      ∧ accountRepository.Update db4
          { account with Balance := account.Balance - payment.TotalAmount } = (.ok (), db5)
      ∧ transactionRepository.Create db5
          { ID := 0, TxType := TransactionTypePayment, FromAccountID := credit.AccountID,
            ToAccountID := 0, Amount := payment.TotalAmount,
            Description := fmt.SprintfPayment credit.ID n,
            Status := TransactionStatusCompleted } = (.ok (), db6)
      ∧ creditRepository.Update db6
          { credit with
            TotalPaid := credit.TotalPaid + payment.TotalAmount
            RemainingDebt := credit.CalculateTotalAmount - (credit.TotalPaid + payment.TotalAmount)
            LastPayment := now
            NextPayment := ({ credit with LastPayment := now }).CalculateNextPaymentDate
            Status := if n = credit.Term then CreditStatusPaid else credit.Status }
          = (.ok (), db') := by
  unfold ProcessPayment at h
  dsimp only at h
  split at h
  · simp at h
  · rename_i credit db1 h1
    split at h
    · simp at h
    · rename_i transactions db2 h2
      split at h
      · simp at h
      · rename_i creditID1 h3
        split at h
        · simp at h
        · rename_i schedule db3 h4
          split at h
          · simp at h
          · rename_i payment h5
            split at h
            · simp at h
            · rename_i account db4 h6
              split at h
              · split at h <;> simp at h
              · rename_i hbal
                split at h
                · simp at h
                · rename_i db5 h7
                  split at h
                  · simp at h
                  · rename_i db6 h8
                    split at h
                    · simp at h
                    · rename_i db7 h9
                      simp only [Prod.mk.injEq, true_and] at h
                      subst h
                      refine ⟨credit, db1, transactions, db2, creditID1, schedule, db3, payment,
                        account, db4, db5, db6, h1, h2, h3, h4, h5, h6, hbal, h7, h8, ?_⟩
                      rw [← h9]
                      congr 1
                      split_ifs <;> rfl
theorem scan_append_match (acc : ℕ) (n : ℤ) (t : Transaction) (id : ℕ)
    (ht1 : t.FromAccountID = acc) (ht2 : t.Status = TransactionStatusCompleted)
    (ht3 : ∀ cid, SscanfPayment t.Description cid = ⟨id, n, false⟩) (l : List Transaction) :
    ∀ cid0, ProcessPayment.scan acc n (l ++ [t]) cid0 = none := by
  induction l with
  | nil =>
    intro cid0
    simp [ProcessPayment.scan, ht1, ht2, ht3]
  | cons u us ih =>
    intro cid0
    simp only [List.cons_append, ProcessPayment.scan]
    split_ifs <;> first | rfl | exact ih _

theorem find?_save_credit (cs : List Credit) (c c5 : Credit) (cid : ℕ)
    (hf : cs.find? (fun x => x.ID = cid) = some c) (h5 : c5.ID = cid) :
    (creditRepository.save cs c5).find? (fun x => x.ID = cid) = some c5 := by
  unfold creditRepository.save
  have hany : cs.any (fun x => x.ID = c5.ID) = true := by
    rw [List.any_eq_true]
    exact ⟨c, List.mem_of_find?_eq_some hf, by
      have := List.find?_some hf
      simpa [h5] using this⟩
  rw [if_pos hany]
  clear hany
  induction cs with
  | nil => simp at hf
  | cons x xs ih =>
    simp only [List.map_cons, List.find?_cons]
    by_cases hx : x.ID = c5.ID
    · simp [hx, h5]
    · have hx' : ¬ x.ID = cid := by rw [← h5]; exact hx
      simp only [if_neg hx, hx', decide_False]
      apply ih
      simpa [List.find?_cons, hx'] using hf

theorem creditRepository_GetByID_store (db db1 : DB) (id : ℕ) (r : Except String Credit)
    (h : creditRepository.GetByID db id = (r, db1)) :
    db1.store = db.store ∧ (db.quiet → db1.quiet) := by
  unfold creditRepository.GetByID at h
  rcases roundTrip_cases db with ⟨d, hd, hs⟩ | ⟨d, hd, hs, hq⟩
  · simp only [hd, if_true, Prod.mk.injEq] at h
    obtain ⟨-, rfl⟩ := h
    exact ⟨hs, fun hq0 => absurd hd (by
      obtain ⟨d', hd', -⟩ := roundTrip_quiet db hq0
      rw [hd']; simp)⟩
  · simp only [hd, Bool.false_eq_true, if_false] at h
    split at h <;>
    · simp only [Prod.mk.injEq] at h
      obtain ⟨-, rfl⟩ := h
      exact ⟨hs, hq⟩

theorem GetPaymentSchedule_store (db db1 : DB) (id : ℕ) (r : Except String (List PaymentSchedule))
    (h : GetPaymentSchedule db id = (r, db1)) :
    db1.store = db.store ∧ (db.quiet → db1.quiet) := by
  rcases hg : creditRepository.GetByID db id with ⟨r0, d0⟩
  have := creditRepository_GetByID_store db d0 id r0 hg
  cases r0 with
  | error e =>
    simp only [GetPaymentSchedule, hg, Prod.mk.injEq] at h
    obtain ⟨-, rfl⟩ := h
    exact this
  | ok c =>
    simp only [GetPaymentSchedule, hg, Prod.mk.injEq] at h
    obtain ⟨-, rfl⟩ := h
    exact this

/-- What a successful `ProcessPayment` has read and written. -/
theorem ProcessPayment_ok_effects (db db' : DB) (now : time.Time) (creditID : ℕ) (n : ℤ)
    (h : ProcessPayment db now creditID n = (.ok (), db')) :
    ∃ (credit : Credit) (account : Account) (creditID1 : ℕ) (dbs dbs' : DB)
      (schedule : List PaymentSchedule) (payment : PaymentSchedule)
      (tx : Transaction) (credit5 : Credit),
      db.store.credits.find? (fun c => c.ID = creditID) = some credit
      ∧ ProcessPayment.scan credit.AccountID n
          (db.store.transactions.filter (fun t => t.TxType = TransactionTypePayment)) creditID
            = some creditID1
      ∧ GetPaymentSchedule dbs creditID1 = (.ok schedule, dbs') ∧ dbs.store = db.store
      ∧ schedule.find? (fun p => p.PaymentNumber = n) = some payment
      ∧ db.store.accounts.find? (fun a => a.ID = credit.AccountID) = some account
      ∧ payment.TotalAmount ≤ account.Balance
      ∧ tx = { ID := 0, TxType := TransactionTypePayment, FromAccountID := credit.AccountID,
               ToAccountID := 0, Amount := payment.TotalAmount,
               Description := fmt.SprintfPayment credit.ID n,
               Status := TransactionStatusCompleted }
      ∧ tx.Validate = .ok ()
      ∧ credit5 = { credit with
            TotalPaid := credit.TotalPaid + payment.TotalAmount
            RemainingDebt := credit.CalculateTotalAmount - (credit.TotalPaid + payment.TotalAmount)
            LastPayment := now
            NextPayment := ({ credit with LastPayment := now }).CalculateNextPaymentDate
            Status := if n = credit.Term then CreditStatusPaid else credit.Status }
      ∧ credit5.Validate = .ok ()
      ∧ db'.store =
          { db.store with
            credits := creditRepository.save db.store.credits credit5
            accounts := accountRepository.save db.store.accounts
              { account with Balance := account.Balance - payment.TotalAmount }
            transactions := db.store.transactions ++
              [{ tx with ID := nextID (db.store.transactions.map (fun t => t.ID)) }] }
      ∧ (db.quiet → db'.quiet) := by
  obtain ⟨credit, d1, transactions, d2, creditID1, schedule, d3, payment, account, d4, d5, d6,
    h1, h2, h3, h4, h5, h6, hbal, h7, h8, h9⟩ := ProcessPayment_ok_inv db db' now creditID n h
  obtain ⟨hc, hs1, hq1⟩ := creditRepository_GetByID_ok _ _ _ _ h1
  obtain ⟨htxs, hs2, hq2⟩ := transactionRepository_GetByType_ok _ _ _ _ h2
  obtain ⟨hs3, hq3⟩ := GetPaymentSchedule_store _ _ _ _ h4
  obtain ⟨hacc, hs4, hq4⟩ := accountRepository_GetByID_ok _ _ _ _ h6
  obtain ⟨-, hs5, hq5⟩ := accountRepository_Update_ok _ _ _ h7
  obtain ⟨hv6, hs6, hq6⟩ := transactionRepository_Create_ok _ _ _ h8
  obtain ⟨hv7, hs7, hq7⟩ := creditRepository_Update_ok _ _ _ h9
  refine ⟨credit, account, creditID1, d2, d3, schedule, payment, _, _, hc, ?_, h4, ?_, h5, ?_,
    not_lt.mp hbal, rfl, hv6, rfl, hv7, ?_, fun hq => hq7 (hq6 (hq5 (hq4 (hq3 (hq2 (hq1 hq))))))⟩
  · rw [← hs1, ← htxs]; exact h3
  · rw [hs2, hs1]
  · rw [← hs1, ← hs2, ← hs3]; exact hacc
  · rw [hs7, hs6, hs5, hs4, hs3, hs2, hs1]

/-! ## Runs of `ProcessPayment` -/

/-- The run of `ProcessPayment` that finds the installment already paid. -/
theorem ProcessPayment_run_processed (db db1 db2 : DB) (now : time.Time) (creditID : ℕ) (n : ℤ)
    (credit : Credit) (transactions : List Transaction)
    (h1 : creditRepository.GetByID db creditID = (.ok credit, db1))
    (h2 : transactionRepository.GetByType db1 TransactionTypePayment = (.ok transactions, db2))
    (h3 : ProcessPayment.scan credit.AccountID n transactions creditID = none) :
    ProcessPayment db now creditID n
      = (.error ("payment #" ++ fmt.formatInt n ++ " already processed"), db2) := by
  unfold ProcessPayment
  simp only [h1, h2, h3]

/-- The run of `ProcessPayment` that finds the balance too low. -/
theorem ProcessPayment_run_insufficient (db db1 db2 db3 db4 db5 : DB) (now : time.Time)
    (creditID creditID1 : ℕ) (n : ℤ) (credit : Credit) (transactions : List Transaction)
    (schedule : List PaymentSchedule) (payment : PaymentSchedule) (account : Account)
    (h1 : creditRepository.GetByID db creditID = (.ok credit, db1))
    (h2 : transactionRepository.GetByType db1 TransactionTypePayment = (.ok transactions, db2))
    (h3 : ProcessPayment.scan credit.AccountID n transactions creditID = some creditID1)
    (h4 : GetPaymentSchedule db2 creditID1 = (.ok schedule, db3))
    (h5 : schedule.find? (fun p => p.PaymentNumber = n) = some payment)
    (h6 : accountRepository.GetByID db3 credit.AccountID = (.ok account, db4))
    (hbal : account.Balance < payment.TotalAmount)
    (h7 : creditRepository.Update db4 { credit with Status := CreditStatusOverdue }
      = (.ok (), db5)) :
    ProcessPayment db now creditID n = (.error "insufficient funds, penalty applied", db5) := by
  unfold ProcessPayment
  simp only [h1, h2, h3, h4, h5, h6, if_pos hbal, h7]

/-- The run of `ProcessPayment` that applies the payment. -/
theorem ProcessPayment_run_paid (db db1 db2 db3 db4 db5 db6 db7 : DB) (now : time.Time)
    (creditID creditID1 : ℕ) (n : ℤ) (credit : Credit) (transactions : List Transaction)
    (schedule : List PaymentSchedule) (payment : PaymentSchedule) (account : Account)
    (h1 : creditRepository.GetByID db creditID = (.ok credit, db1))
    (h2 : transactionRepository.GetByType db1 TransactionTypePayment = (.ok transactions, db2))
    (h3 : ProcessPayment.scan credit.AccountID n transactions creditID = some creditID1)
    (h4 : GetPaymentSchedule db2 creditID1 = (.ok schedule, db3))
    (h5 : schedule.find? (fun p => p.PaymentNumber = n) = some payment)
    (h6 : accountRepository.GetByID db3 credit.AccountID = (.ok account, db4))
    (hbal : payment.TotalAmount ≤ account.Balance)
    (h7 : accountRepository.Update db4
      { account with Balance := account.Balance - payment.TotalAmount } = (.ok (), db5))
    (h8 : transactionRepository.Create db5
      { ID := 0, TxType := TransactionTypePayment, FromAccountID := credit.AccountID,
        ToAccountID := 0, Amount := payment.TotalAmount,
        Description := fmt.SprintfPayment credit.ID n,
        Status := TransactionStatusCompleted } = (.ok (), db6))
    (h9 : creditRepository.Update db6
      { credit with
        TotalPaid := credit.TotalPaid + payment.TotalAmount
        RemainingDebt := credit.CalculateTotalAmount - (credit.TotalPaid + payment.TotalAmount)
        LastPayment := now
        NextPayment := ({ credit with LastPayment := now }).CalculateNextPaymentDate
        Status := if n = credit.Term then CreditStatusPaid else credit.Status }
      = (.ok (), db7)) :
    ProcessPayment db now creditID n = (.ok (), db7) := by
  unfold ProcessPayment
  simp only [h1, h2, h3, h4, h5, h6, if_neg (not_lt.mpr hbal), h7, h8]
  by_cases hn : n = credit.Term
  · simp only [if_pos hn] at h9 ⊢
    erw [h9]
  · simp only [if_neg hn] at h9 ⊢
    erw [h9]
theorem Credit_Validate_ok (c : Credit) (hA : 0 < c.Amount) (hT : 0 < c.Term) (hT' : c.Term ≤ 360)
    (hR : 0 < c.InterestRate) (hR' : c.InterestRate ≤ 100) (hD : 1 ≤ c.PaymentDay)
    (hD' : c.PaymentDay ≤ 31)
    (hS : c.Status = CreditStatusPending ∨ c.Status = CreditStatusActive
      ∨ c.Status = CreditStatusPaid ∨ c.Status = CreditStatusOverdue
      ∨ c.Status = CreditStatusCancelled) :
    c.Validate = .ok () := by
  simp only [Credit.Validate, Credit.ValidateAmount, Credit.ValidateTerm,
    Credit.ValidateInterestRate, Credit.ValidatePaymentDay, Credit.ValidateStatus,
    if_neg (not_le.mpr hA), if_neg (not_or.mpr ⟨not_le.mpr hT, not_lt.mpr hT'⟩),
    if_neg (not_or.mpr ⟨not_le.mpr hR, not_lt.mpr hR'⟩),
    if_neg (not_or.mpr ⟨not_lt.mpr hD, not_lt.mpr hD'⟩), if_pos hS]

theorem creditRepository_Update_nil (db : DB) (c : Credit) (hs : db.script = [])
    (hv : c.Validate = .ok ()) :
    creditRepository.Update db c
      = (.ok (), { db with store := { db.store with
          credits := creditRepository.save db.store.credits c } }) := by
  simp [creditRepository.Update, DB.roundTrip, hs, hv]

theorem accountRepository_Update_nil (db : DB) (a : Account) (hs : db.script = [])
    (ha : 0 ≤ a.Balance) :
    accountRepository.Update db a
      = (.ok (), { db with store := { db.store with
          accounts := accountRepository.save db.store.accounts a } }) := by
  simp [accountRepository.Update, DB.roundTrip, hs, Account.Validate, Account.ValidateBalance,
    not_lt.mpr ha]

theorem transactionRepository_Create_nil (db : DB) (t : Transaction) (hs : db.script = [])
    (hty : t.TxType = TransactionTypePayment) (hst : t.Status = TransactionStatusCompleted)
    (ha : 0 < t.Amount) :
    transactionRepository.Create db t
      = (.ok (), { db with store := { db.store with transactions := db.store.transactions ++
          [{ t with ID := nextID (db.store.transactions.map (fun t => t.ID)) }] } }) := by
  have hv : t.Validate = .ok () := by
    have h1 : ¬ TransactionTypePayment = TransactionTypeTransfer := by decide
    have h2 : ¬ TransactionTypePayment = TransactionTypeDeposit := by decide
    have h3 : ¬ TransactionTypePayment = TransactionTypeWithdrawal := by decide
    simp [Transaction.Validate, Transaction.ValidateType, Transaction.ValidateStatus,
      Transaction.ValidateAmount, Transaction.ValidateAccounts, hty, hst, not_le.mpr ha,
      h1, h2, h3]
  simp [transactionRepository.Create, DB.roundTrip, hs, hv]

/-! ## Paying an installment -/

theorem sample_monthly : sample.credit.CalculateMonthlyPayment = 10201 / 201 := by
  simp only [Credit.CalculateMonthlyPayment, pow_eq_zpow, sample.credit]
  norm_num

theorem sampleB_monthly : sample.creditB.CalculateMonthlyPayment = 10201 / 2010 := by
  simp only [Credit.CalculateMonthlyPayment, pow_eq_zpow, sample.creditB]
  norm_num

theorem sample_credit_valid (s : CreditStatus)
    (hS : s = CreditStatusActive ∨ s = CreditStatusOverdue ∨ s = CreditStatusPaid) (a b : ℚ)
    (t u : time.Time) :
    ({ sample.credit with
        Status := s
        TotalPaid := a
        RemainingDebt := b
        LastPayment := t
        NextPayment := u } : Credit).Validate = .ok () :=
  Credit_Validate_ok _ (by norm_num [sample.credit]) (by norm_num [sample.credit])
    (by norm_num [sample.credit]) (by norm_num [sample.credit]) (by norm_num [sample.credit])
    (by norm_num [sample.credit]) (by norm_num [sample.credit])
    (by rcases hS with h | h | h <;> simp [h])

/-- The first installment of the sample loan is paid from the sample store. -/
theorem sample_first_payment :
    ProcessPayment sample.db sample.now 1 1 = (.ok (), sample.dbPaid) := by
  refine ProcessPayment_run_paid sample.db sample.db sample.db sample.db sample.db _ _ _
    sample.now 1 1 1 sample.credit [] _ _ sample.account rfl rfl rfl rfl rfl rfl ?_
    (accountRepository_Update_nil _ _ rfl ?_) (transactionRepository_Create_nil _ _ rfl rfl rfl ?_)
    (creditRepository_Update_nil _ _ rfl ?_)
  · show sample.credit.CalculateMonthlyPayment ≤ sample.account.Balance
    rw [sample_monthly]; norm_num [sample.account]
  · show 0 ≤ sample.account.Balance - sample.credit.CalculateMonthlyPayment
    rw [sample_monthly]; norm_num [sample.account]
  · show 0 < sample.credit.CalculateMonthlyPayment
    rw [sample_monthly]; norm_num
  · exact sample_credit_valid _ (Or.inl rfl) _ _ _ _

/-- The last installment of the sample loan is paid from the sample store. -/
theorem sample_last_payment :
    ProcessPayment sample.db sample.now 1 2 = (.ok (), sample.dbPaidLast) := by
  refine ProcessPayment_run_paid sample.db sample.db sample.db sample.db sample.db _ _ _
    sample.now 1 1 2 sample.credit [] _ _ sample.account rfl rfl rfl rfl rfl rfl ?_
    (accountRepository_Update_nil _ _ rfl ?_) (transactionRepository_Create_nil _ _ rfl rfl rfl ?_)
    (creditRepository_Update_nil _ _ rfl ?_)
  · show sample.credit.CalculateMonthlyPayment ≤ sample.account.Balance
    rw [sample_monthly]; norm_num [sample.account]
  · show 0 ≤ sample.account.Balance - sample.credit.CalculateMonthlyPayment
    rw [sample_monthly]; norm_num [sample.account]
  · show 0 < sample.credit.CalculateMonthlyPayment
    rw [sample_monthly]; norm_num
  · exact sample_credit_valid _ (Or.inr (Or.inr rfl)) _ _ _ _

/-- C4: when a first `ProcessPayment(creditID, n)` returns nil, the call that
follows it (no database round trip failing) returns the error
"payment #n already processed" and leaves every table of the store as the
first call left it: the credit record, the transaction log with the single
record the first call appended, and the account table with the single debit
of the first call.  `creditID` and `n` range over the machine integers. -/
theorem ProcessPayment_twice (db db1 : DB) (now now2 : time.Time) (creditID : ℕ) (n : ℤ)
    (hid : creditID < 2 ^ 64) (hlo : -(2 ^ 63 : ℤ) ≤ n) (hhi : n < 2 ^ 63)
    (hfirst : ProcessPayment db now creditID n = (.ok (), db1))
    (hquiet : db1.quiet) :
    ∃ db2, ProcessPayment db1 now2 creditID n
        = (.error ("payment #" ++ fmt.formatInt n ++ " already processed"), db2)
      ∧ db2.store = db1.store
      ∧ ∃ (credit : Credit) (account : Account) (amount : ℚ) (tx : Transaction),
          db.store.credits.find? (fun c => c.ID = creditID) = some credit
          ∧ db.store.accounts.find? (fun a => a.ID = credit.AccountID) = some account
          ∧ db2.store.accounts = accountRepository.save db.store.accounts
              { account with Balance := account.Balance - amount }
          ∧ db2.store.transactions = db.store.transactions ++ [tx]
          ∧ tx.Amount = amount ∧ tx.FromAccountID = credit.AccountID := by
  obtain ⟨credit, account, creditID1, dbs, dbs', schedule, payment, tx, credit5, hc, hscan, hsch,
    hdbs, hpay, hacc, hbal, htx, htxv, hc5, hc5v, hstore, -⟩ :=
    ProcessPayment_ok_effects db db1 now creditID n hfirst
  have hcid : credit.ID = creditID := by simpa using List.find?_some hc
  have hc' := find?_save_credit db.store.credits credit credit5 creditID hc
    (by rw [hc5]; exact hcid)
  have hcredits : db1.store.credits = creditRepository.save db.store.credits credit5 := by
    rw [hstore]
  have htxs : db1.store.transactions = db.store.transactions ++
      [{ tx with ID := nextID (db.store.transactions.map (fun t => t.ID)) }] := by
    rw [hstore]
  rw [← hcredits] at hc'
  obtain ⟨e1, he1, hes1, heq1⟩ := creditRepository_GetByID_quiet db1 creditID credit5 hquiet hc'
  obtain ⟨e2, he2, hes2, -⟩ := transactionRepository_GetByType_quiet e1 TransactionTypePayment heq1
  have hscan2 : ProcessPayment.scan credit5.AccountID n
      (e1.store.transactions.filter (fun t => t.TxType = TransactionTypePayment)) creditID
        = none := by
    rw [hes1, htxs, List.filter_append]
    have hty : tx.TxType = TransactionTypePayment := by rw [htx]
    simp only [List.filter_cons, List.filter_nil, hty, decide_True, if_true]
    apply scan_append_match _ _ _ credit.ID (by rw [htx, hc5]) (by rw [htx])
    intro cid
    rw [htx]
    exact SscanfPayment_SprintfPayment credit.ID n (by rw [hcid]; exact hid) hlo hhi cid
  refine ⟨e2, ProcessPayment_run_processed db1 e1 e2 now2 creditID n credit5 _ he1 he2 hscan2,
    by rw [hes2, hes1], credit, account, payment.TotalAmount,
    { tx with ID := nextID (db.store.transactions.map (fun t => t.ID)) }, hc, hacc,
    ?_, ?_, ?_, ?_⟩
  · rw [hes2, hes1, hstore]
  · rw [hes2, hes1, htxs]
  · rw [htx]
  · rw [htx]

theorem ProcessPayment_twice_witness :
    ∃ db2, ProcessPayment sample.dbPaid sample.now 1 1
        = (.error ("payment #" ++ fmt.formatInt 1 ++ " already processed"), db2)
      ∧ db2.store = sample.dbPaid.store
      ∧ ∃ (credit : Credit) (account : Account) (amount : ℚ) (tx : Transaction),
          sample.db.store.credits.find? (fun c => c.ID = 1) = some credit
          ∧ sample.db.store.accounts.find? (fun a => a.ID = credit.AccountID) = some account
          ∧ db2.store.accounts = accountRepository.save sample.db.store.accounts
              { account with Balance := account.Balance - amount }
          ∧ db2.store.transactions = sample.db.store.transactions ++ [tx]
          ∧ tx.Amount = amount ∧ tx.FromAccountID = credit.AccountID :=
  ProcessPayment_twice sample.db sample.dbPaid sample.now sample.now 1 1 (by norm_num)
    (by norm_num) (by norm_num) sample_first_payment (by intro b hb; cases hb)
/-- C5: two loans share account 10, which holds 500; the log records
installment 2 of the second loan.  `ProcessPayment(1, 1)` returns nil, but the
duplicate check has left the number of the second loan in `creditID`, so the
installment is taken from the second loan's schedule: the account is debited
by 10201/2010 and `TotalPaid` of the first loan rises by 10201/2010, while
`CalculateMonthlyPayment()` of the first loan is 10201/201. -/
theorem ProcessPayment_debits_other_credit :
    ProcessPayment (sample.dbShared 500 2) sample.now 1 1 = (.ok (), sample.dbSharedPaid 500)
      ∧ sample.credit.CalculateMonthlyPayment = 10201 / 201
      ∧ (sample.dbSharedPaid 500).store.accounts.map (fun a => a.Balance) = [500 - 10201 / 2010]
      ∧ (sample.dbSharedPaid 500).store.credits.map (fun c => c.TotalPaid) = [0 + 10201 / 2010, 0]
      ∧ (sample.dbSharedPaid 500).store.transactions.map (fun t => t.Amount)
          = [10201 / 2010, 10201 / 2010] := by
  refine ⟨?_, sample_monthly, ?_, ?_, ?_⟩
  · refine ProcessPayment_run_paid (sample.dbShared 500 2) (sample.dbShared 500 2)
      (sample.dbShared 500 2) (sample.dbShared 500 2) (sample.dbShared 500 2) _ _ _
      sample.now 1 2 1 sample.credit _ _ _ { sample.account with Balance := 500 }
      rfl rfl (by decide) rfl rfl rfl ?_
      (accountRepository_Update_nil _ _ rfl ?_) (transactionRepository_Create_nil _ _ rfl rfl rfl ?_)
      (creditRepository_Update_nil _ _ rfl ?_)
    · show sample.creditB.CalculateMonthlyPayment ≤ 500
      rw [sampleB_monthly]; norm_num
    · show 0 ≤ (500 : ℚ) - sample.creditB.CalculateMonthlyPayment
      rw [sampleB_monthly]; norm_num
    · show 0 < sample.creditB.CalculateMonthlyPayment
      rw [sampleB_monthly]; norm_num
    · exact sample_credit_valid _ (Or.inl rfl) _ _ _ _
  · simp [sample.dbSharedPaid, sampleB_monthly, sample.account]
  · simp only [sample.dbSharedPaid, sample.creditAfter, List.map_cons, List.map_nil,
      sampleB_monthly]
    rfl
  · simp [sample.dbSharedPaid, sampleB_monthly, sample.paymentTx]

/-- C6: two loans share account 10; the log records installment 1 of the
second loan and no payment of the first loan.  `ProcessPayment(1, 1)` returns
"payment #1 already processed" and changes nothing. -/
theorem ProcessPayment_rejects_unpaid_installment :
    ProcessPayment (sample.dbShared 500 1) sample.now 1 1
        = (.error "payment #1 already processed", sample.dbShared 500 1)
      ∧ (sample.dbShared 500 1).store.transactions.map
          (fun t => (t.TxType, t.Status, t.Description))
          = [(TransactionTypePayment, TransactionStatusCompleted,
              "Платеж по кредиту #2, платеж #1")] :=
  ⟨ProcessPayment_run_processed (sample.dbShared 500 1) (sample.dbShared 500 1)
    (sample.dbShared 500 1) sample.now 1 1 sample.credit _ rfl rfl (by decide), by decide⟩

/-- C7: two loans share account 10, which holds 20, less than the installment
10201/201 of the first loan; the log records installment 2 of the second
loan.  `ProcessPayment(1, 1)` does not fail: the installment is taken from
the second loan's schedule, the account is debited by 10201/2010 and a
transaction is appended. -/
theorem ProcessPayment_pays_despite_low_balance :
    ProcessPayment (sample.dbShared 20 2) sample.now 1 1 = (.ok (), sample.dbSharedPaid 20)
      ∧ (20 : ℚ) < sample.credit.CalculateMonthlyPayment
      ∧ (sample.dbSharedPaid 20).store.accounts.map (fun a => a.Balance) = [20 - 10201 / 2010]
      ∧ (sample.dbSharedPaid 20).store.transactions.length = 2
      ∧ (sample.dbSharedPaid 20).store.credits.map (fun c => c.Status)
          = [CreditStatusActive, CreditStatusActive] := by
  refine ⟨?_, ?_, ?_, rfl, rfl⟩
  · refine ProcessPayment_run_paid (sample.dbShared 20 2) (sample.dbShared 20 2)
      (sample.dbShared 20 2) (sample.dbShared 20 2) (sample.dbShared 20 2) _ _ _
      sample.now 1 2 1 sample.credit _ _ _ { sample.account with Balance := 20 }
      rfl rfl (by decide) rfl rfl rfl ?_
      (accountRepository_Update_nil _ _ rfl ?_) (transactionRepository_Create_nil _ _ rfl rfl rfl ?_)
      (creditRepository_Update_nil _ _ rfl ?_)
    · show sample.creditB.CalculateMonthlyPayment ≤ 20
      rw [sampleB_monthly]; norm_num
    · show 0 ≤ (20 : ℚ) - sample.creditB.CalculateMonthlyPayment
      rw [sampleB_monthly]; norm_num
    · show 0 < sample.creditB.CalculateMonthlyPayment
      rw [sampleB_monthly]; norm_num
    · exact sample_credit_valid _ (Or.inl rfl) _ _ _ _
  · rw [sample_monthly]; norm_num
  · simp [sample.dbSharedPaid, sampleB_monthly, sample.account]

/-- C8: the sample loan on an account holding 0.  `ProcessPayment(1, 1)` fails
with "insufficient funds, penalty applied" and stores the credit with Status
OVERDUE, but the stored `OverdueAmount` is still 0, not 0 plus a tenth of the
installment 10201/201. -/
theorem ProcessPayment_penalty_not_stored :
    ProcessPayment sample.dbEmpty sample.now 1 1
        = (.error "insufficient funds, penalty applied", sample.dbEmptyAfter)
      ∧ sample.dbEmpty.store.credits.map (fun c => c.OverdueAmount) = [0]
      ∧ sample.dbEmptyAfter.store.credits.map (fun c => (c.Status, c.OverdueAmount))
          = [(CreditStatusOverdue, 0)]
      ∧ (0 : ℚ) + 1 / 10 * sample.credit.CalculateMonthlyPayment = 10201 / 2010 := by
  refine ⟨?_, rfl, rfl, ?_⟩
  · refine ProcessPayment_run_insufficient sample.dbEmpty sample.dbEmpty sample.dbEmpty
      sample.dbEmpty sample.dbEmpty _ sample.now 1 1 1 sample.credit [] _ _
      { sample.account with Balance := 0 } rfl rfl rfl rfl rfl rfl ?_
      (creditRepository_Update_nil _ _ rfl ?_)
    · show (0 : ℚ) < sample.credit.CalculateMonthlyPayment
      rw [sample_monthly]; norm_num
    · exact sample_credit_valid _ (Or.inr (Or.inl rfl)) _ _ _ _
  · rw [sample_monthly]; norm_num

/-- C9: when `ProcessPayment(creditID, n)` on the stored credit `c` returns
nil, the credit stored under `creditID` afterwards has Status PAID if
`n = c.Term`, whatever `RemainingDebt` is and whatever was paid before, and
has the Status `c` had if `n ≠ c.Term`. -/
theorem ProcessPayment_final_installment_closes (db db1 : DB) (now : time.Time)
    (creditID : ℕ) (n : ℤ) (c : Credit)
    (hc : db.store.credits.find? (fun x => x.ID = creditID) = some c)
    (hpaid : ProcessPayment db now creditID n = (.ok (), db1)) :
    ∃ c1, db1.store.credits.find? (fun x => x.ID = creditID) = some c1
      ∧ (n = c.Term → c1.Status = CreditStatusPaid)
      ∧ (n ≠ c.Term → c1.Status = c.Status) := by
  obtain ⟨credit, account, creditID1, dbs, dbs', schedule, payment, tx, credit5, hc', -, -,
    -, -, -, -, -, -, hc5, -, hstore, -⟩ :=
    ProcessPayment_ok_effects db db1 now creditID n hpaid
  rw [hc] at hc'
  obtain rfl : c = credit := Option.some.inj hc'
  have hcid : c.ID = creditID := by simpa using List.find?_some hc
  refine ⟨credit5, ?_, ?_, ?_⟩
  · rw [hstore]
    exact find?_save_credit db.store.credits c credit5 creditID hc (by rw [hc5]; exact hcid)
  · intro hn
    rw [hc5]
    simp [hn]
  · intro hn
    rw [hc5]
    simp [hn]

theorem ProcessPayment_final_installment_closes_witness :
    ∃ c1, sample.dbPaidLast.store.credits.find? (fun x => x.ID = 1) = some c1
      ∧ ((2 : ℤ) = sample.credit.Term → c1.Status = CreditStatusPaid)
      ∧ ((2 : ℤ) ≠ sample.credit.Term → c1.Status = sample.credit.Status) :=
  ProcessPayment_final_installment_closes sample.db sample.dbPaidLast sample.now 1 2
    sample.credit rfl sample_last_payment

/-- A closed credit keeps its Status in `UpdateStatus`. -/
theorem UpdateStatus_keeps_closed (c : Credit) (now : time.Time)
    (h : c.Status = CreditStatusPaid ∨ c.Status = CreditStatusCancelled) :
    (c.UpdateStatus now).Status = c.Status := by
  have hne : ¬ c.Status = CreditStatusActive := by
    rcases h with h | h <;> rw [h] <;> decide
  simp [Credit.UpdateStatus, hne]

/-- A closed credit is refused, unchanged, by `MakePayment`. -/
theorem MakePayment_keeps_closed (c : Credit) (now now2 : time.Time) (amount : ℚ)
    (h : c.Status = CreditStatusPaid ∨ c.Status = CreditStatusCancelled) :
    c.MakePayment now now2 amount = (.error ErrCreditNotActive, c) := by
  have hne : c.Status ≠ CreditStatusActive ∧ c.Status ≠ CreditStatusOverdue := by
    rcases h with h | h <;> rw [h] <;> decide
  simp [Credit.MakePayment, hne]

/-- C10: the sample loan is closed (Status PAID, its last installment paid)
and its account holds 0.  `ProcessPayment(1, 1)` stores the credit with Status
OVERDUE. -/
theorem ProcessPayment_reopens_paid_credit :
    ProcessPayment sample.dbClosed sample.now 1 1
        = (.error "insufficient funds, penalty applied", sample.dbClosedAfter)
      ∧ sample.dbClosed.store.credits.map (fun c => c.Status) = [CreditStatusPaid]
      ∧ sample.dbClosedAfter.store.credits.map (fun c => c.Status) = [CreditStatusOverdue] := by
  refine ⟨?_, rfl, rfl⟩
  refine ProcessPayment_run_insufficient sample.dbClosed sample.dbClosed sample.dbClosed
    sample.dbClosed sample.dbClosed _ sample.now 1 1 1
    (sample.creditAfter sample.credit sample.credit.CalculateMonthlyPayment CreditStatusPaid)
    _ _ _ { sample.account with Balance := 0 } rfl rfl (by decide) rfl rfl rfl ?_
    (creditRepository_Update_nil _ _ rfl ?_)
  · show (0 : ℚ) < sample.credit.CalculateMonthlyPayment
    rw [sample_monthly]; norm_num
  · exact sample_credit_valid _ (Or.inr (Or.inl rfl)) _ _ _ _

/-! ## `ProcessPayment` over a log that names no other credit -/

/-- Installment `n` of the schedule is found, with the monthly payment as its
total. -/
theorem loop_find (c : Credit) (r : ℚ) (n : ℤ) (k : ℕ) :
    ∀ (i : ℤ) (rem : ℚ), i ≤ n → n < i + k →
      ∃ p, (GetPaymentSchedule.loop c r k i rem).find? (fun p => p.PaymentNumber = n) = some p
        ∧ p.TotalAmount = c.CalculateMonthlyPayment := by
  induction k with
  | zero => intro i rem h1 h2; simp at h2; omega
  | succ k ih =>
    intro i rem h1 h2
    simp only [GetPaymentSchedule.loop, List.find?_cons]
    by_cases hi : i = n
    · simp only [hi, decide_True]
      exact ⟨_, rfl, rfl⟩
    · simp only [hi, decide_False]
      exact ih (i + 1) _ (by omega) (by push_cast at h2; omega)

/-- The duplicate check passes, and leaves `creditID` alone, when every
completed payment of the account in the log either does not name a credit or
names this credit, and none records installment `n`. -/
theorem scan_own (acc : ℕ) (n : ℤ) (cid : ℕ) (ts : List Transaction)
    (h : ∀ t ∈ ts, t.FromAccountID = acc → t.Status = TransactionStatusCompleted →
      (SscanfPayment t.Description cid).creditID = cid
        ∧ ¬ ((SscanfPayment t.Description cid).failed = false
          ∧ (SscanfPayment t.Description cid).paidPaymentNumber = n)) :
    ProcessPayment.scan acc n ts cid = some cid := by
  induction ts with
  | nil => rfl
  | cons t ts ih =>
    have iht := ih (fun u hu => h u (List.mem_cons_of_mem _ hu))
    simp only [ProcessPayment.scan]
    by_cases ht : t.FromAccountID = acc ∧ t.Status = TransactionStatusCompleted
    · obtain ⟨hid, hno⟩ := h t (List.mem_cons_self _ _) ht.1 ht.2
      rw [if_pos ht, if_neg hno, hid]
      exact iht
    · rw [if_neg ht]
      exact iht

theorem GetPaymentSchedule_quiet (db : DB) (creditID : ℕ) (c : Credit) (hq : db.quiet)
    (hc : db.store.credits.find? (fun x => x.ID = creditID) = some c) :
    ∃ (d : Credit) (db1 : DB), d.Amount = c.Amount ∧ d.Term = c.Term
      ∧ d.InterestRate = c.InterestRate
      ∧ GetPaymentSchedule db creditID
          = (.ok (GetPaymentSchedule.loop d (c.InterestRate / 12 / 100) c.Term.toNat 1 c.Amount),
              db1)
      ∧ db1.store = db.store ∧ db1.quiet := by
  obtain ⟨db1, hg, hs, hq1⟩ := creditRepository_GetByID_quiet db creditID c hq hc
  obtain ⟨d, hA, hT, hR, hsch⟩ := GetPaymentSchedule_of_get db db1 creditID c hg
  exact ⟨d, db1, hA, hT, hR, hsch, hs, hq1⟩

theorem Credit_Validate_inv (c : Credit) (h : c.Validate = .ok ()) :
    0 < c.Amount ∧ 0 < c.Term ∧ c.Term ≤ 360 ∧ 0 < c.InterestRate ∧ c.InterestRate ≤ 100
      ∧ 1 ≤ c.PaymentDay ∧ c.PaymentDay ≤ 31
      ∧ (c.Status = CreditStatusPending ∨ c.Status = CreditStatusActive
        ∨ c.Status = CreditStatusPaid ∨ c.Status = CreditStatusOverdue
        ∨ c.Status = CreditStatusCancelled) := by
  simp only [Credit.Validate, Credit.ValidateAmount, Credit.ValidateTerm,
    Credit.ValidateInterestRate, Credit.ValidatePaymentDay, Credit.ValidateStatus] at h
  by_cases hA : c.Amount ≤ 0
  · simp [hA] at h
  by_cases hT : c.Term ≤ 0 ∨ c.Term > 360
  · simp [hA, hT] at h
  by_cases hR : c.InterestRate ≤ 0 ∨ c.InterestRate > 100
  · simp [hA, hT, hR] at h
  by_cases hD : c.PaymentDay < 1 ∨ c.PaymentDay > 31
  · simp [hA, hT, hR, hD] at h
  by_cases hS : c.Status = CreditStatusPending ∨ c.Status = CreditStatusActive
        ∨ c.Status = CreditStatusPaid ∨ c.Status = CreditStatusOverdue
        ∨ c.Status = CreditStatusCancelled
  · rw [not_or] at hT hR hD
    exact ⟨not_le.mp hA, not_le.mp hT.1, not_lt.mp hT.2, not_le.mp hR.1, not_lt.mp hR.2,
      not_lt.mp hD.1, not_lt.mp hD.2, hS⟩
  · simp [hA, hT, hR, hD, hS] at h

/-- A payment record with a positive amount passes `Transaction.Validate`. -/
theorem payment_record_valid (t : Transaction) (hty : t.TxType = TransactionTypePayment)
    (hst : t.Status = TransactionStatusCompleted) (ha : 0 < t.Amount) :
    t.Validate = .ok () := by
  have h1 : ¬ TransactionTypePayment = TransactionTypeTransfer := by decide
  have h2 : ¬ TransactionTypePayment = TransactionTypeDeposit := by decide
  have h3 : ¬ TransactionTypePayment = TransactionTypeWithdrawal := by decide
  simp [Transaction.Validate, Transaction.ValidateType, Transaction.ValidateStatus,
    Transaction.ValidateAmount, Transaction.ValidateAccounts, hty, hst, not_le.mpr ha,
    h1, h2, h3]

/-- The happy path of `ProcessPayment` over a log whose completed payments of
the account name no other credit: the account is debited by the monthly
payment of the credit, which is added to `TotalPaid`, and one COMPLETED
PAYMENT record of that amount is appended. -/
theorem ProcessPayment_pays_own_installment (db : DB) (now : time.Time) (creditID : ℕ) (n : ℤ)
    (c : Credit) (a : Account) (hq : db.quiet)
    (hc : db.store.credits.find? (fun x => x.ID = creditID) = some c)
    (hv : c.Validate = .ok ())
    (hn1 : 1 ≤ n) (hn2 : n ≤ c.Term)
    (hlog : ∀ t ∈ db.store.transactions, t.TxType = TransactionTypePayment →
      t.FromAccountID = c.AccountID → t.Status = TransactionStatusCompleted →
      (SscanfPayment t.Description creditID).creditID = creditID
        ∧ ¬ ((SscanfPayment t.Description creditID).failed = false
          ∧ (SscanfPayment t.Description creditID).paidPaymentNumber = n))
    (ha : db.store.accounts.find? (fun x => x.ID = c.AccountID) = some a)
    (hbal : c.CalculateMonthlyPayment ≤ a.Balance) :
    ∃ db1, ProcessPayment db now creditID n = (.ok (), db1)
      ∧ db1.store.accounts = accountRepository.save db.store.accounts
          { a with Balance := a.Balance - c.CalculateMonthlyPayment }
      ∧ db1.store.credits = creditRepository.save db.store.credits
          { c with
            TotalPaid := c.TotalPaid + c.CalculateMonthlyPayment
            RemainingDebt := c.CalculateTotalAmount - (c.TotalPaid + c.CalculateMonthlyPayment)
            LastPayment := now
            NextPayment := ({ c with LastPayment := now }).CalculateNextPaymentDate
            Status := if n = c.Term then CreditStatusPaid else c.Status }
      ∧ db1.store.transactions = db.store.transactions ++
          [{ ID := nextID (db.store.transactions.map (fun t => t.ID))
             TxType := TransactionTypePayment
             Status := TransactionStatusCompleted
             Amount := c.CalculateMonthlyPayment
             FromAccountID := c.AccountID
             ToAccountID := 0
             Description := fmt.SprintfPayment c.ID n }] := by
  obtain ⟨hA, hT, hT360, hR, hR100, hD, hD31, hS⟩ := Credit_Validate_inv c hv
  have hpos := CalculateMonthlyPayment_pos c hA (by omega) hR
  obtain ⟨d1, h1, hs1, hq1⟩ := creditRepository_GetByID_quiet db creditID c hq hc
  obtain ⟨d2, h2, hs2, hq2⟩ := transactionRepository_GetByType_quiet d1 TransactionTypePayment hq1
  have h3 := scan_own c.AccountID n creditID
    (d1.store.transactions.filter (fun t => t.TxType = TransactionTypePayment)) (by
      intro t ht
      rw [List.mem_filter, hs1] at ht
      exact hlog t ht.1 (by simpa using ht.2))
  obtain ⟨d, d3, hdA, hdT, hdR, h4, hs3, hq3⟩ := GetPaymentSchedule_quiet d2 creditID c hq2
    (by rw [hs2, hs1]; exact hc)
  obtain ⟨p, h5, hp⟩ := loop_find d (c.InterestRate / 12 / 100) n c.Term.toNat 1 c.Amount hn1
    (by omega)
  rw [CalculateMonthlyPayment_congr c d hdA hdT hdR] at hp
  obtain ⟨d4, h6, hs4, hq4⟩ := accountRepository_GetByID_quiet d3 c.AccountID a hq3
    (by rw [hs3, hs2, hs1]; exact ha)
  obtain ⟨d5, h7, hs5, hq5⟩ := accountRepository_Update_quiet d4
    { a with Balance := a.Balance - p.TotalAmount } hq4 (by rw [hp]; simpa using hbal)
  obtain ⟨d6, h8, hs6, hq6⟩ := transactionRepository_Create_quiet d5
    { ID := 0, TxType := TransactionTypePayment, FromAccountID := c.AccountID,
      ToAccountID := 0, Amount := p.TotalAmount,
      Description := fmt.SprintfPayment c.ID n,
      Status := TransactionStatusCompleted } hq5
    (payment_record_valid _ rfl rfl (by rw [hp]; exact hpos))
  obtain ⟨d7, h9, hs7, hq7⟩ := creditRepository_Update_quiet d6
    { c with
      TotalPaid := c.TotalPaid + p.TotalAmount
      RemainingDebt := c.CalculateTotalAmount - (c.TotalPaid + p.TotalAmount)
      LastPayment := now
      NextPayment := ({ c with LastPayment := now }).CalculateNextPaymentDate
      Status := if n = c.Term then CreditStatusPaid else c.Status } hq6
    (Credit_Validate_ok _ hA hT hT360 hR hR100 hD hD31 (by
      by_cases hn : n = c.Term
      · simp [hn]
      · simpa [hn] using hS))
  refine ⟨d7, ProcessPayment_run_paid db d1 d2 d3 d4 d5 d6 d7 now creditID creditID n c _ _ p a
    h1 h2 h3 h4 h5 h6 (by rw [hp]; exact hbal) h7 h8 h9, ?_, ?_, ?_⟩
  · rw [hs7, hs6, hs5, hs4, hs3, hs2, hs1, hp]
  · rw [hs7, hs6, hs5, hs4, hs3, hs2, hs1, hp]
  · rw [hs7, hs6, hs5, hs4, hs3, hs2, hs1, hp]


/-- The insufficient-funds path of `ProcessPayment` over a log whose completed
payments of the account name no other credit: the call fails, the credit is
stored with Status OVERDUE and nothing else changes. -/
theorem ProcessPayment_refuses_own_installment (db : DB) (now : time.Time) (creditID : ℕ)
    (n : ℤ) (c : Credit) (a : Account) (hq : db.quiet)
    (hc : db.store.credits.find? (fun x => x.ID = creditID) = some c)
    (hv : c.Validate = .ok ())
    (hn1 : 1 ≤ n) (hn2 : n ≤ c.Term)
    (hlog : ∀ t ∈ db.store.transactions, t.TxType = TransactionTypePayment →
      t.FromAccountID = c.AccountID → t.Status = TransactionStatusCompleted →
      (SscanfPayment t.Description creditID).creditID = creditID
        ∧ ¬ ((SscanfPayment t.Description creditID).failed = false
          ∧ (SscanfPayment t.Description creditID).paidPaymentNumber = n))
    (ha : db.store.accounts.find? (fun x => x.ID = c.AccountID) = some a)
    (hbal : a.Balance < c.CalculateMonthlyPayment) :
    ∃ db1, ProcessPayment db now creditID n
        = (.error "insufficient funds, penalty applied", db1)
      ∧ db1.store.accounts = db.store.accounts
      ∧ db1.store.transactions = db.store.transactions
      ∧ db1.store.credits = creditRepository.save db.store.credits
          { c with Status := CreditStatusOverdue } := by
  obtain ⟨hA, hT, hT360, hR, hR100, hD, hD31, hS⟩ := Credit_Validate_inv c hv
  obtain ⟨d1, h1, hs1, hq1⟩ := creditRepository_GetByID_quiet db creditID c hq hc
  obtain ⟨d2, h2, hs2, hq2⟩ := transactionRepository_GetByType_quiet d1 TransactionTypePayment hq1
  have h3 := scan_own c.AccountID n creditID
    (d1.store.transactions.filter (fun t => t.TxType = TransactionTypePayment)) (by
      intro t ht
      rw [List.mem_filter, hs1] at ht
      exact hlog t ht.1 (by simpa using ht.2))
  obtain ⟨d, d3, hdA, hdT, hdR, h4, hs3, hq3⟩ := GetPaymentSchedule_quiet d2 creditID c hq2
    (by rw [hs2, hs1]; exact hc)
  obtain ⟨p, h5, hp⟩ := loop_find d (c.InterestRate / 12 / 100) n c.Term.toNat 1 c.Amount hn1
    (by omega)
  rw [CalculateMonthlyPayment_congr c d hdA hdT hdR] at hp
  obtain ⟨d4, h6, hs4, hq4⟩ := accountRepository_GetByID_quiet d3 c.AccountID a hq3
    (by rw [hs3, hs2, hs1]; exact ha)
  obtain ⟨d5, h7, hs5, hq5⟩ := creditRepository_Update_quiet d4
    { c with Status := CreditStatusOverdue } hq4
    (Credit_Validate_ok _ hA hT hT360 hR hR100 hD hD31 (by simp))
  refine ⟨d5, ProcessPayment_run_insufficient db d1 d2 d3 d4 d5 now creditID creditID n c _ _ p a
    h1 h2 h3 h4 h5 h6 (by rw [hp]; exact hbal) h7, ?_, ?_, ?_⟩
  · rw [hs5, hs4, hs3, hs2, hs1]
  · rw [hs5, hs4, hs3, hs2, hs1]
  · rw [hs5, hs4, hs3, hs2, hs1]

/-! ## Repository calls: failures and the remaining tables -/

theorem accountRepository_GetByID_store (db db1 : DB) (id : ℕ) (r : Except String Account)
    (h : accountRepository.GetByID db id = (r, db1)) :
    db1.store = db.store := by
  unfold accountRepository.GetByID at h
  rcases roundTrip_cases db with ⟨d, hd, hs⟩ | ⟨d, hd, hs, -⟩
  · simp only [hd, if_true, Prod.mk.injEq] at h
    obtain ⟨-, rfl⟩ := h
    exact hs
  · simp only [hd, Bool.false_eq_true, if_false] at h
    split at h <;>
    · simp only [Prod.mk.injEq] at h
      obtain ⟨-, rfl⟩ := h
      exact hs

theorem userRepository_GetByID_store (db db1 : DB) (id : ℕ) (r : Except String User)
    (h : userRepository.GetByID db id = (r, db1)) :
    db1.store = db.store := by
  unfold userRepository.GetByID at h
  rcases roundTrip_cases db with ⟨d, hd, hs⟩ | ⟨d, hd, hs, -⟩
  · simp only [hd, if_true, Prod.mk.injEq] at h
    obtain ⟨-, rfl⟩ := h
    exact hs
  · simp only [hd, Bool.false_eq_true, if_false] at h
    split at h <;>
    · simp only [Prod.mk.injEq] at h
      obtain ⟨-, rfl⟩ := h
      exact hs

theorem creditRepository_GetPaymentSchedule_store (db db1 : DB) (id : ℕ)
    (r : Except String (List PaymentSchedule))
    (h : creditRepository.GetPaymentSchedule db id = (r, db1)) :
    db1.store = db.store := by
  unfold creditRepository.GetPaymentSchedule at h
  rcases roundTrip_cases db with ⟨d, hd, hs⟩ | ⟨d, hd, hs, -⟩
  · simp only [hd, if_true, Prod.mk.injEq] at h
    obtain ⟨-, rfl⟩ := h
    exact hs
  · simp only [hd, Bool.false_eq_true, if_false, Prod.mk.injEq] at h
    obtain ⟨-, rfl⟩ := h
    exact hs

theorem creditRepository_GetPaymentSchedule_ok (db db1 : DB) (id : ℕ)
    (ps : List PaymentSchedule)
    (h : creditRepository.GetPaymentSchedule db id = (.ok ps, db1)) :
    ps = db.store.schedules.filter (fun p => p.CreditID = id) := by
  unfold creditRepository.GetPaymentSchedule at h
  rcases roundTrip_cases db with ⟨d, hd, hs⟩ | ⟨d, hd, hs, -⟩
  · simp [hd] at h
  · simp only [hd, Bool.false_eq_true, if_false, Prod.mk.injEq, Except.ok.injEq] at h
    obtain ⟨rfl, rfl⟩ := h
    rw [hs]

/-- A refused or failed account update leaves the store as it was. -/
theorem accountRepository_Update_error (db db1 : DB) (a : Account) (e : String)
    (h : accountRepository.Update db a = (.error e, db1)) : db1.store = db.store := by
  unfold accountRepository.Update at h
  rcases roundTrip_cases db with ⟨d, hd, hs⟩ | ⟨d, hd, hs, -⟩
  · simp only [hd, if_true, Prod.mk.injEq] at h
    obtain ⟨-, rfl⟩ := h
    exact hs
  · simp only [hd, Bool.false_eq_true, if_false] at h
    split at h
    · simp only [Prod.mk.injEq] at h
      obtain ⟨-, rfl⟩ := h
      exact hs
    · simp at h

/-- A refused or failed credit update leaves the store as it was. -/
theorem creditRepository_Update_error (db db1 : DB) (c : Credit) (e : String)
    (h : creditRepository.Update db c = (.error e, db1)) : db1.store = db.store := by
  unfold creditRepository.Update at h
  rcases roundTrip_cases db with ⟨d, hd, hs⟩ | ⟨d, hd, hs, -⟩
  · simp only [hd, if_true, Prod.mk.injEq] at h
    obtain ⟨-, rfl⟩ := h
    exact hs
  · simp only [hd, Bool.false_eq_true, if_false] at h
    split at h
    · simp only [Prod.mk.injEq] at h
      obtain ⟨-, rfl⟩ := h
      exact hs
    · simp at h

/-- A refused or failed transaction append leaves the store as it was. -/
theorem transactionRepository_Create_error (db db1 : DB) (t : Transaction) (e : String)
    (h : transactionRepository.Create db t = (.error e, db1)) : db1.store = db.store := by
  unfold transactionRepository.Create at h
  rcases roundTrip_cases db with ⟨d, hd, hs⟩ | ⟨d, hd, hs, -⟩
  · simp only [hd, if_true, Prod.mk.injEq] at h
    obtain ⟨-, rfl⟩ := h
    exact hs
  · simp only [hd, Bool.false_eq_true, if_false] at h
    split at h
    · simp only [Prod.mk.injEq] at h
      obtain ⟨-, rfl⟩ := h
      exact hs
    · simp at h

/-- A refused or failed credit insert leaves the store as it was. -/
theorem creditRepository_Create_error (db db1 : DB) (now : time.Time) (c : Credit) (e : String)
    (h : creditRepository.Create db now c = (.error e, db1)) : db1.store = db.store := by
  unfold creditRepository.Create at h
  rcases roundTrip_cases db with ⟨d, hd, hs⟩ | ⟨d, hd, hs, -⟩
  · simp only [hd, if_true, Prod.mk.injEq] at h
    obtain ⟨-, rfl⟩ := h
    exact hs
  · simp only [hd, Bool.false_eq_true, if_false] at h
    split at h
    · simp only [Prod.mk.injEq] at h
      obtain ⟨-, rfl⟩ := h
      exact hs
    · simp at h

theorem creditRepository_Create_ok (db db1 : DB) (now : time.Time) (c c1 : Credit)
    (h : creditRepository.Create db now c = (.ok c1, db1)) :
    c.Validate = .ok ()
      ∧ c1 = { c with
          ID := nextID (db.store.credits.map (fun x => x.ID))
          CreatedAt := if c.CreatedAt.IsZero then now else c.CreatedAt }
      ∧ db1.store = { db.store with credits := db.store.credits ++ [c1] }
      ∧ (db.quiet → db1.quiet) := by
  unfold creditRepository.Create at h
  rcases roundTrip_cases db with ⟨d, hd, hs⟩ | ⟨d, hd, hs, hq⟩
  · simp [hd] at h
  · simp only [hd, Bool.false_eq_true, if_false] at h
    split at h
    · simp at h
    · rename_i hv
      simp only [Prod.mk.injEq, Except.ok.injEq] at h
      obtain ⟨rfl, rfl⟩ := h
      exact ⟨hv, by rw [hs], by simp [hs], fun hq0 => hq hq0⟩

theorem creditRepository_Create_quiet (db : DB) (now : time.Time) (c : Credit) (hq : db.quiet)
    (hv : c.Validate = .ok ()) :
    ∃ db1, creditRepository.Create db now c
        = (.ok { c with
            ID := nextID (db.store.credits.map (fun x => x.ID))
            CreatedAt := if c.CreatedAt.IsZero then now else c.CreatedAt }, db1)
      ∧ db1.store = { db.store with credits := db.store.credits ++
          [{ c with
            ID := nextID (db.store.credits.map (fun x => x.ID))
            CreatedAt := if c.CreatedAt.IsZero then now else c.CreatedAt }] }
      ∧ db1.quiet := by
  obtain ⟨d, hd, hs, hq1⟩ := roundTrip_quiet db hq
  refine ⟨{ d with store := { d.store with credits := d.store.credits ++
    [{ c with
      ID := nextID (d.store.credits.map (fun x => x.ID))
      CreatedAt := if c.CreatedAt.IsZero then now else c.CreatedAt }] } }, ?_, ?_, hq1⟩
  · simp [creditRepository.Create, hd, hv, hs]
  · simp [hs]

theorem creditRepository_UpdatePaymentSchedule_cases (db db1 : DB) (p : PaymentSchedule)
    (r : Except String Unit)
    (h : creditRepository.UpdatePaymentSchedule db p = (r, db1)) :
    (r = .ok () ∧ db1.store = { db.store with
        schedules := creditRepository.saveSchedule db.store.schedules p })
      ∨ (r = .error ErrDatabaseError ∧ db1.store = db.store) := by
  unfold creditRepository.UpdatePaymentSchedule at h
  rcases roundTrip_cases db with ⟨d, hd, hs⟩ | ⟨d, hd, hs, -⟩
  · simp only [hd, if_true, Prod.mk.injEq] at h
    obtain ⟨rfl, rfl⟩ := h
    exact Or.inr ⟨rfl, hs⟩
  · simp only [hd, Bool.false_eq_true, if_false, Prod.mk.injEq] at h
    obtain ⟨rfl, rfl⟩ := h
    exact Or.inl ⟨rfl, by simp [hs]⟩

/-! ## Validation and the degenerate rate -/

/-- Over rational amounts (among which there is no NaN) `Validate` returns nil
exactly when `Amount > 0`, `1 ≤ Term ≤ 360`, `0 < InterestRate ≤ 100`,
`1 ≤ PaymentDay ≤ 31` and Status is one of the five constants; otherwise it
returns the error of the first failing check, in the order amount, term,
interest rate, payment day, status.  The method assigns no field of the
credit: it is a function from the credit to the error. -/
theorem Credit_Validate_spec (c : Credit) :
    (c.Validate = .ok () ↔
      0 < c.Amount ∧ (1 ≤ c.Term ∧ c.Term ≤ 360) ∧ (0 < c.InterestRate ∧ c.InterestRate ≤ 100)
        ∧ (1 ≤ c.PaymentDay ∧ c.PaymentDay ≤ 31)
        ∧ (c.Status = CreditStatusPending ∨ c.Status = CreditStatusActive
          ∨ c.Status = CreditStatusPaid ∨ c.Status = CreditStatusOverdue
          ∨ c.Status = CreditStatusCancelled))
    ∧ (¬ 0 < c.Amount → c.Validate = .error ErrInvalidCreditAmount)
    ∧ (0 < c.Amount → ¬ (1 ≤ c.Term ∧ c.Term ≤ 360) → c.Validate = .error ErrInvalidTerm)
    ∧ (0 < c.Amount → (1 ≤ c.Term ∧ c.Term ≤ 360) →
        ¬ (0 < c.InterestRate ∧ c.InterestRate ≤ 100) →
        c.Validate = .error ErrInvalidInterestRate)
    ∧ (0 < c.Amount → (1 ≤ c.Term ∧ c.Term ≤ 360) →
        (0 < c.InterestRate ∧ c.InterestRate ≤ 100) →
        ¬ (1 ≤ c.PaymentDay ∧ c.PaymentDay ≤ 31) → c.Validate = .error ErrInvalidPaymentDay)
    ∧ (0 < c.Amount → (1 ≤ c.Term ∧ c.Term ≤ 360) →
        (0 < c.InterestRate ∧ c.InterestRate ≤ 100) →
        (1 ≤ c.PaymentDay ∧ c.PaymentDay ≤ 31) →
        ¬ (c.Status = CreditStatusPending ∨ c.Status = CreditStatusActive
          ∨ c.Status = CreditStatusPaid ∨ c.Status = CreditStatusOverdue
          ∨ c.Status = CreditStatusCancelled) →
        c.Validate = .error "invalid credit status") := by
  have eA : ∀ h : ¬ 0 < c.Amount, c.Validate = .error ErrInvalidCreditAmount := by
    intro h
    simp [Credit.Validate, Credit.ValidateAmount, not_lt.mp h]
  have eT : 0 < c.Amount → ¬ (1 ≤ c.Term ∧ c.Term ≤ 360) → c.Validate = .error ErrInvalidTerm := by
    intro hA h
    have h' : c.Term ≤ 0 ∨ c.Term > 360 := by omega
    simp [Credit.Validate, Credit.ValidateAmount, Credit.ValidateTerm, not_le.mpr hA, h']
  have eR : 0 < c.Amount → (1 ≤ c.Term ∧ c.Term ≤ 360) →
      ¬ (0 < c.InterestRate ∧ c.InterestRate ≤ 100) →
      c.Validate = .error ErrInvalidInterestRate := by
    intro hA hT h
    have hT' : ¬ (c.Term ≤ 0 ∨ c.Term > 360) := by omega
    have h' : c.InterestRate ≤ 0 ∨ c.InterestRate > 100 := by
      by_contra hc
      rw [not_or, not_le, not_lt] at hc
      exact h hc
    simp [Credit.Validate, Credit.ValidateAmount, Credit.ValidateTerm,
      Credit.ValidateInterestRate, not_le.mpr hA, hT', h']
  have eD : 0 < c.Amount → (1 ≤ c.Term ∧ c.Term ≤ 360) →
      (0 < c.InterestRate ∧ c.InterestRate ≤ 100) →
      ¬ (1 ≤ c.PaymentDay ∧ c.PaymentDay ≤ 31) → c.Validate = .error ErrInvalidPaymentDay := by
    intro hA hT hR h
    have hT' : ¬ (c.Term ≤ 0 ∨ c.Term > 360) := by omega
    have hR' : ¬ (c.InterestRate ≤ 0 ∨ c.InterestRate > 100) := by
      rw [not_or, not_le, not_lt]; exact hR
    have h' : c.PaymentDay < 1 ∨ c.PaymentDay > 31 := by omega
    simp [Credit.Validate, Credit.ValidateAmount, Credit.ValidateTerm,
      Credit.ValidateInterestRate, Credit.ValidatePaymentDay, not_le.mpr hA, hT', hR', h']
  have eS : 0 < c.Amount → (1 ≤ c.Term ∧ c.Term ≤ 360) →
      (0 < c.InterestRate ∧ c.InterestRate ≤ 100) →
      (1 ≤ c.PaymentDay ∧ c.PaymentDay ≤ 31) →
      ¬ (c.Status = CreditStatusPending ∨ c.Status = CreditStatusActive
        ∨ c.Status = CreditStatusPaid ∨ c.Status = CreditStatusOverdue
        ∨ c.Status = CreditStatusCancelled) →
      c.Validate = .error "invalid credit status" := by
    intro hA hT hR hD h
    have hT' : ¬ (c.Term ≤ 0 ∨ c.Term > 360) := by omega
    have hR' : ¬ (c.InterestRate ≤ 0 ∨ c.InterestRate > 100) := by
      rw [not_or, not_le, not_lt]; exact hR
    have hD' : ¬ (c.PaymentDay < 1 ∨ c.PaymentDay > 31) := by omega
    simp only [Credit.Validate, Credit.ValidateAmount, Credit.ValidateTerm,
      Credit.ValidateInterestRate, Credit.ValidatePaymentDay, Credit.ValidateStatus,
      if_neg (not_le.mpr hA), if_neg hT', if_neg hR', if_neg hD', if_neg h]
  refine ⟨⟨fun h => ?_, fun h => ?_⟩, eA, eT, eR, eD, eS⟩
  · obtain ⟨h1, h2, h3, h4, h5, h6, h7, h8⟩ := Credit_Validate_inv c h
    exact ⟨h1, ⟨by omega, h3⟩, ⟨h4, h5⟩, ⟨h6, h7⟩, h8⟩
  · obtain ⟨h1, ⟨h2, h3⟩, ⟨h4, h5⟩, ⟨h6, h7⟩, h8⟩ := h
    exact Credit_Validate_ok c h1 (by omega) h3 h4 h5 h6 h7 h8

/-- `CalculateMonthlyPayment` divides by `paymentDenominator`. -/
theorem CalculateMonthlyPayment_eq_div (c : Credit) :
    c.CalculateMonthlyPayment = c.Amount * (c.InterestRate / 12 / 100) / c.paymentDenominator :=
  rfl

/-- C17 (as stated, refuted): for the sample loan with rate 0 (Amount 100,
Term 2) the divisor of `CalculateMonthlyPayment` is 0; the method divides by
zero and does not return `Amount / Term`. -/
theorem CalculateMonthlyPayment_zero_rate_divides_by_zero :
    sample.creditZeroRate.InterestRate = 0 ∧ 0 < sample.creditZeroRate.Amount
      ∧ 1 ≤ sample.creditZeroRate.Term
      ∧ ¬ (sample.creditZeroRate.paymentDenominator ≠ 0
          ∧ sample.creditZeroRate.CalculateMonthlyPayment
              = sample.creditZeroRate.Amount / sample.creditZeroRate.Term) := by
  refine ⟨rfl, by norm_num [sample.creditZeroRate, sample.credit],
    by norm_num [sample.creditZeroRate, sample.credit], ?_⟩
  rintro ⟨h, -⟩
  apply h
  simp [Credit.paymentDenominator, pow_eq_zpow, sample.creditZeroRate]

/-- C17 (amended): with `InterestRate = 0` the divisor of
`CalculateMonthlyPayment` is 0 for every term, so the method has no separate
case and divides by zero; `ValidateInterestRate` refuses the credit, and with
it `Validate`, so that no stored credit has this rate. -/
theorem CalculateMonthlyPayment_zero_rate (c : Credit) (hR : c.InterestRate = 0) :
    c.paymentDenominator = 0
      ∧ c.CalculateMonthlyPayment
          = c.Amount * (c.InterestRate / 12 / 100) / c.paymentDenominator
      ∧ c.ValidateInterestRate = .error ErrInvalidInterestRate
      ∧ c.Validate ≠ .ok () := by
  have hden : c.paymentDenominator = 0 := by
    simp [Credit.paymentDenominator, pow_eq_zpow, hR]
  refine ⟨hden, CalculateMonthlyPayment_eq_div c, ?_, ?_⟩
  · simp [Credit.ValidateInterestRate, hR]
  · intro h
    have := (Credit_Validate_inv c h).2.2.2.1
    rw [hR] at this
    exact lt_irrefl _ this

theorem CalculateMonthlyPayment_zero_rate_witness :
    sample.creditZeroRate.paymentDenominator = 0
      ∧ sample.creditZeroRate.CalculateMonthlyPayment
          = sample.creditZeroRate.Amount * (sample.creditZeroRate.InterestRate / 12 / 100)
              / sample.creditZeroRate.paymentDenominator
      ∧ sample.creditZeroRate.ValidateInterestRate = .error ErrInvalidInterestRate
      ∧ sample.creditZeroRate.Validate ≠ .ok () :=
  CalculateMonthlyPayment_zero_rate sample.creditZeroRate rfl

/-! ## The next payment date -/

open time

theorem daysIn_bounds (y m : ℤ) : 28 ≤ daysIn y m ∧ daysIn y m ≤ 31 := by
  unfold daysIn
  split_ifs <;> omega

theorem normDay_in_range (fuel : ℕ) (y m d ns : ℤ) (h1 : 1 ≤ d) (h2 : d ≤ daysIn y m) :
    normDay (fuel + 1) y m d ns = ⟨y, m, d, ns⟩ := by
  simp only [normDay, if_neg (not_lt.mpr h1), if_neg (not_lt.mpr h2)]

/-- A date given with a month in 1..12 and a day of that month is itself. -/
theorem Date_in_range (y m d ns : ℤ) (hm1 : 1 ≤ m) (hm2 : m ≤ 12) (h1 : 1 ≤ d)
    (h2 : d ≤ daysIn y m) : Date y m d ns = ⟨y, m, d, ns⟩ := by
  have e1 : (m - 1) / 12 = 0 := by omega
  have e2 : (m - 1) % 12 + 1 = m := by omega
  unfold Date
  rw [e1, e2, add_zero]
  exact normDay_in_range _ y m d ns h1 h2

/-- The month after month `m` of year `y`. -/
theorem Date_next_month (y m d ns : ℤ) (hm1 : 1 ≤ m) (hm2 : m ≤ 12) (h1 : 1 ≤ d) (h2 : d ≤ 28) :
    Date y (m + 1) d ns
      = ⟨if m = 12 then y + 1 else y, if m = 12 then 1 else m + 1, d, ns⟩ := by
  by_cases h : m = 12
  · subst h
    simp only [if_true]
    unfold Date
    have := (daysIn_bounds (y + 1) 1).1
    exact normDay_in_range _ _ _ d ns h1 (by norm_num; omega)
  · simp only [if_neg h]
    exact Date_in_range y (m + 1) d ns (by omega) (by omega) h1
      (by have := (daysIn_bounds y (m + 1)).1; omega)

/-- Day 0 of the month after month `m` is the last day of month `m`. -/
theorem Date_day_zero (y m ns : ℤ) (hm1 : 1 ≤ m) (hm2 : m ≤ 12) :
    Date y (m + 1) 0 ns = ⟨y, m, daysIn y m, ns⟩ := by
  have hb := daysIn_bounds y m
  by_cases h : m = 12
  · subst h
    unfold Date
    norm_num [normDay]
    simp [normDay, daysIn]
  · have e1 : (m + 1 - 1) / 12 = 0 := by omega
    have e2 : (m + 1 - 1) % 12 + 1 = m + 1 := by omega
    unfold Date
    rw [e1, e2, add_zero]
    have hne : ¬ m + 1 = 1 := by omega
    simp only [Int.natAbs_zero, Nat.zero_div, zero_add, normDay, if_pos (show (0 : ℤ) < 1 by norm_num),
      if_neg hne, add_sub_cancel_right, if_neg (not_lt.mpr (show (1 : ℤ) ≤ daysIn y m by omega)),
      if_neg (lt_irrefl _)]

/-- C15 holds when `LastPayment` falls on one of the first 28 days of its
month: the result lies in the following month, on the smaller of `PaymentDay`
and the length of that month, at midnight. -/
theorem CalculateNextPaymentDate_early_day (c : Credit)
    (hm1 : 1 ≤ c.LastPayment.month) (hm2 : c.LastPayment.month ≤ 12)
    (hd1 : 1 ≤ c.LastPayment.day) (hd2 : c.LastPayment.day ≤ 28)
    (hp1 : 1 ≤ c.PaymentDay) (hp2 : c.PaymentDay ≤ 31) :
    c.CalculateNextPaymentDate
      = ⟨if c.LastPayment.month = 12 then c.LastPayment.year + 1 else c.LastPayment.year,
         if c.LastPayment.month = 12 then 1 else c.LastPayment.month + 1,
         min c.PaymentDay
          (daysIn (if c.LastPayment.month = 12 then c.LastPayment.year + 1
              else c.LastPayment.year)
            (if c.LastPayment.month = 12 then 1 else c.LastPayment.month + 1)),
         0⟩ := by
  have hnext : c.LastPayment.AddDate 0 1 0
      = ⟨if c.LastPayment.month = 12 then c.LastPayment.year + 1 else c.LastPayment.year,
         if c.LastPayment.month = 12 then 1 else c.LastPayment.month + 1,
         c.LastPayment.day, c.LastPayment.nsec⟩ := by
    unfold Time.AddDate
    rw [add_zero, add_zero]
    exact Date_next_month _ _ _ _ hm1 hm2 hd1 hd2
  generalize hy : (if c.LastPayment.month = 12 then c.LastPayment.year + 1
    else c.LastPayment.year) = y at hnext ⊢
  generalize hm : (if c.LastPayment.month = 12 then 1 else c.LastPayment.month + 1) = m
    at hnext ⊢
  have hmr : 1 ≤ m ∧ m ≤ 12 := by
    rw [← hm]; split_ifs <;> omega
  have hb := daysIn_bounds y m
  unfold Credit.CalculateNextPaymentDate
  simp only [hnext, Time.Year, Time.Month, Time.Day, Date_day_zero y m 0 hmr.1 hmr.2]
  by_cases hp : c.PaymentDay > 28
  · rw [if_pos hp]
    by_cases hl : c.PaymentDay > daysIn y m
    · rw [if_pos hl, min_eq_right (le_of_lt hl)]
      exact Date_in_range y m _ 0 hmr.1 hmr.2 (by omega) le_rfl
    · rw [if_neg hl, min_eq_left (not_lt.mp hl)]
      exact Date_in_range y m _ 0 hmr.1 hmr.2 hp1 (not_lt.mp hl)
  · rw [if_neg hp, min_eq_left (by omega)]
    exact Date_in_range y m _ 0 hmr.1 hmr.2 hp1 (by omega)

/-- C15: the sample loan has payment day 31 and was last paid on 31 January
2023.  `CalculateNextPaymentDate` returns 31 March 2023: `AddDate(0, 1, 0)`
has already carried 31 February into 3 March before the day is clamped, so the
result is not in February and not on its last day, the 28th. -/
theorem CalculateNextPaymentDate_skips_february :
    sample.creditEndOfMonth.LastPayment = ⟨2023, 1, 31, 0⟩
      ∧ sample.creditEndOfMonth.PaymentDay = 31
      ∧ sample.creditEndOfMonth.LastPayment.AddDate 0 1 0 = ⟨2023, 3, 3, 0⟩
      ∧ sample.creditEndOfMonth.CalculateNextPaymentDate = ⟨2023, 3, 31, 0⟩
      ∧ daysIn 2023 2 = 28 := by
  decide

/-! ## Origination -/

/-- Every run of `CreateCredit`: it stops before anything is stored, or the
credit is inserted and the run goes on to the account update and the
transaction append. -/
theorem CreateCredit_trace (db db' : DB) (keyRate : Except String ℚ) (now : time.Time)
    (userID accountID : ℕ) (amount : ℚ) (termMonths : ℤ) (description : String)
    (r : Except String Credit)
    (h : CreateCredit db keyRate now userID accountID amount termMonths description = (r, db')) :
    (∃ e, r = .error e ∧ db'.store = db.store)
    ∨ ∃ (account : Account) (db1 : DB) (rate : ℚ) (credit1 : Credit) (db2 : DB),
        accountRepository.GetByID db accountID = (.ok account, db1)
        ∧ account.UserID = userID
        ∧ keyRate = .ok rate
        ∧ creditRepository.Create db1 now
            (CreateCredit.credit now userID accountID amount termMonths (rate + 5))
            = (.ok credit1, db2)
        ∧ ((∃ e, accountRepository.Update db2 { account with Balance := account.Balance + amount }
              = (.error e, db') ∧ r = .error ("failed to update account balance: " ++ e))
          ∨ ∃ db3, accountRepository.Update db2
                { account with Balance := account.Balance + amount } = (.ok (), db3)
              ∧ ((∃ e, transactionRepository.Create db3
                    (CreateCredit.transaction credit1 accountID amount description)
                      = (.error e, db') ∧ r = .error ("failed to create transaction: " ++ e))
                ∨ (transactionRepository.Create db3
                    (CreateCredit.transaction credit1 accountID amount description)
                      = (.ok (), db') ∧ r = .ok credit1))) := by
  unfold CreateCredit at h
  dsimp only at h
  split at h
  · rename_i err db1 h1
    simp only [Prod.mk.injEq] at h
    obtain ⟨rfl, rfl⟩ := h
    exact Or.inl ⟨_, rfl, accountRepository_GetByID_store _ _ _ _ h1⟩
  · rename_i account db1 h1
    have hs1 := accountRepository_GetByID_store _ _ _ _ h1
    split at h
    · simp only [Prod.mk.injEq] at h
      obtain ⟨rfl, rfl⟩ := h
      exact Or.inl ⟨_, rfl, hs1⟩
    · rename_i huser
      have huser' : account.UserID = userID := not_not.mp huser
      split at h
      · simp only [Prod.mk.injEq] at h
        obtain ⟨rfl, rfl⟩ := h
        exact Or.inl ⟨_, rfl, hs1⟩
      · rename_i rate
        split at h
        · rename_i err db2 h2
          simp only [Prod.mk.injEq] at h
          obtain ⟨rfl, rfl⟩ := h
          exact Or.inl ⟨_, rfl, (creditRepository_Create_error _ _ _ _ _ h2).trans hs1⟩
        · rename_i credit1 db2 h2
          refine Or.inr ⟨account, db1, rate, credit1, db2, h1, huser', rfl, h2, ?_⟩
          split at h
          · rename_i err db3 h3
            simp only [Prod.mk.injEq] at h
            obtain ⟨rfl, rfl⟩ := h
            exact Or.inl ⟨err, h3, rfl⟩
          · rename_i u db3 h3
            refine Or.inr ⟨db3, h3, ?_⟩
            split at h
            · rename_i err db4 h4
              simp only [Prod.mk.injEq] at h
              obtain ⟨rfl, rfl⟩ := h
              exact Or.inl ⟨err, h4, rfl⟩
            · rename_i u4 db4 h4
              simp only [Prod.mk.injEq] at h
              obtain ⟨rfl, rfl⟩ := h
              exact Or.inr ⟨h4, rfl⟩

/-- The run of `CreateCredit` in which every step works. -/
theorem CreateCredit_run_ok (db db1 db2 db3 db4 : DB) (now : time.Time)
    (userID accountID : ℕ) (amount rate : ℚ) (termMonths : ℤ) (description : String)
    (account : Account) (credit1 : Credit)
    (h1 : accountRepository.GetByID db accountID = (.ok account, db1))
    (hu : account.UserID = userID)
    (h2 : creditRepository.Create db1 now
        (CreateCredit.credit now userID accountID amount termMonths (rate + 5))
        = (.ok credit1, db2))
    (h3 : accountRepository.Update db2 { account with Balance := account.Balance + amount }
        = (.ok (), db3))
    (h4 : transactionRepository.Create db3
        (CreateCredit.transaction credit1 accountID amount description) = (.ok (), db4)) :
    CreateCredit db (.ok rate) now userID accountID amount termMonths description
      = (.ok credit1, db4) := by
  subst hu
  unfold CreateCredit
  simp only [h1, ne_eq, not_true_eq_false, if_false, h2, h3, h4]

/-- The run of `CreateCredit` whose account update fails. -/
theorem CreateCredit_run_update_fails (db db1 db2 db3 : DB) (now : time.Time)
    (userID accountID : ℕ) (amount rate : ℚ) (termMonths : ℤ) (description : String)
    (account : Account) (credit1 : Credit) (e : String)
    (h1 : accountRepository.GetByID db accountID = (.ok account, db1))
    (hu : account.UserID = userID)
    (h2 : creditRepository.Create db1 now
        (CreateCredit.credit now userID accountID amount termMonths (rate + 5))
        = (.ok credit1, db2))
    (h3 : accountRepository.Update db2 { account with Balance := account.Balance + amount }
        = (.error e, db3)) :
    CreateCredit db (.ok rate) now userID accountID amount termMonths description
      = (.error ("failed to update account balance: " ++ e), db3) := by
  subst hu
  unfold CreateCredit
  simp only [h1, ne_eq, not_true_eq_false, if_false, h2, h3]

/-- The record built by `CreateCredit` passes `Credit.Validate`. -/
theorem CreateCredit_credit_valid (now : time.Time) (userID accountID : ℕ) (amount rate : ℚ)
    (termMonths : ℤ) (hA : 0 < amount) (hT : 1 ≤ termMonths) (hT' : termMonths ≤ 360)
    (hR : 0 < rate) (hR' : rate ≤ 100) (hD : 1 ≤ now.day) (hD' : now.day ≤ 31) :
    (CreateCredit.credit now userID accountID amount termMonths rate).Validate = .ok () :=
  Credit_Validate_ok _ hA (by simpa [CreateCredit.credit] using hT) hT' hR hR' hD hD'
    (Or.inr (Or.inl rfl))

/-- A disbursement record with a positive amount passes `Transaction.Validate`. -/
theorem CreateCredit_transaction_valid (credit : Credit) (accountID : ℕ) (amount : ℚ)
    (description : String) (ha : 0 < amount) :
    (CreateCredit.transaction credit accountID amount description).Validate = .ok () := by
  have h1 : ¬ TransactionTypeCredit = TransactionTypeTransfer := by decide
  have h2 : ¬ TransactionTypeCredit = TransactionTypeDeposit := by decide
  have h3 : ¬ TransactionTypeCredit = TransactionTypeWithdrawal := by decide
  simp [Transaction.Validate, Transaction.ValidateType, Transaction.ValidateStatus,
    Transaction.ValidateAmount, Transaction.ValidateAccounts, CreateCredit.transaction,
    not_le.mpr ha, h1, h2, h3]

theorem creditRepository_Create_nil (db : DB) (now : time.Time) (c : Credit)
    (hs : db.script = []) (hv : c.Validate = .ok ()) :
    creditRepository.Create db now c
      = (.ok { c with
            ID := nextID (db.store.credits.map (fun x => x.ID))
            CreatedAt := if c.CreatedAt.IsZero then now else c.CreatedAt },
          { db with store := { db.store with credits := db.store.credits ++
            [{ c with
              ID := nextID (db.store.credits.map (fun x => x.ID))
              CreatedAt := if c.CreatedAt.IsZero then now else c.CreatedAt }] } }) := by
  simp [creditRepository.Create, DB.roundTrip, hs, hv]

theorem transactionRepository_Create_valid_nil (db : DB) (t : Transaction) (hs : db.script = [])
    (hv : t.Validate = .ok ()) :
    transactionRepository.Create db t
      = (.ok (), { db with store := { db.store with transactions := db.store.transactions ++
          [{ t with ID := nextID (db.store.transactions.map (fun t => t.ID)) }] } }) := by
  simp [transactionRepository.Create, DB.roundTrip, hs, hv]

/-- The stored row of an account after `Save`. -/
theorem find?_save_account (as : List Account) (a a5 : Account) (id : ℕ)
    (hf : as.find? (fun x => x.ID = id) = some a) (h5 : a5.ID = id) :
    (accountRepository.save as a5).find? (fun x => x.ID = id) = some a5 := by
  unfold accountRepository.save
  have hany : as.any (fun x => x.ID = a5.ID) = true := by
    rw [List.any_eq_true]
    exact ⟨a, List.mem_of_find?_eq_some hf, by
      have := List.find?_some hf
      simpa [h5] using this⟩
  rw [if_pos hany]
  clear hany
  induction as with
  | nil => simp at hf
  | cons x xs ih =>
    simp only [List.map_cons, List.find?_cons]
    by_cases hx : x.ID = a5.ID
    · simp [hx, h5]
    · have hx' : ¬ x.ID = id := by rw [← h5]; exact hx
      simp only [if_neg hx, hx', decide_False]
      apply ih
      simpa [List.find?_cons, hx'] using hf

/-- The sample origination in a fresh store. -/
theorem sample_origination :
    CreateCredit sample.dbFresh (.ok 7) sample.now 1 10 100 2 "loan"
      = (.ok sample.creditNew, sample.dbOriginated) := by
  have hv : (CreateCredit.credit sample.now 1 10 100 2 (7 + 5)).Validate = .ok () :=
    CreateCredit_credit_valid _ _ _ _ _ _ (by norm_num) (by norm_num) (by norm_num)
      (by norm_num) (by norm_num) (by decide) (by decide)
  refine CreateCredit_run_ok _ _ _ _ _ _ _ _ _ _ _ _ sample.account _ rfl rfl
    (creditRepository_Create_nil _ _ _ rfl hv)
    (accountRepository_Update_nil _ _ rfl (by norm_num [sample.account]))
    ((transactionRepository_Create_valid_nil _ _ rfl
      (CreateCredit_transaction_valid _ _ _ _ (by norm_num))).trans ?_)
  rfl

/-- The sample origination whose account update fails. -/
theorem sample_origination_update_fails :
    CreateCredit sample.dbFreshThirdFails (.ok 7) sample.now 1 10 100 2 "loan"
      = (.error "failed to update account balance: dbcore error", sample.dbHalfOriginated) := by
  have hv : (CreateCredit.credit sample.now 1 10 100 2 (7 + 5)).Validate = .ok () :=
    CreateCredit_credit_valid _ _ _ _ _ _ (by norm_num) (by norm_num) (by norm_num)
      (by norm_num) (by norm_num) (by decide) (by decide)
  have h2 : creditRepository.Create
      { store := { accounts := [sample.account] }, script := [false, true] } sample.now
      (CreateCredit.credit sample.now 1 10 100 2 (7 + 5))
      = (.ok sample.creditNew,
          { store := { credits := [sample.creditNew], accounts := [sample.account] },
            script := [true] }) := by
    simp only [creditRepository.Create, DB.roundTrip, hv, Bool.false_eq_true, if_false]
    rfl
  exact CreateCredit_run_update_fails _ _ _ _ _ _ _ _ _ _ _ sample.account _ _ rfl rfl h2 rfl

/-- C11: for every user `u`, stored account `a` with `a.UserID = u`,
`amount > 0`, term in 1..360 and benchmark rate `k` with `0 < k + 5 ≤ 100`,
when no collaborator call fails (no database round trip fails, the rate
service returns `k`, and the account update is not refused: the new balance
`a.Balance + amount` is not negative) `CreateCredit` returns a credit with
`InterestRate = k + 5`, `Status = ACTIVE`, `RemainingDebt = amount` and
`TotalPaid = 0`, which is the one record appended to the credit table; the
account row becomes the previous row with the balance increased by exactly
`amount`; and exactly one transaction is appended, of type CREDIT, status
COMPLETED, `ToAccountID = a.ID` and `Amount = amount`.  The clock reading
`now` is a calendar date (day of month in 1..31). -/
theorem CreateCredit_originates (db : DB) (now : time.Time) (u accountID : ℕ) (a : Account)
    (amount k : ℚ) (term : ℤ) (description : String)
    (hq : db.quiet)
    (ha : db.store.accounts.find? (fun x => x.ID = accountID) = some a)
    (hu : a.UserID = u) (hbal : 0 ≤ a.Balance + amount)
    (hA : 0 < amount) (hT : 1 ≤ term) (hT' : term ≤ 360)
    (hR : 0 < k + 5) (hR' : k + 5 ≤ 100) (hD : 1 ≤ now.day) (hD' : now.day ≤ 31) :
    ∃ (credit : Credit) (db' : DB) (tx : Transaction),
      CreateCredit db (.ok k) now u accountID amount term description = (.ok credit, db')
      ∧ credit.InterestRate = k + 5 ∧ credit.Status = CreditStatusActive
      ∧ credit.RemainingDebt = amount ∧ credit.TotalPaid = 0
      ∧ db'.store.credits = db.store.credits ++ [credit]
      ∧ db'.store.accounts = accountRepository.save db.store.accounts
          { a with Balance := a.Balance + amount }
      ∧ db'.store.accounts.find? (fun x => x.ID = accountID)
          = some { a with Balance := a.Balance + amount }
      ∧ db'.store.transactions = db.store.transactions ++ [tx]
      ∧ tx.TxType = TransactionTypeCredit ∧ tx.Status = TransactionStatusCompleted
      ∧ tx.ToAccountID = a.ID ∧ tx.Amount = amount := by
  have hid : a.ID = accountID := by
    have := List.find?_some ha
    simpa using this
  obtain ⟨d1, h1, hs1, hq1⟩ := accountRepository_GetByID_quiet db accountID a hq ha
  obtain ⟨d2, h2, hs2, hq2⟩ := creditRepository_Create_quiet d1 now
    (CreateCredit.credit now u accountID amount term (k + 5)) hq1
    (CreateCredit_credit_valid _ _ _ _ _ _ hA hT hT' hR hR' hD hD')
  obtain ⟨d3, h3, hs3, hq3⟩ := accountRepository_Update_quiet d2
    { a with Balance := a.Balance + amount } hq2 hbal
  obtain ⟨d4, h4, hs4, -⟩ := transactionRepository_Create_quiet d3
    (CreateCredit.transaction
      { CreateCredit.credit now u accountID amount term (k + 5) with
        ID := nextID (d1.store.credits.map (fun x => x.ID)) } accountID amount description) hq3
    (CreateCredit_transaction_valid _ _ _ _ hA)
  refine ⟨_, d4,
    { CreateCredit.transaction
        { CreateCredit.credit now u accountID amount term (k + 5) with
          ID := nextID (d1.store.credits.map (fun x => x.ID)) } accountID amount description with
      ID := nextID (d3.store.transactions.map (fun t => t.ID)) },
    CreateCredit_run_ok db d1 d2 d3 d4 now u accountID amount k term description
    a _ h1 hu h2 h3 h4, rfl, rfl, rfl, rfl, ?_, ?_, ?_, ?_, rfl, rfl, hid.symm, rfl⟩
  · rw [hs4, hs3, hs2, hs1]
  · rw [hs4, hs3, hs2, hs1]
  · rw [hs4, hs3, hs2, hs1]
    exact find?_save_account _ a _ accountID ha hid
  · rw [hs4, hs3, hs2, hs1]

/-- The statement of C11 on the sample origination: a loan of 100 over two
months at a benchmark rate of 7 % for the owner of account 10. -/
theorem CreateCredit_originates_witness :
    ∃ (credit : Credit) (db' : DB) (tx : Transaction),
      CreateCredit sample.dbFresh (.ok 7) sample.now 1 10 100 2 "loan" = (.ok credit, db')
      ∧ credit.InterestRate = 7 + 5 ∧ credit.Status = CreditStatusActive
      ∧ credit.RemainingDebt = 100 ∧ credit.TotalPaid = 0
      ∧ db'.store.credits = sample.dbFresh.store.credits ++ [credit]
      ∧ db'.store.accounts = accountRepository.save sample.dbFresh.store.accounts
          { sample.account with Balance := sample.account.Balance + 100 }
      ∧ db'.store.accounts.find? (fun x => x.ID = 10)
          = some { sample.account with Balance := sample.account.Balance + 100 }
      ∧ db'.store.transactions = sample.dbFresh.store.transactions ++ [tx]
      ∧ tx.TxType = TransactionTypeCredit ∧ tx.Status = TransactionStatusCompleted
      ∧ tx.ToAccountID = sample.account.ID ∧ tx.Amount = 100 :=
  CreateCredit_originates sample.dbFresh sample.now 1 10 sample.account 100 7 2 "loan"
    (by decide) rfl rfl (by norm_num [sample.account]) (by norm_num) (by norm_num) (by norm_num)
    (by norm_num) (by norm_num) (by decide) (by decide)

/-- C12, counterexample: in the sample origination whose third round trip
(the account update) fails, `CreateCredit` returns an error and the final
store holds the new credit record while the balance of the account is still
500: the credit persists without the balance update. -/
theorem CreateCredit_credit_without_balance :
    ∃ db', CreateCredit sample.dbFreshThirdFails (.ok 7) sample.now 1 10 100 2 "loan"
        = (.error "failed to update account balance: dbcore error", db')
      ∧ db'.store.credits = sample.dbFreshThirdFails.store.credits ++ [sample.creditNew]
      ∧ db'.store.accounts = sample.dbFreshThirdFails.store.accounts
      ∧ db'.store.accounts.find? (fun x => x.ID = 10) = some sample.account
      ∧ sample.account.Balance = 500 :=
  ⟨sample.dbHalfOriginated, sample_origination_update_fails, rfl, rfl, rfl, rfl⟩

/-- C12, amended: origination is three separate repository calls without a
rollback.  Every run of `CreateCredit` ends in one of four stores: the store
as it was (an error before or at the credit insert); the new credit appended
and nothing else changed (the account update failed or was refused); the new
credit appended and the balance of the account increased by `amount`, without
a transaction (the append failed or was refused); or the new credit, the
increased balance and the appended transaction (the call returns the
credit). -/
theorem CreateCredit_outcomes (db db' : DB) (keyRate : Except String ℚ) (now : time.Time)
    (userID accountID : ℕ) (amount : ℚ) (termMonths : ℤ) (description : String)
    (r : Except String Credit)
    (h : CreateCredit db keyRate now userID accountID amount termMonths description = (r, db')) :
    (∃ e, r = .error e ∧ db'.store = db.store)
    ∨ (∃ (credit : Credit) (e : String),
        r = .error ("failed to update account balance: " ++ e)
        ∧ db'.store = { db.store with credits := db.store.credits ++ [credit] })
    ∨ (∃ (credit : Credit) (account : Account) (e : String),
        r = .error ("failed to create transaction: " ++ e)
        ∧ db.store.accounts.find? (fun x => x.ID = accountID) = some account
        ∧ db'.store = { db.store with
            credits := db.store.credits ++ [credit]
            accounts := accountRepository.save db.store.accounts
              { account with Balance := account.Balance + amount } })
    ∨ (∃ (credit : Credit) (account : Account) (tx : Transaction),
        r = .ok credit
        ∧ db.store.accounts.find? (fun x => x.ID = accountID) = some account
        ∧ db'.store = { db.store with
            credits := db.store.credits ++ [credit]
            accounts := accountRepository.save db.store.accounts
              { account with Balance := account.Balance + amount }
            transactions := db.store.transactions ++ [tx] }) := by
  rcases CreateCredit_trace _ _ _ _ _ _ _ _ _ _ h with h0 |
    ⟨account, d1, rate, credit1, d2, h1, -, -, h2, h3⟩
  · exact Or.inl h0
  obtain ⟨hacc, hs1, -⟩ := accountRepository_GetByID_ok _ _ _ _ h1
  obtain ⟨-, -, hs2, -⟩ := creditRepository_Create_ok _ _ _ _ _ h2
  rcases h3 with ⟨e, h3, rfl⟩ | ⟨d3, h3, h4⟩
  · refine Or.inr (Or.inl ⟨credit1, e, rfl, ?_⟩)
    rw [accountRepository_Update_error _ _ _ _ h3, hs2, hs1]
  obtain ⟨-, hs3, -⟩ := accountRepository_Update_ok _ _ _ h3
  rcases h4 with ⟨e, h4, rfl⟩ | ⟨h4, rfl⟩
  · refine Or.inr (Or.inr (Or.inl ⟨credit1, account, e, rfl, hacc, ?_⟩))
    rw [transactionRepository_Create_error _ _ _ _ h4, hs3, hs2, hs1]
  · obtain ⟨-, hs4, -⟩ := transactionRepository_Create_ok _ _ _ h4
    refine Or.inr (Or.inr (Or.inr ⟨credit1, account,
      { CreateCredit.transaction credit1 accountID amount description with
        ID := nextID (d3.store.transactions.map (fun t => t.ID)) }, rfl, hacc, ?_⟩))
    rw [hs4, hs3, hs2, hs1]

/-- The four outcomes on the sample origination whose account update fails. -/
theorem CreateCredit_outcomes_witness :
    (∃ e, (.error "failed to update account balance: dbcore error" : Except String Credit)
        = .error e ∧ sample.dbHalfOriginated.store = sample.dbFreshThirdFails.store)
    ∨ (∃ (credit : Credit) (e : String),
        (.error "failed to update account balance: dbcore error" : Except String Credit)
          = .error ("failed to update account balance: " ++ e)
        ∧ sample.dbHalfOriginated.store = { sample.dbFreshThirdFails.store with
            credits := sample.dbFreshThirdFails.store.credits ++ [credit] })
    ∨ (∃ (credit : Credit) (account : Account) (e : String),
        (.error "failed to update account balance: dbcore error" : Except String Credit)
          = .error ("failed to create transaction: " ++ e)
        ∧ sample.dbFreshThirdFails.store.accounts.find? (fun x => x.ID = 10) = some account
        ∧ sample.dbHalfOriginated.store = { sample.dbFreshThirdFails.store with
            credits := sample.dbFreshThirdFails.store.credits ++ [credit]
            accounts := accountRepository.save sample.dbFreshThirdFails.store.accounts
              { account with Balance := account.Balance + 100 } })
    ∨ (∃ (credit : Credit) (account : Account) (tx : Transaction),
        (.error "failed to update account balance: dbcore error" : Except String Credit)
          = .ok credit
        ∧ sample.dbFreshThirdFails.store.accounts.find? (fun x => x.ID = 10) = some account
        ∧ sample.dbHalfOriginated.store = { sample.dbFreshThirdFails.store with
            credits := sample.dbFreshThirdFails.store.credits ++ [credit]
            accounts := accountRepository.save sample.dbFreshThirdFails.store.accounts
              { account with Balance := account.Balance + 100 }
            transactions := sample.dbFreshThirdFails.store.transactions ++ [tx] }) :=
  CreateCredit_outcomes sample.dbFreshThirdFails sample.dbHalfOriginated (.ok 7) sample.now 1 10
    100 2 "loan" _ sample_origination_update_fails

/-! ## The stored debt, and a payment that fails after the debit -/

/-- The sample origination stores a credit whose monthly payment is that of
the sample loan. -/
theorem sample_creditNew_total : sample.creditNew.CalculateTotalAmount = 20402 / 201 := by
  have h : sample.creditNew.CalculateMonthlyPayment = sample.credit.CalculateMonthlyPayment :=
    CalculateMonthlyPayment_congr sample.credit sample.creditNew rfl rfl
      (by norm_num [sample.creditNew, sample.credit, CreateCredit.credit])
  have hT : sample.creditNew.Term = 2 := rfl
  rw [Credit.CalculateTotalAmount, h, sample_monthly, hT]
  norm_num

/-- C14, counterexample: the credit record persisted by the sample
origination (100 over two months at 12 %) has `RemainingDebt = 100`, the
principal, while `CalculateTotalAmount() - TotalPaid` is 20402/201. -/
theorem CreateCredit_debt_is_principal :
    ∃ (c : Credit) (db' : DB),
      CreateCredit sample.dbFresh (.ok 7) sample.now 1 10 100 2 "loan" = (.ok c, db')
      ∧ c ∈ db'.store.credits
      ∧ c.RemainingDebt = 100
      ∧ c.CalculateTotalAmount - c.TotalPaid = 20402 / 201
      ∧ c.RemainingDebt ≠ c.CalculateTotalAmount - c.TotalPaid := by
  have hR : sample.creditNew.RemainingDebt = 100 := rfl
  have hP : sample.creditNew.TotalPaid = 0 := rfl
  refine ⟨sample.creditNew, sample.dbOriginated, sample_origination, ?_, hR, ?_, ?_⟩
  · exact List.mem_singleton.mpr rfl
  · rw [sample_creditNew_total, hP]; norm_num
  · rw [sample_creditNew_total, hP, hR]; norm_num

/-- C14, amended: the credit record persisted by a `CreateCredit` that
returns a credit is the one record appended to the credit table and has
`RemainingDebt = amount`, the principal, and `TotalPaid = 0`; the credit
record persisted by a `ProcessPayment` that returns nil is the stored row of
the credit and satisfies
`RemainingDebt = CalculateTotalAmount() - TotalPaid`. -/
theorem persisted_RemainingDebt (dbc dbc' : DB) (keyRate : Except String ℚ) (nowc : time.Time)
    (userID accountID : ℕ) (amount : ℚ) (termMonths : ℤ) (description : String) (c : Credit)
    (db db' : DB) (now : time.Time) (creditID : ℕ) (n : ℤ)
    (hc : CreateCredit dbc keyRate nowc userID accountID amount termMonths description
      = (.ok c, dbc'))
    (hp : ProcessPayment db now creditID n = (.ok (), db')) :
    (dbc'.store.credits = dbc.store.credits ++ [c] ∧ c.RemainingDebt = amount ∧ c.TotalPaid = 0)
    ∧ ∃ c5 : Credit, db'.store.credits = creditRepository.save db.store.credits c5
        ∧ db'.store.credits.find? (fun x => x.ID = creditID) = some c5
        ∧ c5.RemainingDebt = c5.CalculateTotalAmount - c5.TotalPaid := by
  constructor
  · rcases CreateCredit_trace _ _ _ _ _ _ _ _ _ _ hc with ⟨e, he, -⟩ |
      ⟨account, d1, rate, credit1, d2, h1, -, -, h2, h3⟩
    · simp at he
    obtain ⟨-, hs1, -⟩ := accountRepository_GetByID_ok _ _ _ _ h1
    obtain ⟨-, hc1, hs2, -⟩ := creditRepository_Create_ok _ _ _ _ _ h2
    rcases h3 with ⟨e, -, he⟩ | ⟨d3, h3, h4⟩
    · simp at he
    obtain ⟨-, hs3, -⟩ := accountRepository_Update_ok _ _ _ h3
    rcases h4 with ⟨e, -, he⟩ | ⟨h4, he⟩
    · simp at he
    obtain ⟨-, hs4, -⟩ := transactionRepository_Create_ok _ _ _ h4
    simp only [Except.ok.injEq] at he
    subst he
    refine ⟨by rw [hs4, hs3, hs2, hs1], ?_, ?_⟩
    · rw [hc1]; rfl
    · rw [hc1]; rfl
  · obtain ⟨credit, account, creditID1, dbs, dbs', schedule, payment, tx, credit5, hf, -, -, -, -,
      -, -, -, -, h5, -, hst, -⟩ := ProcessPayment_ok_effects db db' now creditID n hp
    have hid : credit.ID = creditID := by
      have := List.find?_some hf
      simpa using this
    have hid5 : credit5.ID = creditID := by rw [h5]; exact hid
    refine ⟨credit5, by rw [hst], ?_, ?_⟩
    · rw [hst]
      exact find?_save_credit _ credit credit5 creditID hf hid5
    · have hm : credit5.CalculateMonthlyPayment = credit.CalculateMonthlyPayment :=
        CalculateMonthlyPayment_congr credit credit5 (by rw [h5]) (by rw [h5]) (by rw [h5])
      have hT : credit5.Term = credit.Term := by rw [h5]
      have hR : credit5.RemainingDebt
          = credit.CalculateTotalAmount - (credit.TotalPaid + payment.TotalAmount) := by rw [h5]
      have hP : credit5.TotalPaid = credit.TotalPaid + payment.TotalAmount := by rw [h5]
      rw [hR, hP, Credit.CalculateTotalAmount, Credit.CalculateTotalAmount, hm, hT]

/-- The statement of C14 as amended on the sample origination and the first
payment of the sample loan. -/
theorem persisted_RemainingDebt_witness :
    (sample.dbOriginated.store.credits = sample.dbFresh.store.credits ++ [sample.creditNew]
      ∧ sample.creditNew.RemainingDebt = 100 ∧ sample.creditNew.TotalPaid = 0)
    ∧ ∃ c5 : Credit,
        sample.dbPaid.store.credits = creditRepository.save sample.db.store.credits c5
        ∧ sample.dbPaid.store.credits.find? (fun x => x.ID = 1) = some c5
        ∧ c5.RemainingDebt = c5.CalculateTotalAmount - c5.TotalPaid :=
  persisted_RemainingDebt sample.dbFresh sample.dbOriginated (.ok 7) sample.now 1 10 100 2 "loan"
    sample.creditNew sample.db sample.dbPaid sample.now 1 1 sample_origination
    sample_first_payment

/-- The run of `ProcessPayment` whose transaction append fails after the
debit. -/
theorem ProcessPayment_run_append_fails (db db1 db2 db3 db4 db5 db6 : DB) (now : time.Time)
    (creditID creditID1 : ℕ) (n : ℤ) (credit : Credit) (transactions : List Transaction)
    (schedule : List PaymentSchedule) (payment : PaymentSchedule) (account : Account)
    (e : String)
    (h1 : creditRepository.GetByID db creditID = (.ok credit, db1))
    (h2 : transactionRepository.GetByType db1 TransactionTypePayment = (.ok transactions, db2))
    (h3 : ProcessPayment.scan credit.AccountID n transactions creditID = some creditID1)
    (h4 : GetPaymentSchedule db2 creditID1 = (.ok schedule, db3))
    (h5 : schedule.find? (fun p => p.PaymentNumber = n) = some payment)
    (h6 : accountRepository.GetByID db3 credit.AccountID = (.ok account, db4))
    (hbal : payment.TotalAmount ≤ account.Balance)
    (h7 : accountRepository.Update db4
      { account with Balance := account.Balance - payment.TotalAmount } = (.ok (), db5))
    (h8 : transactionRepository.Create db5
      { ID := 0, TxType := TransactionTypePayment, FromAccountID := credit.AccountID,
        ToAccountID := 0, Amount := payment.TotalAmount,
        Description := fmt.SprintfPayment credit.ID n,
        Status := TransactionStatusCompleted } = (.error e, db6)) :
    ProcessPayment db now creditID n = (.error ("failed to create transaction: " ++ e), db6) := by
  unfold ProcessPayment
  simp only [h1, h2, h3, h4, h5, h6, if_neg (not_lt.mpr hbal), h7, h8]

/-- An account update that works, the script saying so. -/
theorem accountRepository_Update_cons (db : DB) (a : Account) (rest : List Bool)
    (hs : db.script = false :: rest) (ha : 0 ≤ a.Balance) :
    accountRepository.Update db a
      = (.ok (), { store := { db.store with
          accounts := accountRepository.save db.store.accounts a }, script := rest }) := by
  simp [accountRepository.Update, DB.roundTrip, hs, Account.Validate, Account.ValidateBalance,
    not_lt.mpr ha]

/-- The first payment of the sample loan when the transaction append
fails. -/
theorem sample_payment_append_fails :
    ProcessPayment sample.dbSixthFails sample.now 1 1
      = (.error "failed to create transaction: dbcore error", sample.dbDebited) := by
  refine ProcessPayment_run_append_fails sample.dbSixthFails _ _ _ _ _ _
    sample.now 1 1 1 sample.credit [] _ _ sample.account _ rfl rfl rfl rfl rfl rfl ?_
    (accountRepository_Update_cons _ _ [true] rfl ?_) rfl
  · show sample.credit.CalculateMonthlyPayment ≤ sample.account.Balance
    rw [sample_monthly]; norm_num [sample.account]
  · show 0 ≤ sample.account.Balance - sample.credit.CalculateMonthlyPayment
    rw [sample_monthly]; norm_num [sample.account]

/-- C13, counterexample: the first payment of the sample loan whose
transaction append fails after the debit returns an error, and the balance of
the account, 500 before the call, is 500 - 10201/201 after it, with no
transaction recorded and the credit record untouched. -/
theorem ProcessPayment_debit_persists :
    ∃ (db' : DB) (a : Account),
      ProcessPayment sample.dbSixthFails sample.now 1 1
        = (.error "failed to create transaction: dbcore error", db')
      ∧ sample.dbSixthFails.store.accounts.find? (fun x => x.ID = 10) = some sample.account
      ∧ sample.account.Balance = 500
      ∧ db'.store.accounts.find? (fun x => x.ID = 10) = some a
      ∧ a.Balance = 500 - 10201 / 201
      ∧ a.Balance ≠ sample.account.Balance
      ∧ db'.store.transactions = sample.dbSixthFails.store.transactions
      ∧ db'.store.credits = sample.dbSixthFails.store.credits := by
  refine ⟨sample.dbDebited,
    { sample.account with Balance := sample.account.Balance - sample.credit.CalculateMonthlyPayment },
    sample_payment_append_fails, rfl, rfl, rfl, ?_, ?_, rfl, rfl⟩
  · show sample.account.Balance - sample.credit.CalculateMonthlyPayment = _
    rw [sample_monthly]; norm_num [sample.account]
  · show sample.account.Balance - sample.credit.CalculateMonthlyPayment ≠ _
    rw [sample_monthly]; norm_num [sample.account]

/-- C13, amended: `ProcessPayment` has no rollback.  When a call has debited
the account (the steps up to the account update worked) and then returns an
error, the debit persists and the credit record is as before the call; the
transaction log is as before the call when the append failed, and holds the
appended payment record when the credit update failed. -/
theorem ProcessPayment_failure_after_debit (db db1 db2 db3 db4 db5 db' : DB) (now : time.Time)
    (creditID creditID1 : ℕ) (n : ℤ) (credit : Credit) (transactions : List Transaction)
    (schedule : List PaymentSchedule) (payment : PaymentSchedule) (account : Account)
    (e : String)
    (h1 : creditRepository.GetByID db creditID = (.ok credit, db1))
    (h2 : transactionRepository.GetByType db1 TransactionTypePayment = (.ok transactions, db2))
    (h3 : ProcessPayment.scan credit.AccountID n transactions creditID = some creditID1)
    (h4 : GetPaymentSchedule db2 creditID1 = (.ok schedule, db3))
    (h5 : schedule.find? (fun p => p.PaymentNumber = n) = some payment)
    (h6 : accountRepository.GetByID db3 credit.AccountID = (.ok account, db4))
    (hbal : payment.TotalAmount ≤ account.Balance)
    (h7 : accountRepository.Update db4
      { account with Balance := account.Balance - payment.TotalAmount } = (.ok (), db5))
    (h : ProcessPayment db now creditID n = (.error e, db')) :
    db'.store.credits = db.store.credits
    ∧ db'.store.accounts = accountRepository.save db.store.accounts
        { account with Balance := account.Balance - payment.TotalAmount }
    ∧ ((∃ e1, e = "failed to create transaction: " ++ e1
          ∧ db'.store.transactions = db.store.transactions)
      ∨ (∃ e1, e = "failed to update credit: " ++ e1
          ∧ db'.store.transactions = db.store.transactions ++
            [{ ID := nextID (db.store.transactions.map (fun t => t.ID)),
               TxType := TransactionTypePayment, FromAccountID := credit.AccountID,
               ToAccountID := 0, Amount := payment.TotalAmount,
               Description := fmt.SprintfPayment credit.ID n,
               Status := TransactionStatusCompleted }])) := by
  obtain ⟨-, hs1, -⟩ := creditRepository_GetByID_ok _ _ _ _ h1
  obtain ⟨-, hs2, -⟩ := transactionRepository_GetByType_ok _ _ _ _ h2
  obtain ⟨hs3, -⟩ := GetPaymentSchedule_store _ _ _ _ h4
  obtain ⟨-, hs4, -⟩ := accountRepository_GetByID_ok _ _ _ _ h6
  obtain ⟨-, hs5, -⟩ := accountRepository_Update_ok _ _ _ h7
  have hs : db5.store = { db.store with
      accounts := accountRepository.save db.store.accounts
        { account with Balance := account.Balance - payment.TotalAmount } } := by
    rw [hs5, hs4, hs3, hs2, hs1]
  unfold ProcessPayment at h
  simp only [h1, h2, h3, h4, h5, h6, if_neg (not_lt.mpr hbal), h7] at h
  split at h
  · rename_i err d6 h8
    simp only [Prod.mk.injEq, Except.error.injEq] at h
    obtain ⟨rfl, rfl⟩ := h
    have hs6 := transactionRepository_Create_error _ _ _ _ h8
    refine ⟨by rw [hs6, hs], by rw [hs6, hs], Or.inl ⟨err, rfl, by rw [hs6, hs]⟩⟩
  · rename_i u d6 h8
    obtain ⟨-, hs6, -⟩ := transactionRepository_Create_ok _ _ _ h8
    split at h
    · rename_i err d7 h9
      simp only [Prod.mk.injEq, Except.error.injEq] at h
      obtain ⟨rfl, rfl⟩ := h
      have hs7 := creditRepository_Update_error _ _ _ _ h9
      refine ⟨by rw [hs7, hs6, hs], by rw [hs7, hs6, hs], Or.inr ⟨err, rfl, by rw [hs7, hs6, hs]⟩⟩
    · simp at h

/-- The statement of C13 as amended on the first payment of the sample loan
whose transaction append fails. -/
theorem ProcessPayment_failure_after_debit_witness :
    sample.dbDebited.store.credits = sample.dbSixthFails.store.credits
    ∧ sample.dbDebited.store.accounts = accountRepository.save sample.dbSixthFails.store.accounts
        { sample.account with
          Balance := sample.account.Balance - sample.credit.CalculateMonthlyPayment }
    ∧ ((∃ e1, "failed to create transaction: dbcore error" = "failed to create transaction: " ++ e1
          ∧ sample.dbDebited.store.transactions = sample.dbSixthFails.store.transactions)
      ∨ (∃ e1, "failed to create transaction: dbcore error" = "failed to update credit: " ++ e1
          ∧ sample.dbDebited.store.transactions = sample.dbSixthFails.store.transactions ++
            [{ ID := nextID (sample.dbSixthFails.store.transactions.map (fun t => t.ID)),
               TxType := TransactionTypePayment, FromAccountID := sample.credit.AccountID,
               ToAccountID := 0, Amount := sample.credit.CalculateMonthlyPayment,
               Description := fmt.SprintfPayment sample.credit.ID 1,
               Status := TransactionStatusCompleted }])) := by
  refine ProcessPayment_failure_after_debit sample.dbSixthFails _ _ _ _ _ sample.dbDebited
    sample.now 1 1 1 sample.credit [] _ _ sample.account _ rfl rfl rfl rfl rfl rfl ?_
    (accountRepository_Update_cons _ _ [true] rfl ?_) sample_payment_append_fails
  · show sample.credit.CalculateMonthlyPayment ≤ sample.account.Balance
    rw [sample_monthly]; norm_num [sample.account]
  · show 0 ≤ sample.account.Balance - sample.credit.CalculateMonthlyPayment
    rw [sample_monthly]; norm_num [sample.account]

/-! ## The scheduler -/

/-- The record built by `Scheduler.ProcessPayment` does not pass
`Transaction.Validate`. -/
theorem Scheduler_transaction_invalid (credit : Credit) (payment : PaymentSchedule) :
    (Scheduler.ProcessPayment.transaction credit payment).Validate = .error ErrInvalidType := by
  have h : (Scheduler.ProcessPayment.transaction credit payment).ValidateType
      = .error ErrInvalidType := by
    have h1 : ¬ ("CREDIT_PAYMENT" : String) = TransactionTypeTransfer := by decide
    have h2 : ¬ ("CREDIT_PAYMENT" : String) = TransactionTypeDeposit := by decide
    have h3 : ¬ ("CREDIT_PAYMENT" : String) = TransactionTypeWithdrawal := by decide
    have h4 : ¬ ("CREDIT_PAYMENT" : String) = TransactionTypePayment := by decide
    have h5 : ¬ ("CREDIT_PAYMENT" : String) = TransactionTypeCredit := by decide
    simp [Transaction.ValidateType, Scheduler.ProcessPayment.transaction, h1, h2, h3, h4, h5]
  simp only [Transaction.Validate, h]

/-- A record that does not pass validation is refused by
`transactionRepository.Create`, which leaves the store as it was. -/
theorem transactionRepository_Create_invalid (db db1 : DB) (t : Transaction) (e : String)
    (r : Except String Unit) (hv : t.Validate = .error e)
    (h : transactionRepository.Create db t = (r, db1)) :
    (r = .error ErrDatabaseError ∨ r = .error ErrInvalidData) ∧ db1.store = db.store := by
  unfold transactionRepository.Create at h
  rcases roundTrip_cases db with ⟨d, hd, hs⟩ | ⟨d, hd, hs, -⟩
  · simp only [hd, if_true, Prod.mk.injEq] at h
    obtain ⟨rfl, rfl⟩ := h
    exact ⟨Or.inl rfl, hs⟩
  · simp only [hd, Bool.false_eq_true, if_false, hv, Prod.mk.injEq] at h
    obtain ⟨rfl, rfl⟩ := h
    exact ⟨Or.inr rfl, hs⟩

theorem transactionRepository_Create_invalid_nil (db : DB) (t : Transaction) (e : String)
    (hs : db.script = []) (hv : t.Validate = .error e) :
    transactionRepository.Create db t = (.error ErrInvalidData, db) := by
  simp [transactionRepository.Create, DB.roundTrip, hs, hv]

/-- No run of `Scheduler.ProcessPayment` returns nil: the run that reaches the
transaction append stops there. -/
theorem Scheduler_ProcessPayment_never_ok (db : DB) (notify : Notifier) (creditID : ℕ) (n : ℤ) :
    ∃ e, (Scheduler.ProcessPayment db notify creditID n).1 = .error e := by
  unfold Scheduler.ProcessPayment
  split
  · exact ⟨_, rfl⟩
  split
  · exact ⟨_, rfl⟩
  split
  · exact ⟨_, rfl⟩
  split
  · exact ⟨_, rfl⟩
  split
  · exact ⟨_, rfl⟩
  dsimp only
  split
  · exact ⟨_, rfl⟩
  split
  · exact ⟨_, rfl⟩
  split
  · exact ⟨_, rfl⟩
  · rename_i h
    have := transactionRepository_Create_invalid _ _ _ _ _ (Scheduler_transaction_invalid _ _) h
    rcases this.1 with h1 | h1 <;> simp at h1

/-- C20: the transaction record that `Scheduler.ProcessPayment` builds and
hands to the transaction log has Type "CREDIT_PAYMENT", which is neither
CREDIT nor PAYMENT; its Status is COMPLETED and `ValidateStatus` accepts it,
but `ValidateType` (and so `Validate`) rejects it with "invalid transaction
type", and `transactionRepository.Create` never stores it. -/
theorem Scheduler_transaction_type_rejected (credit : Credit) (payment : PaymentSchedule)
    (db : DB) :
    (Scheduler.ProcessPayment.transaction credit payment).TxType = "CREDIT_PAYMENT"
    ∧ (Scheduler.ProcessPayment.transaction credit payment).TxType ≠ TransactionTypeCredit
    ∧ (Scheduler.ProcessPayment.transaction credit payment).TxType ≠ TransactionTypePayment
    ∧ (Scheduler.ProcessPayment.transaction credit payment).Status = TransactionStatusCompleted
    ∧ (Scheduler.ProcessPayment.transaction credit payment).ValidateStatus = .ok ()
    ∧ (Scheduler.ProcessPayment.transaction credit payment).ValidateType
        = .error "invalid transaction type"
    ∧ (Scheduler.ProcessPayment.transaction credit payment).Validate
        = .error "invalid transaction type"
    ∧ (∃ e, (transactionRepository.Create db
          (Scheduler.ProcessPayment.transaction credit payment)).1 = .error e)
    ∧ (transactionRepository.Create db
          (Scheduler.ProcessPayment.transaction credit payment)).2.store = db.store := by
  have hv := Scheduler_transaction_invalid credit payment
  have hc := transactionRepository_Create_invalid db _ _ _ _ hv rfl
  have h4 : ¬ ("CREDIT_PAYMENT" : String) = TransactionTypePayment := by decide
  have h5 : ¬ ("CREDIT_PAYMENT" : String) = TransactionTypeCredit := by decide
  refine ⟨rfl, h5, h4, rfl, ?_, ?_, hv, ?_, hc.2⟩
  · simp [Transaction.ValidateStatus, Scheduler.ProcessPayment.transaction,
      TransactionStatusCompleted]
  · have h1 : ¬ ("CREDIT_PAYMENT" : String) = TransactionTypeTransfer := by decide
    have h2 : ¬ ("CREDIT_PAYMENT" : String) = TransactionTypeDeposit := by decide
    have h3 : ¬ ("CREDIT_PAYMENT" : String) = TransactionTypeWithdrawal := by decide
    have h4 : ¬ ("CREDIT_PAYMENT" : String) = TransactionTypePayment := by decide
    have h5 : ¬ ("CREDIT_PAYMENT" : String) = TransactionTypeCredit := by decide
    simp [Transaction.ValidateType, Scheduler.ProcessPayment.transaction, h1, h2, h3, h4, h5,
      ErrInvalidType]
  · rcases hc.1 with h | h <;> exact ⟨_, h⟩

/-- The run of `Scheduler.ProcessPayment` that reaches the transaction
append. -/
theorem Scheduler_ProcessPayment_run_append_fails (db db1 db2 db3 db4 db5 db6 : DB)
    (notify : Notifier) (creditID : ℕ) (n : ℤ) (credit : Credit) (account : Account)
    (schedule : List PaymentSchedule) (payment : PaymentSchedule) (e : String)
    (h1 : creditRepository.GetByID db creditID = (.ok credit, db1))
    (h2 : accountRepository.GetByID db1 credit.AccountID = (.ok account, db2))
    (h3 : creditRepository.GetPaymentSchedule db2 creditID = (.ok schedule, db3))
    (h4 : schedule.find? (fun p => p.PaymentNumber = n) = some payment)
    (hbal : payment.Amount ≤ account.Balance)
    (h5 : accountRepository.Update db3 { account with Balance := account.Balance - payment.Amount }
      = (.ok (), db4))
    (h6 : creditRepository.UpdatePaymentSchedule db4 { payment with Status := "COMPLETED" }
      = (.ok (), db5))
    (h7 : transactionRepository.Create db5
      (Scheduler.ProcessPayment.transaction credit { payment with Status := "COMPLETED" })
      = (.error e, db6)) :
    Scheduler.ProcessPayment db notify creditID n
      = (.error ("failed to create transaction: " ++ e), db6) := by
  unfold Scheduler.ProcessPayment
  simp only [h1, h2, h3, h4, if_neg (not_lt.mpr hbal), h5, h6, h7]

/-- The first payment of the sample loan from the store with its schedule
row, by the credit engine. -/
theorem sample_scheduled_engine_payment :
    ProcessPayment sample.dbScheduled sample.now 1 1 = (.ok (), sample.dbScheduledPaid) := by
  refine ProcessPayment_run_paid sample.dbScheduled sample.dbScheduled sample.dbScheduled
    sample.dbScheduled sample.dbScheduled _ _ _
    sample.now 1 1 1 sample.credit [] _ _ sample.account rfl rfl rfl rfl rfl rfl ?_
    (accountRepository_Update_nil _ _ rfl ?_) (transactionRepository_Create_nil _ _ rfl rfl rfl ?_)
    (creditRepository_Update_nil _ _ rfl ?_)
  · show sample.credit.CalculateMonthlyPayment ≤ sample.account.Balance
    rw [sample_monthly]; norm_num [sample.account]
  · show 0 ≤ sample.account.Balance - sample.credit.CalculateMonthlyPayment
    rw [sample_monthly]; norm_num [sample.account]
  · show 0 < sample.credit.CalculateMonthlyPayment
    rw [sample_monthly]; norm_num
  · exact sample_credit_valid _ (Or.inl rfl) _ _ _ _

/-- The first payment of the sample loan from the store with its schedule
row, by the scheduler. -/
theorem sample_scheduled_scheduler_payment :
    Scheduler.ProcessPayment sample.dbScheduled sample.notifyOk 1 1
      = (.error "failed to create transaction: invalid data", sample.dbScheduledDebited) := by
  refine Scheduler_ProcessPayment_run_append_fails sample.dbScheduled sample.dbScheduled
    sample.dbScheduled sample.dbScheduled _ _ _ sample.notifyOk 1 1 sample.credit sample.account
    _ sample.row _ rfl rfl rfl rfl ?_ (accountRepository_Update_nil _ _ rfl ?_) rfl
    (transactionRepository_Create_invalid_nil _ _ _ rfl (Scheduler_transaction_invalid _ _))
  · norm_num [sample.row, sample.account]
  · norm_num [sample.row, sample.account]

/-- C19, counterexample: on the sample store with the schedule row of the
loan (balance 500, installment 50 in the row and 10201/201 by the annuity
formula, no collaborator failing) `creditService.ProcessPayment(1, 1)`
returns nil, having recorded one payment transaction and updated the credit
record, while `Scheduler.ProcessPayment(1, 1)` returns "failed to create
transaction: invalid data", having debited the 50 of the row, recorded no
transaction and left the credit record as it was. -/
theorem Scheduler_ProcessPayment_differs :
    ∃ (dbE dbS : DB),
      ProcessPayment sample.dbScheduled sample.now 1 1 = (.ok (), dbE)
      ∧ Scheduler.ProcessPayment sample.dbScheduled sample.notifyOk 1 1
          = (.error "failed to create transaction: invalid data", dbS)
      ∧ dbE.store.transactions.length = 1
      ∧ dbS.store.transactions = []
      ∧ dbE.store.credits
          = [sample.creditAfter sample.credit sample.credit.CalculateMonthlyPayment
              CreditStatusActive]
      ∧ dbS.store.credits = [sample.credit]
      ∧ dbE.store.credits ≠ dbS.store.credits
      ∧ dbS.store.accounts = [{ sample.account with Balance := 500 - 50 }]
      ∧ dbE.store.accounts = [{ sample.account with Balance := 500 - 10201 / 201 }] := by
  refine ⟨sample.dbScheduledPaid, sample.dbScheduledDebited, sample_scheduled_engine_payment,
    sample_scheduled_scheduler_payment, rfl, rfl, rfl, rfl, ?_, rfl, ?_⟩
  · intro h
    have h1 : (sample.creditAfter sample.credit sample.credit.CalculateMonthlyPayment
        CreditStatusActive).TotalPaid = sample.credit.TotalPaid := by
      have := List.head_eq_of_cons_eq h
      rw [this]
    have h2 : (sample.creditAfter sample.credit sample.credit.CalculateMonthlyPayment
        CreditStatusActive).TotalPaid = 0 + 10201 / 201 := by
      show sample.credit.TotalPaid + sample.credit.CalculateMonthlyPayment = _
      rw [sample_monthly]; rfl
    rw [h2] at h1
    norm_num [sample.credit] at h1
  · show [({ sample.account with
      Balance := sample.account.Balance - sample.credit.CalculateMonthlyPayment } : Account)] = _
    rw [sample_monthly]; rfl

/-- In every run `Scheduler.ProcessPayment` leaves the credit table as it
was, and the account table is either as it was or holds the account of the
credit debited by the `Amount` of the stored schedule row of the credit with
number `n`, which the balance covered. -/
theorem Scheduler_ProcessPayment_envelope (db : DB) (notify : Notifier) (creditID : ℕ)
    (n : ℤ) :
    (Scheduler.ProcessPayment db notify creditID n).2.store.credits = db.store.credits
    ∧ ((Scheduler.ProcessPayment db notify creditID n).2.store.accounts = db.store.accounts
      ∨ ∃ (credit : Credit) (account : Account) (row : PaymentSchedule),
          db.store.credits.find? (fun c => c.ID = creditID) = some credit
          ∧ db.store.accounts.find? (fun a => a.ID = credit.AccountID) = some account
          ∧ (db.store.schedules.filter (fun p => p.CreditID = creditID)).find?
              (fun p => p.PaymentNumber = n) = some row
          ∧ row.Amount ≤ account.Balance
          ∧ (Scheduler.ProcessPayment db notify creditID n).2.store.accounts
              = accountRepository.save db.store.accounts
                  { account with Balance := account.Balance - row.Amount }) := by
  unfold Scheduler.ProcessPayment
  split
  · rename_i e d1 h1
    have hs1 := (creditRepository_GetByID_store _ _ _ _ h1).1
    exact ⟨by rw [hs1], Or.inl (by rw [hs1])⟩
  rename_i credit d1 h1
  obtain ⟨hc, hs1, -⟩ := creditRepository_GetByID_ok _ _ _ _ h1
  split
  · rename_i e d2 h2
    have hs2 := accountRepository_GetByID_store _ _ _ _ h2
    exact ⟨by rw [hs2, hs1], Or.inl (by rw [hs2, hs1])⟩
  rename_i account d2 h2
  obtain ⟨ha, hs2, -⟩ := accountRepository_GetByID_ok _ _ _ _ h2
  rw [hs1] at ha
  split
  · rename_i e d3 h3
    have hs3 := creditRepository_GetPaymentSchedule_store _ _ _ _ h3
    exact ⟨by rw [hs3, hs2, hs1], Or.inl (by rw [hs3, hs2, hs1])⟩
  rename_i schedule d3 h3
  have hs3 := creditRepository_GetPaymentSchedule_store _ _ _ _ h3
  have hsch := creditRepository_GetPaymentSchedule_ok _ _ _ _ h3
  rw [hs2, hs1] at hsch
  have hs03 : d3.store = db.store := by rw [hs3, hs2, hs1]
  split
  · exact ⟨by rw [hs03], Or.inl (by rw [hs03])⟩
  rename_i payment h4
  rw [hsch] at h4
  split
  · exact ⟨by rw [hs03], Or.inl (by rw [hs03])⟩
  rename_i hbal
  dsimp only
  split
  · rename_i e d4 h5
    have hs4 := accountRepository_Update_error _ _ _ _ h5
    exact ⟨by rw [hs4, hs03], Or.inl (by rw [hs4, hs03])⟩
  rename_i u4 d4 h5
  obtain ⟨-, hs4, -⟩ := accountRepository_Update_ok _ _ _ h5
  have hdebit : ∀ d : DB, d.store.credits = d4.store.credits →
      d.store.accounts = d4.store.accounts →
      d.store.credits = db.store.credits
      ∧ (d.store.accounts = db.store.accounts
        ∨ ∃ (credit : Credit) (account : Account) (row : PaymentSchedule),
          db.store.credits.find? (fun c => c.ID = creditID) = some credit
          ∧ db.store.accounts.find? (fun a => a.ID = credit.AccountID) = some account
          ∧ (db.store.schedules.filter (fun p => p.CreditID = creditID)).find?
              (fun p => p.PaymentNumber = n) = some row
          ∧ row.Amount ≤ account.Balance
          ∧ d.store.accounts = accountRepository.save db.store.accounts
              { account with Balance := account.Balance - row.Amount }) := by
    intro d hdc hda
    refine ⟨by rw [hdc, hs4, hs03], Or.inr ⟨credit, account, payment, hc, ha, h4,
      not_lt.mp hbal, ?_⟩⟩
    rw [hda, hs4, hs03]
  split
  · rename_i e d5 h6
    rcases creditRepository_UpdatePaymentSchedule_cases _ _ _ _ h6 with ⟨-, hs5⟩ | ⟨-, hs5⟩
    · exact hdebit d5 (by rw [hs5]) (by rw [hs5])
    · exact hdebit d5 (by rw [hs5]) (by rw [hs5])
  rename_i u5 d5 h6
  have hs5 : d5.store.credits = d4.store.credits ∧ d5.store.accounts = d4.store.accounts := by
    rcases creditRepository_UpdatePaymentSchedule_cases _ _ _ _ h6 with ⟨-, hs5⟩ | ⟨-, hs5⟩
    · exact ⟨by rw [hs5], by rw [hs5]⟩
    · exact ⟨by rw [hs5], by rw [hs5]⟩
  split
  · rename_i e d6 h7
    have hs6 := transactionRepository_Create_error _ _ _ _ h7
    exact hdebit d6 (by rw [hs6, hs5.1]) (by rw [hs6, hs5.2])
  rename_i u6 d6 h7
  obtain ⟨-, hs6, -⟩ := transactionRepository_Create_ok _ _ _ h7
  have hs6' : d6.store.credits = d4.store.credits ∧ d6.store.accounts = d4.store.accounts :=
    ⟨by rw [hs6, hs5.1], by rw [hs6, hs5.2]⟩
  split
  · rename_i e d7 h8
    have hs7 := userRepository_GetByID_store _ _ _ _ h8
    exact hdebit d7 (by rw [hs7, hs6'.1]) (by rw [hs7, hs6'.2])
  rename_i user d7 h8
  have hs7 := userRepository_GetByID_store _ _ _ _ h8
  split
  · exact hdebit d7 (by rw [hs7, hs6'.1]) (by rw [hs7, hs6'.2])
  · exact hdebit d7 (by rw [hs7, hs6'.1]) (by rw [hs7, hs6'.2])

/-- The pass of the loop of `CheckPayments` over a credit that is due, whose
first pending row the balance does not cover. -/
theorem CheckPayments_step_overdue (db db1 db2 db3 db4 : DB) (notify : Notifier)
    (now : time.Time) (credit : Credit) (account : Account) (user : User)
    (schedule : List PaymentSchedule) (nextPayment : PaymentSchedule)
    (h1 : accountRepository.GetByID db credit.AccountID = (.ok account, db1))
    (h2 : userRepository.GetByID db1 account.UserID = (.ok user, db2))
    (hdue : now.After credit.NextPayment = true)
    (h3 : creditRepository.GetPaymentSchedule db2 credit.ID = (.ok schedule, db3))
    (h4 : schedule.find? (fun p => p.Status = "PENDING") = some nextPayment)
    (hbal : account.Balance < nextPayment.Amount)
    (h5 : creditRepository.UpdatePaymentSchedule db3 { nextPayment with Status := "OVERDUE" }
      = (.ok (), db4))
    (h6 : notify user.Email "Просрочка платежа по кредиту" nextPayment.Amount = .ok ()) :
    Scheduler.CheckPayments.step db notify now credit = (none, db4) := by
  unfold Scheduler.CheckPayments.step
  simp only [h1, h2, hdue, if_true, h3, h4, ge_iff_le, if_neg (not_le.mpr hbal), h5, h6]

/-- The sweep over the three sample loans stops at the second. -/
theorem sample_sweep_three :
    Scheduler.CheckPayments sample.dbThree sample.notifyOk sample.now
      = (.error "failed to get account: dbcore error", sample.dbThreeAfter) := by
  rfl

/-- The sweep over the first and the third sample loan. -/
theorem sample_sweep_two :
    Scheduler.CheckPayments sample.dbTwo sample.notifyOk sample.now
      = (.ok (), sample.dbTwoAfter) := by
  have hA : creditRepository.GetActiveCredits sample.dbTwo
      = (.ok [sample.credit, sample.creditC], sample.dbTwo) := by rfl
  have h1 : Scheduler.CheckPayments.step sample.dbTwo sample.notifyOk sample.now sample.credit
      = (none, sample.dbTwo) := by rfl
  have h3 : Scheduler.CheckPayments.step sample.dbTwo sample.notifyOk sample.now sample.creditC
      = (none, sample.dbTwoAfter) :=
    CheckPayments_step_overdue sample.dbTwo sample.dbTwo sample.dbTwo sample.dbTwo _
      sample.notifyOk sample.now sample.creditC sample.accountC sample.user _ sample.rowC
      rfl rfl rfl rfl rfl (by norm_num [sample.accountC, sample.rowC]) rfl rfl
  unfold Scheduler.CheckPayments
  simp only [hA, Scheduler.CheckPayments.loop, h1, h3]

/-- The loop of `CheckPayments` returns at the first credit whose pass ends
in an error, whatever credits follow it in the list. -/
theorem CheckPayments_loop_stops (db db1 : DB) (notify : Notifier) (now : time.Time)
    (credit : Credit) (rest : List Credit) (err : String)
    (h : Scheduler.CheckPayments.step db notify now credit = (some err, db1)) :
    Scheduler.CheckPayments.loop notify now (credit :: rest) db = (.error err, db1) := by
  simp only [Scheduler.CheckPayments.loop, h]

/-- C18: three ACTIVE loans are listed, the first not yet due, the third due
with a pending row of 5 on an account without funds; the fetch of the account
of the second fails.  `CheckPayments` returns that per-credit error, "failed
to get account: dbcore error", and writes nothing: the row of the third loan
is still PENDING.  Over the same store without the second loan
`CheckPayments` returns nil and marks that row OVERDUE: the third loan is not
processed as if the failing credit were absent. -/
theorem CheckPayments_stops_at_failing_credit :
    Scheduler.CheckPayments sample.dbThree sample.notifyOk sample.now
      = (.error "failed to get account: dbcore error", sample.dbThreeAfter)
    ∧ sample.dbThree.store.credits = [sample.credit, sample.creditB, sample.creditC]
    ∧ sample.dbThreeAfter.store = sample.dbThree.store
    ∧ sample.dbThreeAfter.store.schedules = [sample.rowC]
    ∧ sample.rowC.Status = "PENDING"
    ∧ sample.dbTwo.store
        = { sample.dbThree.store with credits := [sample.credit, sample.creditC] }
    ∧ Scheduler.CheckPayments sample.dbTwo sample.notifyOk sample.now
        = (.ok (), sample.dbTwoAfter)
    ∧ sample.dbTwoAfter.store.schedules = [{ sample.rowC with Status := "OVERDUE" }] :=
  ⟨sample_sweep_three, rfl, rfl, rfl, rfl, rfl, sample_sweep_two, rfl⟩

/-! ## The helper `pow` -/

/-- C30: `pow` is a total function (its recursion is well founded on the
integer exponent, so every call returns), and for every base `x` and every
natural number `n` it returns `x ^ n` at the exponent `n`, in particular 1
at the exponent 0, and `1 / x ^ n` at the exponent `-n`. -/
theorem pow_spec (x : ℚ) (n : ℕ) :
    pow x (n : ℤ) = x ^ n ∧ pow x 0 = 1 ∧ pow x (-(n : ℤ)) = 1 / x ^ n := by
  refine ⟨pow_natCast n x, ?_, ?_⟩
  · rw [pow_eq_zpow, zpow_zero]
  · rw [pow_eq_zpow, zpow_neg, zpow_natCast, one_div]

/-! ## `MakePayment` from the two open states -/

/-- What `MakePayment` returns for an open credit and a positive amount. -/
theorem MakePayment_open (c : Credit) (now now2 : time.Time) (amount : ℚ)
    (hS : c.Status = CreditStatusActive ∨ c.Status = CreditStatusOverdue) (ha : 0 < amount) :
    c.MakePayment now now2 amount
      = (.ok (), ({ c with
          TotalPaid := c.TotalPaid + amount
          RemainingDebt := c.CalculateTotalAmount - (c.TotalPaid + amount)
          LastPayment := now
          NextPayment := ({ c with LastPayment := now }).CalculateNextPaymentDate }
            : Credit).UpdateStatus now2) := by
  have h1 : ¬ (c.Status ≠ CreditStatusActive ∧ c.Status ≠ CreditStatusOverdue) := by
    rcases hS with h | h <;> simp [h]
  unfold Credit.MakePayment
  rw [if_neg h1, if_neg (not_le.mpr ha)]
  rfl

/-- `UpdateStatus` closes an ACTIVE credit without debt whose payment date
has not passed. -/
theorem UpdateStatus_closes_active (c : Credit) (now : time.Time)
    (hS : c.Status = CreditStatusActive) (hnow : now.After c.NextPayment = false)
    (hdebt : c.RemainingDebt ≤ 0) :
    c.UpdateStatus now = { c with Status := CreditStatusPaid } := by
  unfold Credit.UpdateStatus Credit.IsOverdue
  rw [if_pos hS, hnow, Bool.and_false, if_neg (by simp), if_pos hdebt]

/-- `UpdateStatus` leaves an OVERDUE credit as it is. -/
theorem UpdateStatus_keeps_overdue (c : Credit) (now : time.Time)
    (hS : c.Status = CreditStatusOverdue) : c.UpdateStatus now = c := by
  have h2 : ¬ c.Status = CreditStatusActive := by rw [hS]; decide
  unfold Credit.UpdateStatus
  rw [if_neg h2]

/-- A payment on an ACTIVE credit that brings `RemainingDebt` to zero or below
closes it, the clock not having passed the new payment date. -/
theorem MakePayment_closes_active (c : Credit) (now now2 : time.Time) (amount : ℚ)
    (hS : c.Status = CreditStatusActive) (ha : 0 < amount)
    (hdebt : c.CalculateTotalAmount - (c.TotalPaid + amount) ≤ 0)
    (hnow : now2.After ({ c with LastPayment := now } : Credit).CalculateNextPaymentDate = false) :
    (c.MakePayment now now2 amount).1 = .ok ()
      ∧ (c.MakePayment now now2 amount).2.Status = CreditStatusPaid
      ∧ (c.MakePayment now now2 amount).2.RemainingDebt ≤ 0 := by
  have hm := MakePayment_open c now now2 amount (Or.inl hS) ha
  generalize hc4 : ({ c with
      TotalPaid := c.TotalPaid + amount
      RemainingDebt := c.CalculateTotalAmount - (c.TotalPaid + amount)
      LastPayment := now
      NextPayment := ({ c with LastPayment := now }).CalculateNextPaymentDate } : Credit) = c4
    at hm
  have hu := UpdateStatus_closes_active c4 now2 (by rw [← hc4]; exact hS)
    (by rw [← hc4]; exact hnow) (by rw [← hc4]; exact hdebt)
  rw [hm, hu]
  exact ⟨rfl, rfl, by rw [← hc4]; exact hdebt⟩

/-- A payment on an OVERDUE credit is accepted and leaves it OVERDUE, whatever
it leaves of the debt. -/
theorem MakePayment_keeps_overdue (c : Credit) (now now2 : time.Time) (amount : ℚ)
    (hS : c.Status = CreditStatusOverdue) (ha : 0 < amount) :
    (c.MakePayment now now2 amount).1 = .ok ()
      ∧ (c.MakePayment now now2 amount).2.Status = CreditStatusOverdue
      ∧ (c.MakePayment now now2 amount).2.RemainingDebt
          = c.CalculateTotalAmount - (c.TotalPaid + amount) := by
  have hm := MakePayment_open c now now2 amount (Or.inr hS) ha
  generalize hc4 : ({ c with
      TotalPaid := c.TotalPaid + amount
      RemainingDebt := c.CalculateTotalAmount - (c.TotalPaid + amount)
      LastPayment := now
      NextPayment := ({ c with LastPayment := now }).CalculateNextPaymentDate } : Credit) = c4
    at hm
  have hu := UpdateStatus_keeps_overdue c4 now2 (by rw [← hc4]; exact hS)
  rw [hm, hu]
  exact ⟨rfl, by rw [← hc4]; exact hS, by rw [← hc4]⟩

/-- The whole debt of the sample loan. -/
theorem sample_total : sample.credit.CalculateTotalAmount = 20402 / 201 := by
  have hT : sample.credit.Term = 2 := rfl
  rw [Credit.CalculateTotalAmount, sample_monthly, hT]
  norm_num

/-- C24: the sample loan in the state OVERDUE, nothing paid yet, owes
20402/201 in all.  `MakePayment(20402/201)` returns nil and brings
`RemainingDebt` to 0, and the resulting Status is OVERDUE, not PAID:
`UpdateStatus` only looks at credits that are ACTIVE. -/
theorem MakePayment_overdue_not_closed :
    sample.creditOverdue.Status = CreditStatusOverdue
      ∧ (sample.creditOverdue.MakePayment sample.now sample.now (20402 / 201)).1 = .ok ()
      ∧ (sample.creditOverdue.MakePayment sample.now sample.now (20402 / 201)).2.RemainingDebt = 0
      ∧ (sample.creditOverdue.MakePayment sample.now sample.now (20402 / 201)).2.Status
          = CreditStatusOverdue
      ∧ (sample.creditOverdue.MakePayment sample.now sample.now (20402 / 201)).2.Status
          ≠ CreditStatusPaid := by
  obtain ⟨h1, h2, h3⟩ := MakePayment_keeps_overdue sample.creditOverdue sample.now sample.now
    (20402 / 201) rfl (by norm_num)
  have hT : sample.creditOverdue.CalculateTotalAmount = 20402 / 201 := sample_total
  have hP : sample.creditOverdue.TotalPaid = 0 := rfl
  refine ⟨rfl, h1, ?_, h2, ?_⟩
  · rw [h3, hT, hP]; norm_num
  · rw [h2]; decide

/-! ## The scheduler and the notifier -/

/-- The pass of the loop of `CheckPayments` over a credit that is due, whose
first pending row the balance does not cover, when the notifier fails. -/
theorem CheckPayments_step_notify_fails (db db1 db2 db3 db4 : DB) (notify : Notifier)
    (now : time.Time) (credit : Credit) (account : Account) (user : User)
    (schedule : List PaymentSchedule) (nextPayment : PaymentSchedule) (e : String)
    (h1 : accountRepository.GetByID db credit.AccountID = (.ok account, db1))
    (h2 : userRepository.GetByID db1 account.UserID = (.ok user, db2))
    (hdue : now.After credit.NextPayment = true)
    (h3 : creditRepository.GetPaymentSchedule db2 credit.ID = (.ok schedule, db3))
    (h4 : schedule.find? (fun p => p.Status = "PENDING") = some nextPayment)
    (hbal : account.Balance < nextPayment.Amount)
    (h5 : creditRepository.UpdatePaymentSchedule db3 { nextPayment with Status := "OVERDUE" }
      = (.ok (), db4))
    (h6 : notify user.Email "Просрочка платежа по кредиту" nextPayment.Amount = .error e) :
    Scheduler.CheckPayments.step db notify now credit
      = (some ("failed to send notification: " ++ e), db4) := by
  unfold Scheduler.CheckPayments.step
  simp only [h1, h2, hdue, if_true, h3, h4, ge_iff_le, if_neg (not_le.mpr hbal), h5, h6]

/-- The sweep over the two due loans, the notifier delivering. -/
theorem sample_sweep_due_delivered :
    Scheduler.CheckPayments sample.dbDue sample.notifyOk sample.now
      = (.ok (), sample.dbDueSwept) := by
  have hA : creditRepository.GetActiveCredits sample.dbDue
      = (.ok [sample.creditC, sample.creditD], sample.dbDue) := by rfl
  have h1 : Scheduler.CheckPayments.step sample.dbDue sample.notifyOk sample.now sample.creditC
      = (none, { store := { sample.dbDue.store with
          schedules := [{ sample.rowC with Status := "OVERDUE" }, sample.rowD] } }) :=
    CheckPayments_step_overdue sample.dbDue sample.dbDue sample.dbDue sample.dbDue _
      sample.notifyOk sample.now sample.creditC sample.accountC sample.user _ sample.rowC
      rfl rfl rfl rfl rfl (by norm_num [sample.accountC, sample.rowC]) rfl rfl
  have h2 : Scheduler.CheckPayments.step
      { store := { sample.dbDue.store with
          schedules := [{ sample.rowC with Status := "OVERDUE" }, sample.rowD] } }
      sample.notifyOk sample.now sample.creditD = (none, sample.dbDueSwept) :=
    CheckPayments_step_overdue _ _ _ _ _
      sample.notifyOk sample.now sample.creditD sample.accountC sample.user _ sample.rowD
      rfl rfl rfl rfl rfl (by norm_num [sample.accountC, sample.rowD]) rfl rfl
  unfold Scheduler.CheckPayments
  simp only [hA, Scheduler.CheckPayments.loop, h1, h2]

/-- The sweep over the two due loans, the notifier failing. -/
theorem sample_sweep_due_undelivered :
    Scheduler.CheckPayments sample.dbDue sample.notifyFail sample.now
      = (.error "failed to send notification: smtp: connection refused",
          sample.dbDueStopped) := by
  have hA : creditRepository.GetActiveCredits sample.dbDue
      = (.ok [sample.creditC, sample.creditD], sample.dbDue) := by rfl
  have h1 : Scheduler.CheckPayments.step sample.dbDue sample.notifyFail sample.now sample.creditC
      = (some ("failed to send notification: " ++ "smtp: connection refused"),
          sample.dbDueStopped) :=
    CheckPayments_step_notify_fails sample.dbDue sample.dbDue sample.dbDue sample.dbDue _
      sample.notifyFail sample.now sample.creditC sample.accountC sample.user _ sample.rowC _
      rfl rfl rfl rfl rfl (by norm_num [sample.accountC, sample.rowC]) rfl rfl
  unfold Scheduler.CheckPayments
  simp only [hA, Scheduler.CheckPayments.loop, h1]
  rfl

/-- The notifier has no part in what `Scheduler.ProcessPayment` returns: the
call stops at the transaction append, before the notification. -/
theorem Scheduler_ProcessPayment_notifier_free (db : DB) (notify1 notify2 : Notifier)
    (creditID : ℕ) (n : ℤ) :
    Scheduler.ProcessPayment db notify1 creditID n
      = Scheduler.ProcessPayment db notify2 creditID n := by
  unfold Scheduler.ProcessPayment
  rcases h1 : creditRepository.GetByID db creditID with ⟨r1, d1⟩
  cases r1 with
  | error e => rfl
  | ok credit =>
  dsimp only
  rcases h2 : accountRepository.GetByID d1 credit.AccountID with ⟨r2, d2⟩
  cases r2 with
  | error e => rfl
  | ok account =>
  dsimp only
  rcases h3 : creditRepository.GetPaymentSchedule d2 creditID with ⟨r3, d3⟩
  cases r3 with
  | error e => rfl
  | ok schedule =>
  dsimp only
  split
  · rfl
  rename_i payment h4
  by_cases hbal : account.Balance < payment.Amount
  · rw [if_pos hbal, if_pos hbal]
  rw [if_neg hbal, if_neg hbal]
  rcases h5 : accountRepository.Update d3
    { account with Balance := account.Balance - payment.Amount } with ⟨r5, d5⟩
  cases r5 with
  | error e => rfl
  | ok u5 =>
  dsimp only
  rcases h6 : creditRepository.UpdatePaymentSchedule d5
    { payment with Status := "COMPLETED" } with ⟨r6, d6⟩
  cases r6 with
  | error e => rfl
  | ok u6 =>
  dsimp only
  rcases h7 : transactionRepository.Create d6
    (Scheduler.ProcessPayment.transaction credit { payment with Status := "COMPLETED" })
    with ⟨r7, d7⟩
  have := transactionRepository_Create_invalid _ _ _ _ _ (Scheduler_transaction_invalid _ _) h7
  rcases this.1 with rfl | rfl <;> rfl

/-- C21: two ACTIVE loans are due on an account without funds.  With a
notifier that delivers, `CheckPayments` returns nil and marks the pending row
of either loan OVERDUE.  With a notifier that fails, `CheckPayments` returns
"failed to send notification: ..." after the first loan: the error of the
notifier is the result of the operation, and the row of the second loan is
left PENDING. -/
theorem CheckPayments_surfaces_notifier_error :
    Scheduler.CheckPayments sample.dbDue sample.notifyOk sample.now
      = (.ok (), sample.dbDueSwept)
    ∧ Scheduler.CheckPayments sample.dbDue sample.notifyFail sample.now
      = (.error "failed to send notification: smtp: connection refused", sample.dbDueStopped)
    ∧ sample.dbDueSwept.store.schedules
      = [{ sample.rowC with Status := "OVERDUE" }, { sample.rowD with Status := "OVERDUE" }]
    ∧ sample.dbDueStopped.store.schedules = [{ sample.rowC with Status := "OVERDUE" }, sample.rowD]
    ∧ sample.rowD.Status = "PENDING"
    ∧ sample.dbDueStopped.store.schedules ≠ sample.dbDueSwept.store.schedules :=
  ⟨sample_sweep_due_delivered, sample_sweep_due_undelivered, rfl, rfl, rfl, by decide⟩

/-! ## The pending installment of the manual sweep -/

/-- Every entry of the computed schedule has the status constant of the
domain, which is not the string `CheckPayments` compares with. -/
theorem loop_status (c : Credit) (r : ℚ) (k : ℕ) :
    ∀ (i : ℤ) (rem : ℚ), ∀ e ∈ GetPaymentSchedule.loop c r k i rem,
      e.Status = PaymentStatusPending ∧ e.Status ≠ "PENDING" := by
  have hne : ¬ PaymentStatusPending = "PENDING" := by decide
  induction k with
  | zero => intro i rem e he; simp [GetPaymentSchedule.loop] at he
  | succ k ih =>
    intro i rem e he
    simp only [GetPaymentSchedule.loop, List.mem_cons] at he
    rcases he with rfl | he
    · exact ⟨rfl, hne⟩
    · exact ih _ _ e he

/-- C23: the third sample loan is ACTIVE and past its payment date, its
account holds 0, and its stored schedule row, installment 1 of 5, has the
Status `PaymentStatusPending` of the domain.  `CheckPayments` does not
recognise the row as pending: it returns nil and leaves the store as it was,
the row neither applied nor marked overdue.  With the Status "PENDING" the
same row is marked OVERDUE.  The entries of the computed schedule all carry
`PaymentStatusPending`. -/
theorem CheckPayments_misses_pending_constant :
    sample.creditC.Status = CreditStatusActive
    ∧ sample.now.After sample.creditC.NextPayment = true
    ∧ sample.rowLower.Status = PaymentStatusPending
    ∧ sample.dbLower.store.schedules = [sample.rowLower]
    ∧ Scheduler.CheckPayments sample.dbLower sample.notifyOk sample.now
        = (.ok (), sample.dbLower)
    ∧ Scheduler.CheckPayments sample.dbTwo sample.notifyOk sample.now
        = (.ok (), sample.dbTwoAfter)
    ∧ sample.dbTwo.store.schedules = [{ sample.rowLower with Status := "PENDING" }]
    ∧ sample.dbTwoAfter.store.schedules = [{ sample.rowLower with Status := "OVERDUE" }]
    ∧ (∀ (r : ℚ) (k : ℕ) (i : ℤ) (rem : ℚ),
        (GetPaymentSchedule.loop sample.creditC r k i rem).find? (fun p => p.Status = "PENDING")
          = none) := by
  refine ⟨rfl, rfl, rfl, rfl, rfl, sample_sweep_two, rfl, rfl, ?_⟩
  intro r k i rem
  rw [List.find?_eq_none]
  intro e he
  simpa using (loop_status sample.creditC r k i rem e he).2

/-! ## The periodic sweep -/

/-- The pass of the loop of `processCreditPayment` in which the element is due
and the balance of the account of `credit` covers its monthly payment. -/
theorem processCreditPayment_step_paid (db db1 db2 db3 db4 : DB) (notify : Notifier)
    (now : time.Time) (credit payment : Credit) (account : Account) (user : User)
    (hdue : payment.NextPayment.Before now = true)
    (hS : payment.Status = CreditStatusActive)
    (h1 : accountRepository.GetByID db credit.AccountID = (.ok account, db1))
    (hbal : payment.CalculateMonthlyPayment ≤ account.Balance)
    (h2 : accountRepository.Update db1
      { account with Balance := account.Balance - payment.CalculateMonthlyPayment }
      = (.ok (), db2))
    (h3 : transactionRepository.Create db2
      (Scheduler.processCreditPayment.transaction credit payment.CalculateMonthlyPayment)
      = (.ok (), db3))
    (h4 : userRepository.GetByID db3 account.UserID = (.ok user, db4)) :
    Scheduler.processCreditPayment.step db notify now credit payment = db4 := by
  unfold Scheduler.processCreditPayment.step
  simp only [hdue, hS, and_self, if_true, h1, ge_iff_le, if_pos hbal, h2, h3, h4]
  cases notify user.Email "Платеж по кредиту" payment.CalculateMonthlyPayment <;> rfl

theorem sampleFirst_monthly : sample.creditFirst.CalculateMonthlyPayment = 10201 / 201 :=
  sample_monthly

theorem sampleOther_monthly : sample.creditOther.CalculateMonthlyPayment = 10201 / 2010 :=
  (CalculateMonthlyPayment_congr sample.creditB sample.creditOther rfl rfl rfl).trans
    sampleB_monthly

/-- The list that `processCreditPayment(creditFirst)` walks through holds
both loans of the store. -/
theorem sample_sweep_list :
    creditRepository.GetCreditsByDateRange sample.dbSweep sample.creditFirst.StartDate
        sample.creditFirst.EndDate
      = (.ok [sample.creditFirst, sample.creditOther], sample.dbSweep) := by
  rfl

/-- The periodic sweep for the sample loan. -/
theorem sample_periodic_sweep :
    Scheduler.processCreditPayment sample.dbSweep sample.notifyOk sample.nowLate
      sample.creditFirst = sample.dbSweepAfter := by
  have h1 : Scheduler.processCreditPayment.step sample.dbSweep sample.notifyOk sample.nowLate
      sample.creditFirst sample.creditFirst
      = { store :=
          { credits := [sample.creditFirst, sample.creditOther]
            accounts :=
              [{ sample.account with
                  Balance := sample.account.Balance - sample.creditFirst.CalculateMonthlyPayment },
                sample.accountOther]
            transactions :=
              [{ Scheduler.processCreditPayment.transaction sample.creditFirst
                  sample.creditFirst.CalculateMonthlyPayment with ID := 1 }]
            users := [sample.user] } } := by
    refine processCreditPayment_step_paid sample.dbSweep sample.dbSweep _ _ _ sample.notifyOk
      sample.nowLate sample.creditFirst sample.creditFirst sample.account sample.user
      rfl rfl rfl ?_ (accountRepository_Update_nil _ _ rfl ?_)
      (transactionRepository_Create_nil _ _ rfl rfl rfl ?_) rfl
    · rw [sampleFirst_monthly]; norm_num [sample.account]
    · show 0 ≤ sample.account.Balance - sample.creditFirst.CalculateMonthlyPayment
      rw [sampleFirst_monthly]; norm_num [sample.account]
    · show 0 < sample.creditFirst.CalculateMonthlyPayment
      rw [sampleFirst_monthly]; norm_num
  have h2 : Scheduler.processCreditPayment.step
      { store :=
          { credits := [sample.creditFirst, sample.creditOther]
            accounts :=
              [{ sample.account with
                  Balance := sample.account.Balance - sample.creditFirst.CalculateMonthlyPayment },
                sample.accountOther]
            transactions :=
              [{ Scheduler.processCreditPayment.transaction sample.creditFirst
                  sample.creditFirst.CalculateMonthlyPayment with ID := 1 }]
            users := [sample.user] } }
      sample.notifyOk sample.nowLate sample.creditFirst sample.creditOther
      = sample.dbSweepAfter := by
    refine processCreditPayment_step_paid _ _ _ _ _ sample.notifyOk
      sample.nowLate sample.creditFirst sample.creditOther
      { sample.account with
        Balance := sample.account.Balance - sample.creditFirst.CalculateMonthlyPayment }
      sample.user
      rfl rfl rfl ?_ (accountRepository_Update_nil _ _ rfl ?_)
      (transactionRepository_Create_nil _ _ rfl rfl rfl ?_) rfl
    · show sample.creditOther.CalculateMonthlyPayment
        ≤ sample.account.Balance - sample.creditFirst.CalculateMonthlyPayment
      rw [sampleFirst_monthly, sampleOther_monthly]; norm_num [sample.account]
    · show 0 ≤ sample.account.Balance - sample.creditFirst.CalculateMonthlyPayment
        - sample.creditOther.CalculateMonthlyPayment
      rw [sampleFirst_monthly, sampleOther_monthly]; norm_num [sample.account]
    · show 0 < sample.creditOther.CalculateMonthlyPayment
      rw [sampleOther_monthly]; norm_num
  unfold Scheduler.processCreditPayment
  simp only [sample_sweep_list, List.foldl_cons, List.foldl_nil, h1, h2]

/-- C27: the store holds the sample loan, on account 10 with 500, and a loan
of another user on account 20, created while the sample loan runs; both are
ACTIVE and past their payment date.  `processCreditPayment` for the sample
loan walks through both loans and debits account 10 twice: by 10201/201, the
monthly payment of the sample loan, and by 10201/2010, the monthly payment of
the other loan; both payments are recorded under the number of the sample
loan, and account 20 is not touched. -/
theorem processCreditPayment_charges_other_credit :
    Scheduler.processCreditPayment sample.dbSweep sample.notifyOk sample.nowLate
        sample.creditFirst = sample.dbSweepAfter
    ∧ sample.creditFirst.AccountID = 10 ∧ sample.creditOther.AccountID = 20
    ∧ sample.creditFirst.CalculateMonthlyPayment = 10201 / 201
    ∧ sample.creditOther.CalculateMonthlyPayment = 10201 / 2010
    ∧ sample.dbSweep.store.accounts.map (fun a => (a.ID, a.Balance)) = [(10, 500), (20, 300)]
    ∧ sample.dbSweepAfter.store.accounts.map (fun a => (a.ID, a.Balance))
        = [(10, 500 - 10201 / 201 - 10201 / 2010), (20, 300)]
    ∧ sample.dbSweepAfter.store.transactions.map
          (fun t => (t.FromAccountID, t.Amount, t.Description))
        = [(10, 10201 / 201, "Платеж по кредиту #1"), (10, 10201 / 2010, "Платеж по кредиту #1")]
    := by
  refine ⟨sample_periodic_sweep, rfl, rfl, sampleFirst_monthly, sampleOther_monthly, rfl, ?_, ?_⟩
  · show [((10 : ℕ), sample.account.Balance - sample.creditFirst.CalculateMonthlyPayment
        - sample.creditOther.CalculateMonthlyPayment), ((20 : ℕ), (300 : ℚ))] = _
    rw [sampleFirst_monthly, sampleOther_monthly]
    rfl
  · show [((10 : ℕ), sample.creditFirst.CalculateMonthlyPayment,
        "Платеж по кредиту #" ++ fmt.formatUint 1),
      ((10 : ℕ), sample.creditOther.CalculateMonthlyPayment,
        "Платеж по кредиту #" ++ fmt.formatUint 1)] = _
    have hd : "Платеж по кредиту #" ++ fmt.formatUint 1 = "Платеж по кредиту #1" := by decide
    rw [sampleFirst_monthly, sampleOther_monthly, hd]

/-! ## The sweep over overdue credits -/

/-- The pass of the loop of `ProcessOverduePayments` in which the attempted
payment fails and the credit is stored as OVERDUE. -/
theorem ProcessOverduePayments_step_failed (db db1 db2 db3 : DB) (now : time.Time)
    (credit : Credit) (schedule : List PaymentSchedule) (payment : PaymentSchedule)
    (e : String)
    (h1 : GetPaymentSchedule db credit.ID = (.ok schedule, db1))
    (h2 : schedule.find? (fun p => p.Status = PaymentStatusPending && p.DueDate.Before now)
      = some payment)
    (h3 : ProcessPayment db1 now credit.ID payment.PaymentNumber = (.error e, db2))
    (h4 : creditRepository.Update db2 { credit with Status := CreditStatusOverdue }
      = (.ok (), db3)) :
    ProcessOverduePayments.step db now credit = (none, db3) := by
  unfold ProcessOverduePayments.step
  simp only [h1, h2, h3, h4]

/-- The first installment of the sample loan, offered again after it was
paid. -/
theorem sample_second_attempt :
    ProcessPayment sample.dbPaid sample.nowLate 1 1
      = (.error ("payment #" ++ fmt.formatInt 1 ++ " already processed"), sample.dbPaid) :=
  ProcessPayment_run_processed sample.dbPaid sample.dbPaid sample.dbPaid sample.nowLate 1 1
    (sample.creditAfter sample.credit sample.credit.CalculateMonthlyPayment CreditStatusActive)
    _ rfl rfl (by decide)

/-- The sweep over the overdue credits of the store in which the first
installment of the sample loan is paid. -/
theorem sample_overdue_sweep :
    ProcessOverduePayments sample.dbPaid sample.nowLate = (.ok (), sample.dbPaidOverdue) := by
  have hA : creditRepository.GetOverdueCredits sample.dbPaid sample.nowLate
      = (.ok [sample.creditAfter sample.credit sample.credit.CalculateMonthlyPayment
          CreditStatusActive], sample.dbPaid) := by rfl
  have h1 : ProcessOverduePayments.step sample.dbPaid sample.nowLate
      (sample.creditAfter sample.credit sample.credit.CalculateMonthlyPayment CreditStatusActive)
      = (none, sample.dbPaidOverdue) :=
    ProcessOverduePayments_step_failed sample.dbPaid sample.dbPaid sample.dbPaid _ sample.nowLate
      _ _ _ _ rfl rfl sample_second_attempt
      (creditRepository_Update_nil _ _ rfl (sample_credit_valid _ (Or.inr (Or.inl rfl)) _ _ _ _))
  unfold ProcessOverduePayments
  simp only [hA, ProcessOverduePayments.loop, h1]

/-- C28: in the sample store the first installment of the sample loan is paid
and recorded, the second is not; at `nowLate` both due dates have passed and
the account covers the second installment.  `ProcessOverduePayments` takes
the first entry of the freshly computed schedule, installment 1, whose Status
is always pending, calls `ProcessPayment(1, 1)`, which answers "payment #1
already processed", and stores the credit as OVERDUE; installment 2 is not
attempted: the account and the log are as before. -/
theorem ProcessOverduePayments_retries_paid_installment :
    ProcessOverduePayments sample.dbPaid sample.nowLate = (.ok (), sample.dbPaidOverdue)
    ∧ sample.dbPaid.store.transactions.map (fun t => t.Description)
        = ["Платеж по кредиту #1, платеж #1"]
    ∧ (∃ (schedule : List PaymentSchedule) (payment : PaymentSchedule),
        GetPaymentSchedule sample.dbPaid 1 = (.ok schedule, sample.dbPaid)
        ∧ schedule.map (fun p => (p.PaymentNumber, p.DueDate.Before sample.nowLate))
            = [(1, true), (2, true)]
        ∧ schedule.find?
            (fun p => p.Status = PaymentStatusPending && p.DueDate.Before sample.nowLate)
            = some payment
        ∧ payment.PaymentNumber = 1)
    ∧ ProcessPayment sample.dbPaid sample.nowLate 1 1
        = (.error "payment #1 already processed", sample.dbPaid)
    ∧ sample.dbPaid.store.credits.map (fun c => c.Status) = [CreditStatusActive]
    ∧ sample.dbPaidOverdue.store.credits.map (fun c => c.Status) = [CreditStatusOverdue]
    ∧ sample.dbPaidOverdue.store.accounts = sample.dbPaid.store.accounts
    ∧ sample.dbPaidOverdue.store.transactions = sample.dbPaid.store.transactions := by
  have hd : "payment #" ++ fmt.formatInt 1 ++ " already processed"
      = "payment #1 already processed" := by decide
  refine ⟨sample_overdue_sweep, by decide, ⟨_, _, rfl, rfl, rfl, rfl⟩, ?_, rfl, rfl, rfl, rfl⟩
  rw [← hd]
  exact sample_second_attempt

/-! ## Interest and principal along the schedule -/

/-- The entries of the loop, from a running remaining amount whose interest
the payment exceeds and which the `k` principals to come do not exhaust:
interest and principal are positive in every entry, and from one entry to the
next the number rises by one, the principal is multiplied by `1 + r` and
rises, and the interest falls. -/
theorem loop_progression (c : Credit) (r : ℚ) (hr : 0 < r) (k : ℕ) :
    ∀ (i : ℤ) (rem : ℚ), 0 < c.CalculateMonthlyPayment - rem * r →
      0 ≤ rem - (c.CalculateMonthlyPayment - rem * r) * ((1 + r) ^ k - 1) / r →
      (∀ e ∈ GetPaymentSchedule.loop c r k i rem, 0 < e.Interest ∧ 0 < e.Principal)
      ∧ (∀ e ∈ (GetPaymentSchedule.loop c r k i rem).head?,
          e.PaymentNumber = i ∧ e.Principal = c.CalculateMonthlyPayment - rem * r
            ∧ e.Interest = rem * r)
      ∧ List.Chain' (fun a b : PaymentSchedule => b.PaymentNumber = a.PaymentNumber + 1
          ∧ b.Principal = a.Principal * (1 + r) ∧ a.Principal < b.Principal
          ∧ b.Interest < a.Interest) (GetPaymentSchedule.loop c r k i rem) := by
  induction k with
  | zero => intro i rem _ _; simp [GetPaymentSchedule.loop]
  | succ k ih =>
    intro i rem hp hfin
    have hq : 1 ≤ (1 + r) ^ k := one_le_pow₀ (by linarith)
    have hq1 : (1 + r) ^ (k + 1) - 1 = ((1 + r) ^ k - 1) * (1 + r) + r := by ring
    have hrem : 0 < rem := by
      have h1 : 0 < (c.CalculateMonthlyPayment - rem * r) * ((1 + r) ^ (k + 1) - 1) / r := by
        apply div_pos _ hr
        apply mul_pos hp
        rw [hq1]
        have : 0 ≤ ((1 + r) ^ k - 1) * (1 + r) := mul_nonneg (by linarith) (by linarith)
        linarith
      linarith
    have hp1 : c.CalculateMonthlyPayment
        - (rem - (c.CalculateMonthlyPayment - rem * r)) * r
        = (c.CalculateMonthlyPayment - rem * r) * (1 + r) := by ring
    have hpos1 : 0 < c.CalculateMonthlyPayment
        - (rem - (c.CalculateMonthlyPayment - rem * r)) * r := by
      rw [hp1]; exact mul_pos hp (by linarith)
    have hfin1 : 0 ≤ (rem - (c.CalculateMonthlyPayment - rem * r))
        - (c.CalculateMonthlyPayment - (rem - (c.CalculateMonthlyPayment - rem * r)) * r)
          * ((1 + r) ^ k - 1) / r := by
      have : (rem - (c.CalculateMonthlyPayment - rem * r))
          - (c.CalculateMonthlyPayment - (rem - (c.CalculateMonthlyPayment - rem * r)) * r)
            * ((1 + r) ^ k - 1) / r
          = rem - (c.CalculateMonthlyPayment - rem * r) * ((1 + r) ^ (k + 1) - 1) / r := by
        field_simp
        ring
      rw [this]; exact hfin
    obtain ⟨ih1, ih2, ih3⟩ := ih (i + 1) (rem - (c.CalculateMonthlyPayment - rem * r)) hpos1 hfin1
    simp only [GetPaymentSchedule.loop]
    refine ⟨?_, ?_, ?_⟩
    · intro e he
      rcases List.mem_cons.mp he with rfl | he
      · exact ⟨mul_pos hrem hr, hp⟩
      · exact ih1 e he
    · intro e he
      simp only [List.head?_cons, Option.mem_def, Option.some.injEq] at he
      subst he
      exact ⟨rfl, rfl, rfl⟩
    · rw [List.chain'_cons']
      refine ⟨?_, ih3⟩
      intro b hb
      obtain ⟨hb1, hb2, hb3⟩ := ih2 b hb
      refine ⟨hb1, ?_, ?_, ?_⟩
      · rw [hb2]; exact hp1
      · rw [hb2, hp1]
        show c.CalculateMonthlyPayment - rem * r < (c.CalculateMonthlyPayment - rem * r) * (1 + r)
        nlinarith [mul_pos hp hr]
      · rw [hb3]
        show (rem - (c.CalculateMonthlyPayment - rem * r)) * r < rem * r
        nlinarith [mul_pos hp hr]

/-- For a valid credit the first principal is positive and the `Term`
principals add up to the amount. -/
theorem schedule_start (c : Credit) (hA : 0 < c.Amount) (hR : 0 < c.InterestRate) (k : ℕ)
    (hk : c.Term = (k : ℤ)) (hk1 : 1 ≤ k) :
    0 < c.CalculateMonthlyPayment - c.Amount * (c.InterestRate / 12 / 100)
      ∧ c.Amount - (c.CalculateMonthlyPayment - c.Amount * (c.InterestRate / 12 / 100))
          * ((1 + c.InterestRate / 12 / 100) ^ k - 1) / (c.InterestRate / 12 / 100) = 0 := by
  have hr : 0 < c.InterestRate / 12 / 100 := by positivity
  have hq : 1 < (1 + c.InterestRate / 12 / 100) ^ k := one_lt_pow₀ (by linarith) (by omega)
  have hm := monthly_closed c hR k hk hk1
  generalize c.InterestRate / 12 / 100 = r at hr hq hm ⊢
  generalize (1 + r) ^ k = Q at hq hm ⊢
  generalize c.CalculateMonthlyPayment = M at hm ⊢
  have hm2 : M * (Q - 1) = c.Amount * Q * r := by
    field_simp at hm
    linarith
  constructor
  · have h1 : (M - c.Amount * r) * (Q - 1) = c.Amount * r := by
      have : (M - c.Amount * r) * (Q - 1) = M * (Q - 1) - c.Amount * r * (Q - 1) := by ring
      rw [this, hm2]; ring
    have h2 : 0 < (M - c.Amount * r) * (Q - 1) := by rw [h1]; positivity
    exact (pos_iff_pos_of_mul_pos h2).mpr (by linarith)
  · field_simp
    have : (M - c.Amount * r) * (Q - 1) = M * (Q - 1) - c.Amount * r * (Q - 1) := by ring
    rw [this, hm2]; ring

/-- C25, amended: in exact arithmetic (the amounts read as rationals), for
every stored credit with `Amount > 0`, `InterestRate > 0` and `Term ≥ 1` (so
for every valid credit) `GetPaymentSchedule` returns `Term` entries, numbered from 1, each with `Interest > 0` and `Principal > 0`; from
each entry to the next the number rises by one, the Principal is the
previous one times `1 + monthlyRate` and so strictly larger, and the Interest
is strictly smaller; hence between any earlier and any later entry the
Principal strictly increases and the Interest strictly decreases. -/
theorem schedule_interest_principal (db db1 : DB) (creditID : Nat) (c : Credit)
    (hget : creditRepository.GetByID db creditID = (.ok c, db1))
    (hA : 0 < c.Amount) (hR : 0 < c.InterestRate) (hT : 1 ≤ c.Term) :
    ∃ schedule, GetPaymentSchedule db creditID = (.ok schedule, db1)
      ∧ (schedule.length : ℤ) = c.Term
      ∧ (∀ e ∈ schedule.head?, e.PaymentNumber = 1)
      ∧ (∀ e ∈ schedule, 0 < e.Interest ∧ 0 < e.Principal)
      ∧ List.Chain' (fun a b : PaymentSchedule => b.PaymentNumber = a.PaymentNumber + 1
          ∧ b.Principal = a.Principal * (1 + c.InterestRate / 12 / 100)
          ∧ a.Principal < b.Principal ∧ b.Interest < a.Interest) schedule
      ∧ List.Pairwise (fun a b : PaymentSchedule => a.PaymentNumber < b.PaymentNumber
          ∧ a.Principal < b.Principal ∧ b.Interest < a.Interest) schedule := by
  obtain ⟨d, hdA, hdT, hdR, hs⟩ := GetPaymentSchedule_of_get db db1 creditID c hget
  obtain ⟨k, hk⟩ := Int.eq_ofNat_of_zero_le (show 0 ≤ c.Term by omega)
  have hk1 : 1 ≤ k := by omega
  have hr : 0 < c.InterestRate / 12 / 100 := by positivity
  obtain ⟨hp, hfin⟩ := schedule_start c hA hR k hk hk1
  have hM := CalculateMonthlyPayment_congr c d hdA hdT hdR
  obtain ⟨h1, h2, h3⟩ := loop_progression d (c.InterestRate / 12 / 100) hr k 1 c.Amount
    (by rw [hM]; exact hp) (by rw [hM, hfin])
  have hkk : c.Term.toNat = k := by rw [hk]; simp
  rw [hkk] at hs
  refine ⟨_, hs, by rw [loop_length, hk], fun e he => (h2 e he).1, h1, h3, ?_⟩
  haveI : IsTrans PaymentSchedule (fun a b : PaymentSchedule =>
      a.PaymentNumber < b.PaymentNumber ∧ a.Principal < b.Principal ∧ b.Interest < a.Interest) :=
    ⟨fun a b e hab hbe => ⟨lt_trans hab.1 hbe.1, lt_trans hab.2.1 hbe.2.1,
      lt_trans hbe.2.2 hab.2.2⟩⟩
  rw [← List.chain'_iff_pairwise]
  exact h3.imp (fun a b hab => ⟨by rw [hab.1]; omega, hab.2.2.1, hab.2.2.2⟩)

/-- The amended statement of C25 on the sample loan. -/
theorem schedule_interest_principal_witness :
    ∃ schedule, GetPaymentSchedule sample.db 1 = (.ok schedule, sample.db)
      ∧ (schedule.length : ℤ) = sample.credit.Term
      ∧ (∀ e ∈ schedule.head?, e.PaymentNumber = 1)
      ∧ (∀ e ∈ schedule, 0 < e.Interest ∧ 0 < e.Principal)
      ∧ List.Chain' (fun a b : PaymentSchedule => b.PaymentNumber = a.PaymentNumber + 1
          ∧ b.Principal = a.Principal * (1 + sample.credit.InterestRate / 12 / 100)
          ∧ a.Principal < b.Principal ∧ b.Interest < a.Interest) schedule
      ∧ List.Pairwise (fun a b : PaymentSchedule => a.PaymentNumber < b.PaymentNumber
          ∧ a.Principal < b.Principal ∧ b.Interest < a.Interest) schedule :=
  schedule_interest_principal sample.db sample.db 1 sample.credit rfl
    (by norm_num [sample.credit]) (by norm_num [sample.credit]) (by norm_num [sample.credit])

/-! ## Card numbers and the Luhn check digit -/

open security

/-- The decimal text of a digit is the one byte of that digit. -/
theorem Itoa_digit (d : ℤ) (h0 : 0 ≤ d) (h9 : d ≤ 9) : Itoa d = [48 + d.toNat] := by
  interval_cases d <;> decide

theorem isDigitByte_digit (d : ℕ) (h9 : d ≤ 9) : isDigitByte (48 + d) = true := by
  simp [isDigitByte]; omega

theorem atoiByte_digit (b : ℕ) (h : isDigitByte b = true) :
    atoiByte b = some ((b - 48 : ℕ) : ℤ) := by
  simp [atoiByte, h]

theorem luhnDigit_nonneg (alternate : Bool) (d : ℤ) (h0 : 0 ≤ d) :
    0 ≤ luhnDigit alternate d := by
  unfold luhnDigit
  cases alternate <;> simp only [if_true, Bool.false_eq_true, if_false]
  · exact h0
  · split_ifs <;> omega

/-- The accumulator of the check-digit loop is an offset. -/
theorem calculateLuhnCheckDigit_loop_add (l : List ℕ) :
    ∀ (a sum : ℤ) (alternate : Bool),
      calculateLuhnCheckDigit.loop l (a + sum) alternate
        = a + calculateLuhnCheckDigit.loop l sum alternate := by
  induction l with
  | nil => intro a sum alternate; rfl
  | cons b rest ih =>
    intro a sum alternate
    simp only [calculateLuhnCheckDigit.loop]
    rw [add_assoc, ih]

/-- On digits the loop of `IsValidCardNumber` computes the sum of the
check-digit loop. -/
theorem IsValidCardNumber_loop_digits (l : List ℕ) (hl : ∀ b ∈ l, isDigitByte b = true) :
    ∀ (sum : ℤ) (alternate : Bool),
      IsValidCardNumber.loop l sum alternate
        = some (calculateLuhnCheckDigit.loop l sum alternate) := by
  induction l with
  | nil => intro sum alternate; rfl
  | cons b rest ih =>
    intro sum alternate
    have hb := atoiByte_digit b (hl b (List.mem_cons_self _ _))
    simp only [IsValidCardNumber.loop, calculateLuhnCheckDigit.loop, hb, Option.getD_some]
    exact ih (fun x hx => hl x (List.mem_cons_of_mem _ hx)) _ _

/-- On digits the Luhn loop of `Card.ValidateNumber` computes the same
sum. -/
theorem ValidateNumber_loop_digits (l : List ℕ) (hl : ∀ b ∈ l, isDigitByte b = true) :
    ∀ (sum : ℤ) (alternate : Bool),
      Card.ValidateNumber.loop l sum alternate
        = calculateLuhnCheckDigit.loop l sum alternate := by
  induction l with
  | nil => intro sum alternate; rfl
  | cons b rest ih =>
    intro sum alternate
    have hb := atoiByte_digit b (hl b (List.mem_cons_self _ _))
    have hd : isDigitByte b = true := hl b (List.mem_cons_self _ _)
    have hb2 : (b + 256 - 48) % 256 = b - 48 := by
      simp [isDigitByte] at hd
      omega
    simp only [Card.ValidateNumber.loop, calculateLuhnCheckDigit.loop, hb, Option.getD_some, hb2,
      luhnDigit]
    exact ih (fun x hx => hl x (List.mem_cons_of_mem _ hx)) _ _

/-- The check digit is a digit. -/
theorem calculateLuhnCheckDigit_range (s : Bytes) :
    0 ≤ calculateLuhnCheckDigit s ∧ calculateLuhnCheckDigit s ≤ 9 := by
  unfold calculateLuhnCheckDigit
  dsimp only
  omega

/-- The Luhn sum of a digit string followed by its check digit is a multiple
of ten. -/
theorem luhn_sum_with_check (s : Bytes) :
    calculateLuhnCheckDigit.loop (s ++ Itoa (calculateLuhnCheckDigit s)).reverse 0 false % 10
      = 0 := by
  obtain ⟨h0, h9⟩ := calculateLuhnCheckDigit_range s
  have hd := isDigitByte_digit (calculateLuhnCheckDigit s).toNat (by omega)
  rw [Itoa_digit _ h0 h9, List.reverse_append, List.reverse_singleton, List.singleton_append]
  simp only [calculateLuhnCheckDigit.loop, atoiByte_digit _ hd, Option.getD_some, luhnDigit,
    Bool.false_eq_true, if_false, Bool.not_false, zero_add]
  have h1 : ((48 + (calculateLuhnCheckDigit s).toNat - 48 : ℕ) : ℤ) = calculateLuhnCheckDigit s := by
    rw [Nat.add_sub_cancel_left]; omega
  rw [h1]
  have h2 := calculateLuhnCheckDigit_loop_add s.reverse (calculateLuhnCheckDigit s) 0 true
  rw [add_zero] at h2
  rw [h2]
  unfold calculateLuhnCheckDigit
  dsimp only
  omega

theorem digits_with_check (s : Bytes) (hs : ∀ b ∈ s, isDigitByte b = true) :
    ∀ b ∈ s ++ Itoa (calculateLuhnCheckDigit s), isDigitByte b = true := by
  obtain ⟨h0, h9⟩ := calculateLuhnCheckDigit_range s
  intro b hb
  rw [Itoa_digit _ h0 h9] at hb
  rcases List.mem_append.mp hb with h | h
  · exact hs b h
  · rw [List.mem_singleton] at h
    rw [h]
    exact isDigitByte_digit _ (by omega)

/-- A digit string followed by its check digit is accepted by
`IsValidCardNumber`. -/
theorem IsValidCardNumber_with_check (s : Bytes) (hs : ∀ b ∈ s, isDigitByte b = true) :
    IsValidCardNumber (s ++ Itoa (calculateLuhnCheckDigit s)) = true := by
  have hall : ∀ b ∈ (s ++ Itoa (calculateLuhnCheckDigit s)).reverse, isDigitByte b = true :=
    fun b hb => digits_with_check s hs b (List.mem_reverse.mp hb)
  unfold IsValidCardNumber
  rw [IsValidCardNumber_loop_digits _ hall]
  simp only [luhn_sum_with_check s, decide_True]

/-- The loop of `GenerateCardNumber` appends digits only. -/
theorem GenerateCardNumber_loop_digits (length : ℤ) (fuel : ℕ) :
    ∀ (draws : List ℕ) (cn : Bytes), (∀ b ∈ cn, isDigitByte b = true) →
      ∀ b ∈ GenerateCardNumber.loop length fuel draws cn, isDigitByte b = true := by
  induction fuel with
  | zero => intro draws cn h; exact h
  | succ fuel ih =>
    intro draws cn h
    simp only [GenerateCardNumber.loop, Intn]
    split_ifs with hc
    · apply ih
      intro b hb
      have hd : ((draws.headD 0 % 10 : ℕ) : ℤ) ≤ 9 := by omega
      rw [Itoa_digit _ (by omega) hd] at hb
      rcases List.mem_append.mp hb with h1 | h1
      · exact h b h1
      · rw [List.mem_singleton] at h1
        rw [h1]
        exact isDigitByte_digit _ (by omega)
    · exact h

/-- The loop of `GenerateCardNumber` runs to its exit: with the iterations
allowed it stops only when the length has reached `length - 1`, and it stops
as soon as it has. -/
theorem GenerateCardNumber_loop_length (length : ℤ) (fuel : ℕ) :
    ∀ (draws : List ℕ) (cn : Bytes), (length - 1 - cn.length).toNat ≤ fuel →
      ((GenerateCardNumber.loop length fuel draws cn).length : ℤ)
        = max (cn.length : ℤ) (length - 1) := by
  induction fuel with
  | zero =>
    intro draws cn h
    simp only [GenerateCardNumber.loop]
    omega
  | succ fuel ih =>
    intro draws cn h
    simp only [GenerateCardNumber.loop, Intn]
    split_ifs with hc
    · have hd : ((draws.headD 0 % 10 : ℕ) : ℤ) ≤ 9 := by omega
      have hlen : (cn ++ Itoa ((draws.headD 0 % 10 : ℕ) : ℤ)).length = cn.length + 1 := by
        rw [Itoa_digit _ (by omega) hd]; simp
      rw [ih _ _ (by rw [hlen]; omega), hlen]
      omega
    · omega

/-- Every prefix `GenerateCardNumber` may choose is made of digits. -/
theorem prefixes_digits (i : ℕ) : ∀ b ∈ prefixes.getD i [], isDigitByte b = true := by
  have h : ∀ p ∈ prefixes, ∀ b ∈ p, isDigitByte b = true := by decide
  intro b hb
  by_cases hi : i < prefixes.length
  · rw [List.getD_eq_getElem _ _ hi] at hb
    exact h _ (List.getElem_mem _) b hb
  · rw [List.getD_eq_default _ _ (not_lt.mp hi)] at hb
    cases hb

theorem prefixes_length (i : ℕ) : (prefixes.getD i []).length ≤ 2 := by
  have h : ∀ p ∈ prefixes, p.length ≤ 2 := by decide
  by_cases hi : i < prefixes.length
  · rw [List.getD_eq_getElem _ _ hi]
    exact h _ (List.getElem_mem _)
  · rw [List.getD_eq_default _ _ (not_lt.mp hi)]
    simp

/-- What `GenerateCardNumber` returns: the prefix (the one given, or one of
the five when none is given), filled with digits up to `length - 1` bytes,
and the check digit of that. -/
theorem GenerateCardNumber_shape (draws : List ℕ) (pfx : Bytes) (length : ℤ)
    (hp : ∀ b ∈ pfx, isDigitByte b = true) :
    ∃ (pfx1 cn : Bytes),
      (pfx ≠ [] → pfx1 = pfx) ∧ (pfx = [] → pfx1.length ≤ 2)
      ∧ (∀ b ∈ cn, isDigitByte b = true)
      ∧ (cn.length : ℤ) = max (pfx1.length : ℤ) (length - 1)
      ∧ GenerateCardNumber draws pfx length = cn ++ Itoa (calculateLuhnCheckDigit cn) := by
  by_cases he : pfx = []
  · refine ⟨prefixes.getD (draws.headD 0 % prefixes.length) [],
      GenerateCardNumber.loop length
        (length - 1 - (prefixes.getD (draws.headD 0 % prefixes.length) []).length).toNat
        draws.tail (prefixes.getD (draws.headD 0 % prefixes.length) []),
      fun h => absurd he h, fun _ => prefixes_length _, ?_, ?_, ?_⟩
    · exact GenerateCardNumber_loop_digits _ _ _ _ (prefixes_digits _)
    · exact GenerateCardNumber_loop_length _ _ _ _ le_rfl
    · simp only [GenerateCardNumber, he, if_true, Intn]
  · refine ⟨pfx, GenerateCardNumber.loop length (length - 1 - pfx.length).toNat draws pfx,
      fun _ => rfl, fun h => absurd h he, ?_, ?_, ?_⟩
    · exact GenerateCardNumber_loop_digits _ _ _ _ hp
    · exact GenerateCardNumber_loop_length _ _ _ _ le_rfl
    · simp only [GenerateCardNumber, he, if_false]

/-- C29: for every string `s` of decimal digits, `s` followed by the digit
`calculateLuhnCheckDigit(s)` is accepted by `IsValidCardNumber`.  So, for
every source of random draws, every all-digit prefix (the empty one included,
which the function replaces by one of its five) and every length, the number
returned by `GenerateCardNumber` is made of digits, is accepted by
`IsValidCardNumber`, and has a Luhn sum in `Card.ValidateNumber` that is a
multiple of ten; for the length 16 and a prefix of at most 15 digits
`Card.ValidateNumber` returns nil. -/
theorem luhn_check_digit_accepted (s : Bytes) (hs : ∀ b ∈ s, isDigitByte b = true)
    (draws : List ℕ) (pfx : Bytes) (length : ℤ) (hp : ∀ b ∈ pfx, isDigitByte b = true) :
    IsValidCardNumber (s ++ Itoa (calculateLuhnCheckDigit s)) = true
    ∧ (∀ b ∈ GenerateCardNumber draws pfx length, isDigitByte b = true)
    ∧ IsValidCardNumber (GenerateCardNumber draws pfx length) = true
    ∧ Card.ValidateNumber.loop (GenerateCardNumber draws pfx length).reverse 0 false % 10 = 0
    ∧ (length = 16 → pfx.length ≤ 15 → ∀ (id userID accountID : ℕ),
        Card.ValidateNumber
          { ID := id, Number := GenerateCardNumber draws pfx length, UserID := userID,
            AccountID := accountID } = .ok ()) := by
  obtain ⟨pfx1, cn, hp1, hp2, hcn, hlen, hG⟩ := GenerateCardNumber_shape draws pfx length hp
  have hall := digits_with_check cn hcn
  have hsum : Card.ValidateNumber.loop (GenerateCardNumber draws pfx length).reverse 0 false % 10
      = 0 := by
    rw [hG, ValidateNumber_loop_digits _ (fun b hb => hall b (List.mem_reverse.mp hb))]
    exact luhn_sum_with_check cn
  refine ⟨IsValidCardNumber_with_check s hs, by rw [hG]; exact hall,
    by rw [hG]; exact IsValidCardNumber_with_check cn hcn, hsum, ?_⟩
  intro h16 h15 id userID accountID
  have hl1 : pfx1.length ≤ 15 := by
    by_cases he : pfx = []
    · have := hp2 he; omega
    · rw [hp1 he]; exact h15
  obtain ⟨h0, h9⟩ := calculateLuhnCheckDigit_range cn
  have hlenG : (GenerateCardNumber draws pfx length).length = 16 := by
    rw [hG, Itoa_digit _ h0 h9, List.length_append, List.length_singleton]
    omega
  have hallG : (GenerateCardNumber draws pfx length).all isDigitByte = true := by
    rw [List.all_eq_true, hG]
    exact hall
  simp only [Card.ValidateNumber, hlenG, hallG, and_self, not_true_eq_false, if_false, hsum,
    ne_eq]

/-- The statement of C29 on the digits "7992739871", and on the card number
of 16 digits generated from the prefix "4" and the draws 1, 2, 3. -/
theorem luhn_check_digit_accepted_witness :
    IsValidCardNumber (sample.digits ++ Itoa (calculateLuhnCheckDigit sample.digits)) = true
    ∧ (∀ b ∈ GenerateCardNumber [1, 2, 3] [52] 16, isDigitByte b = true)
    ∧ IsValidCardNumber (GenerateCardNumber [1, 2, 3] [52] 16) = true
    ∧ Card.ValidateNumber.loop (GenerateCardNumber [1, 2, 3] [52] 16).reverse 0 false % 10 = 0
    ∧ ((16 : ℤ) = 16 → [52].length ≤ 15 → ∀ (id userID accountID : ℕ),
        Card.ValidateNumber
          { ID := id, Number := GenerateCardNumber [1, 2, 3] [52] 16, UserID := userID,
            AccountID := accountID } = .ok ()) :=
  luhn_check_digit_accepted sample.digits (by decide) [1, 2, 3] [52] 16 (by decide)

/-! ## Paying the installments one after another -/

/-- A schedule that was returned was computed from the stored credit. -/
theorem GetPaymentSchedule_ok_inv (db db1 : DB) (creditID : ℕ) (s : List PaymentSchedule)
    (h : GetPaymentSchedule db creditID = (.ok s, db1)) :
    ∃ c, creditRepository.GetByID db creditID = (.ok c, db1) := by
  rcases hg : creditRepository.GetByID db creditID with ⟨r0, d0⟩
  cases r0 with
  | error e => simp [GetPaymentSchedule, hg] at h
  | ok c =>
    simp only [GetPaymentSchedule, hg, Prod.mk.injEq] at h
    exact ⟨c, by rw [h.2]⟩

/-- The numbers of the entries of the loop. -/
theorem loop_number_range (c : Credit) (r : ℚ) (k : ℕ) :
    ∀ (i : ℤ) (rem : ℚ), ∀ e ∈ GetPaymentSchedule.loop c r k i rem,
      i ≤ e.PaymentNumber ∧ e.PaymentNumber < i + k := by
  induction k with
  | zero => intro i rem e he; simp [GetPaymentSchedule.loop] at he
  | succ k ih =>
    intro i rem e he
    simp only [GetPaymentSchedule.loop, List.mem_cons] at he
    rcases he with rfl | he
    · constructor
      · exact le_refl _
      · show i < i + ((k + 1 : ℕ) : ℤ)
        omega
    · have := ih _ _ e he
      constructor
      · omega
      · have h2 := this.2
        push_cast
        omega

/-- The duplicate check leaves `creditID` alone when every completed payment
of the account in the log either does not name a credit or names this
one. -/
theorem scan_some_own (acc : ℕ) (n : ℤ) (cid : ℕ) (ts : List Transaction)
    (h : ∀ t ∈ ts, t.FromAccountID = acc → t.Status = TransactionStatusCompleted →
      (SscanfPayment t.Description cid).creditID = cid) (cid1 : ℕ)
    (hs : ProcessPayment.scan acc n ts cid = some cid1) : cid1 = cid := by
  induction ts with
  | nil =>
    simp only [ProcessPayment.scan, Option.some.injEq] at hs
    exact hs.symm
  | cons t ts ih =>
    have ih1 := ih (fun u hu => h u (List.mem_cons_of_mem _ hu))
    simp only [ProcessPayment.scan] at hs
    split_ifs at hs with h1 h2
    · have := h t (List.mem_cons_self _ _) h1.1 h1.2
      rw [this] at hs
      exact ih1 hs
    · exact ih1 hs

/-- The duplicate check stops at a completed payment of the account that
records installment `n`. -/
theorem scan_mem_none (acc : ℕ) (n : ℤ) (id : ℕ) (t : Transaction)
    (ht1 : t.FromAccountID = acc) (ht2 : t.Status = TransactionStatusCompleted)
    (ht3 : ∀ cid, SscanfPayment t.Description cid = ⟨id, n, false⟩) (ts : List Transaction)
    (hmem : t ∈ ts) : ∀ cid0, ProcessPayment.scan acc n ts cid0 = none := by
  induction ts with
  | nil => cases hmem
  | cons u us ih =>
    intro cid0
    simp only [ProcessPayment.scan]
    rcases List.mem_cons.mp hmem with rfl | hm
    · simp [ht1, ht2, ht3]
    · split_ifs <;> first | rfl | exact ih hm _

/-- The state after a run of successful payments of one credit, from a state
in which the installments `paid` are recorded. -/
theorem each_totals_aux (creditID : ℕ) (hid : creditID < 2 ^ 64) (c0 : Credit) :
    ∀ (calls : List (time.Time × ℤ)) (db db' : DB) (c : Credit) (paid : List ℤ),
      db.store.credits.find? (fun x => x.ID = creditID) = some c →
      c.Amount = c0.Amount → c.Term = c0.Term → c.InterestRate = c0.InterestRate →
      c.AccountID = c0.AccountID →
      (∀ t ∈ db.store.transactions, t.TxType = TransactionTypePayment →
        t.FromAccountID = c0.AccountID → t.Status = TransactionStatusCompleted →
        (SscanfPayment t.Description creditID).creditID = creditID) →
      (∀ m ∈ paid, ∃ t ∈ db.store.transactions, t.TxType = TransactionTypePayment
        ∧ t.FromAccountID = c0.AccountID ∧ t.Status = TransactionStatusCompleted
        ∧ ∀ cid, SscanfPayment t.Description cid = ⟨creditID, m, false⟩) →
      (∀ p ∈ calls, -(2 ^ 63 : ℤ) ≤ p.2 ∧ p.2 < 2 ^ 63) →
      ProcessPayment.each creditID db calls = (.ok (), db') →
      ∃ c', db'.store.credits.find? (fun x => x.ID = creditID) = some c'
        ∧ c'.Amount = c0.Amount ∧ c'.Term = c0.Term ∧ c'.InterestRate = c0.InterestRate
        ∧ c'.AccountID = c0.AccountID
        ∧ c'.TotalPaid = c.TotalPaid + calls.length * c0.CalculateMonthlyPayment
        ∧ (calls = [] → c' = c)
        ∧ (calls ≠ [] → c'.RemainingDebt = c0.CalculateTotalAmount - c'.TotalPaid
            ∧ c'.Validate = .ok ())
        ∧ (∀ n ∈ calls.map Prod.snd, 1 ≤ n ∧ n ≤ c0.Term ∧ n ∉ paid)
        ∧ (calls.map Prod.snd).Nodup := by
  intro calls
  induction calls with
  | nil =>
    intro db db' c paid hf hA hT hR hAcc _ _ _ hrun
    simp only [ProcessPayment.each, Prod.mk.injEq, true_and] at hrun
    subst hrun
    exact ⟨c, hf, hA, hT, hR, hAcc, by simp, fun _ => rfl, fun h => absurd rfl h,
      by simp, by simp⟩
  | cons p rest ih =>
    obtain ⟨now, n⟩ := p
    intro db db' c paid hf hA hT hR hAcc hlog hpaid hrange hrun
    simp only [ProcessPayment.each] at hrun
    rcases hstep : ProcessPayment db now creditID n with ⟨r1, db1⟩
    rw [hstep] at hrun
    cases r1 with
    | error e => simp at hrun
    | ok u =>
    simp only at hrun
    obtain ⟨hlo, hhi⟩ := hrange (now, n) (List.mem_cons_self _ _)
    obtain ⟨credit, account, creditID1, dbs, dbs', schedule, payment, tx, credit5, hcf, hscan,
      hsch, hdbs, hfind, -, -, htx, -, hc5, hv5, hst, -⟩ :=
      ProcessPayment_ok_effects db db1 now creditID n hstep
    have hcc : credit = c := by
      rw [hf] at hcf
      exact (Option.some.inj hcf).symm
    subst hcc
    have hcid : credit.ID = creditID := by
      have := List.find?_some hf
      simpa using this
    -- the duplicate check has left the credit number alone
    have hown : creditID1 = creditID := by
      apply scan_some_own credit.AccountID n creditID _ _ creditID1 hscan
      intro t ht h1 h2
      rw [List.mem_filter] at ht
      exact hlog t ht.1 (by simpa using ht.2) (by rw [h1, hAcc]) h2
    rw [hown] at hsch
    -- the installment taken is the monthly payment, numbered within the term
    obtain ⟨c2, hget⟩ := GetPaymentSchedule_ok_inv _ _ _ _ hsch
    obtain ⟨hc2, -, -⟩ := creditRepository_GetByID_ok _ _ _ _ hget
    rw [hdbs, hf] at hc2
    have hc2' : c2 = credit := (Option.some.inj hc2).symm
    subst hc2'
    obtain ⟨d, hdA, hdT, hdR, hs⟩ := GetPaymentSchedule_of_get _ _ _ _ hget
    rw [hsch] at hs
    have hs' : schedule = GetPaymentSchedule.loop d (c2.InterestRate / 12 / 100) c2.Term.toNat 1
        c2.Amount := by
      simp only [Prod.mk.injEq, Except.ok.injEq] at hs
      exact hs.1
    have hmem : payment ∈ schedule := List.mem_of_find?_eq_some hfind
    have hnum : payment.PaymentNumber = n := by
      have := List.find?_some hfind
      simpa using this
    rw [hs'] at hmem
    obtain ⟨-, hat, ham⟩ := loop_entry _ _ _ _ _ payment hmem
    obtain ⟨hn1, hn2⟩ := loop_number_range _ _ _ _ _ payment hmem
    rw [hnum] at hn1 hn2
    have hM : c2.CalculateMonthlyPayment = c0.CalculateMonthlyPayment :=
      CalculateMonthlyPayment_congr c0 c2 hA hT hR
    have hpay : payment.TotalAmount = c0.CalculateMonthlyPayment := by
      rw [← hat, ham, CalculateMonthlyPayment_congr c2 d hdA hdT hdR, hM]
    have hnT : n ≤ c0.Term := by rw [← hT]; omega
    have hnp : n ∉ paid := by
      intro hmp
      obtain ⟨t, ht, ht1, ht2, ht3, ht4⟩ := hpaid n hmp
      have := scan_mem_none c2.AccountID n creditID t (by rw [ht2, hAcc]) ht3 ht4
        (db.store.transactions.filter (fun t => t.TxType = TransactionTypePayment))
        (List.mem_filter.mpr ⟨ht, by simpa using ht1⟩) creditID
      rw [this] at hscan
      cases hscan
    -- the state after the call
    have hparse : ∀ cid, SscanfPayment (SprintfPayment c2.ID n) cid = ⟨creditID, n, false⟩ := by
      intro cid
      rw [hcid]
      exact SscanfPayment_SprintfPayment creditID n hid hlo hhi cid
    have hid5 : credit5.ID = creditID := by rw [hc5]; exact hcid
    have hf1 : db1.store.credits.find? (fun x => x.ID = creditID) = some credit5 := by
      rw [hst]
      exact find?_save_credit _ c2 credit5 creditID hf hid5
    have hlog1 : ∀ t ∈ db1.store.transactions, t.TxType = TransactionTypePayment →
        t.FromAccountID = c0.AccountID → t.Status = TransactionStatusCompleted →
        (SscanfPayment t.Description creditID).creditID = creditID := by
      intro t ht h1 h2 h3
      rw [hst] at ht
      rcases List.mem_append.mp ht with ht | ht
      · exact hlog t ht h1 h2 h3
      · rw [List.mem_singleton] at ht
        rw [ht, htx]
        show (SscanfPayment (SprintfPayment c2.ID n) creditID).creditID = creditID
        rw [hparse]
    have hpaid1 : ∀ m ∈ n :: paid, ∃ t ∈ db1.store.transactions,
        t.TxType = TransactionTypePayment
        ∧ t.FromAccountID = c0.AccountID ∧ t.Status = TransactionStatusCompleted
        ∧ ∀ cid, SscanfPayment t.Description cid = ⟨creditID, m, false⟩ := by
      intro m hm
      rcases List.mem_cons.mp hm with rfl | hm
      · refine ⟨_, by rw [hst]; exact List.mem_append_right _ (List.mem_singleton_self _), ?_, ?_,
          ?_, ?_⟩
        · rw [htx]
        · rw [htx]; exact hAcc
        · rw [htx]
        · rw [htx]; exact hparse
      · obtain ⟨t, ht, ht'⟩ := hpaid m hm
        exact ⟨t, by rw [hst]; exact List.mem_append_left _ ht, ht'⟩
    obtain ⟨c', hf', hA', hT', hR', hAcc', hTP, hnil, hcons, hnums, hnodup⟩ :=
      ih db1 db' credit5 (n :: paid) hf1 (by rw [hc5]; exact hA) (by rw [hc5]; exact hT)
        (by rw [hc5]; exact hR) (by rw [hc5]; exact hAcc) hlog1 hpaid1
        (fun p hp => hrange p (List.mem_cons_of_mem _ hp)) hrun
    have hTP5 : credit5.TotalPaid = c2.TotalPaid + c0.CalculateMonthlyPayment := by
      rw [hc5, ← hpay]
    have hRD5 : credit5.RemainingDebt = c0.CalculateTotalAmount - credit5.TotalPaid := by
      rw [hTP5, hc5]
      show c2.CalculateTotalAmount - (c2.TotalPaid + payment.TotalAmount) = _
      rw [hpay, Credit.CalculateTotalAmount, Credit.CalculateTotalAmount, hM, hT]
    refine ⟨c', hf', hA', hT', hR', hAcc', ?_, fun h => absurd h (List.cons_ne_nil _ _),
      fun _ => ?_, ?_, ?_⟩
    · rw [hTP, hTP5, List.length_cons]
      push_cast
      ring
    · by_cases hr : rest = []
      · rw [hnil hr]
        exact ⟨hRD5, hv5⟩
      · exact hcons hr
    · intro m hm
      rw [List.map_cons, List.mem_cons] at hm
      rcases hm with rfl | hm
      · exact ⟨hn1, hnT, hnp⟩
      · obtain ⟨h1, h2, h3⟩ := hnums m hm
        exact ⟨h1, h2, fun h => h3 (List.mem_cons_of_mem _ h)⟩
    · rw [List.map_cons, List.nodup_cons]
      refine ⟨fun hm => ?_, hnodup⟩
      exact (hnums n hm).2.2 (List.mem_cons_self _ _)

/-- A list of distinct integers between 1 and `T` has at most `T` members. -/
theorem nodup_range_length (l : List ℤ) (T : ℤ) (hn : l.Nodup) (hr : ∀ n ∈ l, 1 ≤ n ∧ n ≤ T) :
    (l.length : ℤ) ≤ max T 0 := by
  have hsub : l.toFinset ⊆ Finset.Icc 1 T := by
    intro n hn'
    rw [List.mem_toFinset] at hn'
    rw [Finset.mem_Icc]
    exact hr n hn'
  have hcard := Finset.card_le_card hsub
  rw [List.toFinset_card_of_nodup hn, Int.card_Icc] at hcard
  omega

/-- C26, amended: in exact arithmetic (the amounts read as rationals), the
stored credit has `TotalPaid = 0`, as `CreateCredit` stores it, and the
completed payments of its account in the log, if any, name no other
credit (it is the only credit on its account).  After `k ≥ 1` calls of
`ProcessPayment(creditID, n)` that all return nil, the installment numbers of
the calls are distinct numbers in `1..Term`, so `k ≤ Term`, and the stored
credit has `TotalPaid = k * CalculateMonthlyPayment()` and
`RemainingDebt = (Term - k) * CalculateMonthlyPayment()`, which is not
negative and is 0 when `k = Term`.  The numbers may come in any order;
`creditID` and the numbers range over the machine integers. -/
theorem ProcessPayment_each_totals (db0 db : DB) (creditID : ℕ) (c0 : Credit)
    (calls : List (time.Time × ℤ)) (hid : creditID < 2 ^ 64)
    (hc : db0.store.credits.find? (fun x => x.ID = creditID) = some c0)
    (hP : c0.TotalPaid = 0)
    (hlog : ∀ t ∈ db0.store.transactions, t.TxType = TransactionTypePayment →
      t.FromAccountID = c0.AccountID → t.Status = TransactionStatusCompleted →
      (SscanfPayment t.Description creditID).creditID = creditID)
    (hrange : ∀ p ∈ calls, -(2 ^ 63 : ℤ) ≤ p.2 ∧ p.2 < 2 ^ 63)
    (hne : calls ≠ [])
    (hrun : ProcessPayment.each creditID db0 calls = (.ok (), db)) :
    ∃ c, db.store.credits.find? (fun x => x.ID = creditID) = some c
      ∧ c.CalculateMonthlyPayment = c0.CalculateMonthlyPayment ∧ c.Term = c0.Term
      ∧ (calls.map Prod.snd).Nodup
      ∧ (∀ n ∈ calls.map Prod.snd, 1 ≤ n ∧ n ≤ c0.Term)
      ∧ (calls.length : ℤ) ≤ c0.Term
      ∧ c.TotalPaid = calls.length * c0.CalculateMonthlyPayment
      ∧ c.RemainingDebt = ((c0.Term : ℚ) - calls.length) * c0.CalculateMonthlyPayment
      ∧ 0 ≤ c.RemainingDebt
      ∧ ((calls.length : ℤ) = c0.Term → c.RemainingDebt = 0) := by
  obtain ⟨c, hf, hA, hT, hR, -, hTP, -, hcons, hnums, hnodup⟩ :=
    each_totals_aux creditID hid c0 calls db0 db c0 [] hc rfl rfl rfl rfl hlog
      (by intro m hm; cases hm) hrange hrun
  obtain ⟨hRD, hv⟩ := hcons hne
  obtain ⟨hA', hT', -, hR', -⟩ := Credit_Validate_inv c hv
  rw [hA] at hA'
  rw [hT] at hT'
  rw [hR] at hR'
  have hpos := CalculateMonthlyPayment_pos c0 hA' (by omega) hR'
  have hnums' : ∀ n ∈ calls.map Prod.snd, 1 ≤ n ∧ n ≤ c0.Term :=
    fun n hn => ⟨(hnums n hn).1, (hnums n hn).2.1⟩
  have hlen : (calls.length : ℤ) ≤ c0.Term := by
    have := nodup_range_length _ c0.Term hnodup hnums'
    rw [List.length_map] at this
    omega
  rw [hP, zero_add] at hTP
  have hRD' : c.RemainingDebt = ((c0.Term : ℚ) - calls.length) * c0.CalculateMonthlyPayment := by
    rw [hRD, hTP, Credit.CalculateTotalAmount]
    ring
  have hlenq : ((calls.length : ℤ) : ℚ) ≤ (c0.Term : ℚ) := by exact_mod_cast hlen
  refine ⟨c, hf, CalculateMonthlyPayment_congr c0 c hA hT hR, hT, hnodup, hnums', hlen, hTP,
    hRD', ?_, ?_⟩
  · rw [hRD']
    apply mul_nonneg _ (le_of_lt hpos)
    have : ((calls.length : ℤ) : ℚ) = (calls.length : ℚ) := by norm_cast
    linarith
  · intro hk
    rw [hRD']
    have : (c0.Term : ℚ) = (calls.length : ℚ) := by rw [← hk]; norm_cast
    rw [this, sub_self, zero_mul]

/-- The amended statement of C26 on the sample loan, whose two installments are paid
one after the other. -/
theorem ProcessPayment_each_totals_witness :
    ∃ db, ProcessPayment.each 1 sample.db [(sample.now, 1), (sample.nowLate, 2)] = (.ok (), db)
      ∧ ∃ c, db.store.credits.find? (fun x => x.ID = 1) = some c
        ∧ c.CalculateMonthlyPayment = sample.credit.CalculateMonthlyPayment
        ∧ c.Term = sample.credit.Term
        ∧ ([(sample.now, (1 : ℤ)), (sample.nowLate, 2)].map Prod.snd).Nodup
        ∧ (∀ n ∈ [(sample.now, (1 : ℤ)), (sample.nowLate, 2)].map Prod.snd,
            1 ≤ n ∧ n ≤ sample.credit.Term)
        ∧ (([(sample.now, (1 : ℤ)), (sample.nowLate, 2)].length : ℕ) : ℤ) ≤ sample.credit.Term
        ∧ c.TotalPaid = ([(sample.now, (1 : ℤ)), (sample.nowLate, 2)].length : ℕ)
            * sample.credit.CalculateMonthlyPayment
        ∧ c.RemainingDebt = ((sample.credit.Term : ℚ)
            - ([(sample.now, (1 : ℤ)), (sample.nowLate, 2)].length : ℕ))
              * sample.credit.CalculateMonthlyPayment
        ∧ 0 ≤ c.RemainingDebt
        ∧ ((([(sample.now, (1 : ℤ)), (sample.nowLate, 2)].length : ℕ) : ℤ) = sample.credit.Term →
            c.RemainingDebt = 0) := by
  obtain ⟨db2, h2, -⟩ := ProcessPayment_pays_own_installment sample.dbPaid sample.nowLate 1 2
    (sample.creditAfter sample.credit sample.credit.CalculateMonthlyPayment CreditStatusActive)
    { sample.account with
      Balance := sample.account.Balance - sample.credit.CalculateMonthlyPayment }
    (by decide) rfl (sample_credit_valid _ (Or.inl rfl) _ _ _ _) (by norm_num)
    (by show (2 : ℤ) ≤ sample.credit.Term; norm_num [sample.credit])
    (by
      intro t ht _ _ _
      have ht' : t = sample.paymentTx 1 1 1 sample.credit.CalculateMonthlyPayment :=
        List.mem_singleton.mp ht
      rw [ht']
      have hs : SscanfPayment (sample.paymentTx 1 1 1
          sample.credit.CalculateMonthlyPayment).Description 1 = ⟨1, 1, false⟩ :=
        SscanfPayment_SprintfPayment 1 1 (by norm_num) (by norm_num) (by norm_num) 1
      rw [hs]
      exact ⟨rfl, by simp⟩)
    rfl
    (by
      show sample.credit.CalculateMonthlyPayment
        ≤ sample.account.Balance - sample.credit.CalculateMonthlyPayment
      rw [sample_monthly]; norm_num [sample.account])
  have hrun : ProcessPayment.each 1 sample.db [(sample.now, 1), (sample.nowLate, 2)]
      = (.ok (), db2) := by
    simp only [ProcessPayment.each, sample_first_payment, h2]
  exact ⟨db2, hrun, ProcessPayment_each_totals sample.db db2 1 sample.credit
    [(sample.now, 1), (sample.nowLate, 2)] (by norm_num) rfl rfl
    (by intro t ht; cases ht)
    (by
      intro p hp
      simp only [List.mem_cons, List.mem_singleton, List.not_mem_nil, or_false] at hp
      rcases hp with rfl | rfl <;> norm_num)
    (by simp) hrun⟩

/-! ## The amounts in `float64` -/

/-- More calls than `|n|` are enough for `pow` on an exponent `n ≥ 0`: the
result does not depend on the bound. -/
theorem pow64_go_bound : ∀ (f1 f2 : ℕ) (x : float64) (n : ℤ), 0 ≤ n → n.natAbs < f1 →
    n.natAbs < f2 → pow64.go f1 x n = pow64.go f2 x n := by
  intro f1
  induction f1 with
  | zero => intro f2 x n _ h1; omega
  | succ f1 ih =>
    intro f2 x n h0 h1 h2
    cases f2 with
    | zero => omega
    | succ f2 =>
      simp only [pow64.go]
      by_cases hn : n = 0
      · simp [hn]
      · rw [if_neg hn, if_neg hn, if_neg (not_lt.mpr h0), if_neg (not_lt.mpr h0)]
        by_cases he : n % 2 = 0
        · rw [if_pos he, if_pos he]
          exact ih f2 _ _ (by omega) (by omega) (by omega)
        · rw [if_neg he, if_neg he]
          rw [ih f2 _ _ (by omega) (by omega) (by omega)]

theorem pow64_go_neg (f : ℕ) (x : float64) (n : ℤ) (h : n < 0) :
    pow64.go (f + 1) x n = 1 / pow64.go f x (-n) := by
  rw [pow64.go, if_neg (by omega), if_pos h]

/-- The bound of `pow64` is enough: a larger one gives the same result. -/
theorem pow64_bound (x : float64) (n : ℤ) (fuel : ℕ) (h : n.natAbs + 2 ≤ fuel) :
    pow64.go fuel x n = pow64 x n := by
  unfold pow64
  obtain ⟨f, rfl⟩ : ∃ f, fuel = f + 1 := ⟨fuel - 1, by omega⟩
  by_cases h0 : 0 ≤ n
  · exact pow64_go_bound _ _ x n h0 (by omega) (by omega)
  · rw [pow64_go_neg f x n (not_le.mp h0), pow64_go_neg (n.natAbs + 1) x n (not_le.mp h0),
      pow64_go_bound f (n.natAbs + 1) x (-n) (by omega) (by omega) (by omega)]

theorem loop64_length (c : Credit64) (r : float64) :
    ∀ (k : ℕ) (i : ℤ) (rem : float64), (GetPaymentSchedule.loop64 c r k i rem).length = k := by
  intro k
  induction k with
  | zero => intro i rem; rfl
  | succ k ih =>
    intro i rem
    simp only [GetPaymentSchedule.loop64, List.length_cons, ih]

/-- Every entry of the `float64` schedule carries the monthly payment in
`Amount` and `TotalAmount`, and in `Principal` the rounded difference of the
payment and the entry's `Interest`. -/
theorem loop64_entry (c : Credit64) (r : float64) :
    ∀ (k : ℕ) (i : ℤ) (rem : float64), ∀ e ∈ GetPaymentSchedule.loop64 c r k i rem,
      e.Amount = c.CalculateMonthlyPayment ∧ e.TotalAmount = c.CalculateMonthlyPayment
        ∧ e.Principal = e.Amount - e.Interest := by
  intro k
  induction k with
  | zero => intro i rem e he; cases he
  | succ k ih =>
    intro i rem e he
    simp only [GetPaymentSchedule.loop64, List.mem_cons] at he
    rcases he with rfl | he
    · exact ⟨rfl, rfl, rfl⟩
    · exact ih _ _ e he

/-- The sample loan in `float64` passes validation. -/
theorem loan64_valid : sample.loan64.Validate = .ok () := by rfl

set_option maxRecDepth 100000 in
/-- The monthly payment of the sample loan in `float64`:
20884.057225614797. -/
theorem loan64_monthly :
    sample.loan64.CalculateMonthlyPayment = float64.fin 5740565938675715 (-38) := by decide

set_option maxRecDepth 100000 in
/-- The schedule of the sample loan in `float64`. -/
theorem loan64_schedule :
    GetPaymentSchedule64 sample.loan64 =
      [ { PaymentNumber := 1, Amount := float64.fin 5740565938675715 (-38),
          Interest := float64.fin 375 2, Principal := float64.fin 5328249078259715 (-38),
          TotalAmount := float64.fin 5740565938675715 (-38) },
        { PaymentNumber := 2, Amount := float64.fin 5740565938675715 (-38),
          Interest := float64.fin 5531419951004057 (-42),
          Principal := float64.fin 5394852191737961 (-38),
          TotalAmount := float64.fin 5740565938675715 (-38) },
        { PaymentNumber := 3, Amount := float64.fin 5740565938675715 (-38),
          Interest := float64.fin 4452449512656465 (-42),
          Principal := float64.fin 2731143922067343 (-37),
          TotalAmount := float64.fin 5740565938675715 (-38) },
        { PaymentNumber := 4, Amount := float64.fin 5740565938675715 (-38),
          Interest := float64.fin 419998992978691 (-39),
          Principal := float64.fin 2765283221093185 (-37),
          TotalAmount := float64.fin 5740565938675715 (-38) },
        { PaymentNumber := 5, Amount := float64.fin 5740565938675715 (-38),
          Interest := float64.fin 4507757310784507 (-43),
          Principal := float64.fin 5599698522713699 (-38),
          TotalAmount := float64.fin 5740565938675715 (-38) },
        { PaymentNumber := 6, Amount := float64.fin 5740565938675715 (-38),
          Interest := float64.fin 4535755803398055 (-44),
          Principal := float64.fin 1417423688561905 (-36),
          TotalAmount := float64.fin 5740565938675715 (-38) } ] := by decide

set_option maxRecDepth 100000 in
/-- The first two entries of the schedule of the loan at 1e-14 % in
`float64`: the monthly payment is `+Inf`, the second interest `-Inf`. -/
theorem loanTiny_schedule :
    (GetPaymentSchedule64 sample.loanTiny).take 2 =
      [ { PaymentNumber := 1, Amount := float64.inf false,
          Interest := float64.fin 4951760157141521 (-92), Principal := float64.inf false,
          TotalAmount := float64.inf false },
        { PaymentNumber := 2, Amount := float64.inf false,
          Interest := float64.inf true, Principal := float64.inf false,
          TotalAmount := float64.inf false } ] := by decide

set_option maxRecDepth 100000 in
/-- The sample loan in `float64` after the payment of its six installments,
one after the other. -/
theorem loan64_paid :
    (GetPaymentSchedule64 sample.loan64).foldl ProcessPayment.credit64 sample.loan64
      = { sample.loan64 with
          TotalPaid := float64.fin 8610848908013573 (-36)
          RemainingDebt := float64.fin (-1) (-36) } := by decide

set_option maxRecDepth 100000 in
/-- C3, counterexample: in `float64`, entry 4 of the schedule of the valid
loan of 120000 over six months at 15 % has Interest 763.9737177281695 and
Principal 20120.08350788663, whose sum is 20884.0572256148, while its Amount
is the monthly payment 20884.057225614797. -/
theorem GetPaymentSchedule64_entry_not_split :
    sample.loan64.Validate = .ok ()
    ∧ ∃ e ∈ GetPaymentSchedule64 sample.loan64,
        e.PaymentNumber = 4
        ∧ e.Amount = sample.loan64.CalculateMonthlyPayment
        ∧ e.Amount = float64.fin 5740565938675715 (-38)
        ∧ e.Interest = float64.fin 419998992978691 (-39)
        ∧ e.Principal = float64.fin 2765283221093185 (-37)
        ∧ e.Interest + e.Principal = float64.fin 1435141484668929 (-36)
        ∧ e.Interest + e.Principal ≠ e.Amount := by
  refine ⟨loan64_valid, ?_⟩
  rw [loan64_schedule, loan64_monthly]
  refine ⟨{ PaymentNumber := 4, Amount := float64.fin 5740565938675715 (-38),
            Interest := float64.fin 419998992978691 (-39),
            Principal := float64.fin 2765283221093185 (-37),
            TotalAmount := float64.fin 5740565938675715 (-38) }, by simp, rfl, rfl, rfl, rfl, rfl,
    by decide, by decide⟩

set_option maxRecDepth 100000 in
/-- C25, counterexample: in `float64`, in the schedule of the valid loan of
120000 over six months at 15 % the Principal of entry 3 is
19871.68741519667, while the Principal of entry 2 times `1 + monthlyRate`
is 19871.687415196666; and in the schedule of the same loan at the valid
rate 1e-14 % the Interest of entry 2 is `-Inf`, which is not positive. -/
theorem GetPaymentSchedule64_principal_not_geometric :
    (sample.loan64.Validate = .ok ()
      ∧ ∃ a b, (GetPaymentSchedule64 sample.loan64)[1]? = some a
        ∧ (GetPaymentSchedule64 sample.loan64)[2]? = some b
        ∧ a.PaymentNumber = 2 ∧ b.PaymentNumber = 3
        ∧ a.Principal * (1 + sample.loan64.InterestRate / 12 / 100)
            = float64.fin 5462287844134685 (-38)
        ∧ b.Principal = float64.fin 2731143922067343 (-37)
        ∧ b.Principal ≠ a.Principal * (1 + sample.loan64.InterestRate / 12 / 100))
    ∧ (sample.loanTiny.Validate = .ok ()
      ∧ float64.lt 0 sample.loanTiny.Amount = true
      ∧ float64.lt 0 sample.loanTiny.InterestRate = true
      ∧ float64.le sample.loanTiny.InterestRate 100 = true
      ∧ ∃ e, ((GetPaymentSchedule64 sample.loanTiny).take 2)[1]? = some e
        ∧ e.PaymentNumber = 2
        ∧ e.Interest = float64.inf true
        ∧ float64.lt 0 e.Interest = false) := by
  refine ⟨⟨loan64_valid, ?_⟩, by rfl, by decide, by decide, by decide, ?_⟩
  · rw [loan64_schedule]
    refine ⟨_, _, rfl, rfl, rfl, rfl, by decide, rfl, by decide⟩
  · rw [loanTiny_schedule]
    exact ⟨_, rfl, rfl, rfl, rfl⟩

theorem float64_lt_eq_not_le (x y : float64) (hx : x ≠ float64.nan) (hy : y ≠ float64.nan) :
    float64.lt y x = !float64.le x y := by
  cases x with
  | nan => exact absurd rfl hx
  | inf s =>
    cases y with
    | nan => exact absurd rfl hy
    | inf t => cases s <;> cases t <;> rfl
    | fin m e => cases s <;> rfl
  | fin m e =>
    cases y with
    | nan => exact absurd rfl hy
    | inf t => cases t <;> rfl
    | fin m2 e2 =>
      simp only [float64.lt, float64.le]
      by_cases h : float64.numerator m e * ↑(float64.denominator e2)
          ≤ float64.numerator m2 e2 * ↑(float64.denominator e)
      · simp [h, not_lt.mpr h]
      · simp [h, not_le.mp h]

/-- In `float64`, for a credit whose `Amount` and `InterestRate` are not NaN,
`Validate` returns nil exactly when `Amount > 0`, `1 ≤ Term ≤ 360`,
`0 < InterestRate ≤ 100`, `1 ≤ PaymentDay ≤ 31` and Status is one of the five
constants. -/
theorem Credit64_Validate_spec (c : Credit64) (hA : c.Amount ≠ float64.nan)
    (hR : c.InterestRate ≠ float64.nan) :
    c.Validate = .ok () ↔
      float64.lt 0 c.Amount = true ∧ (1 ≤ c.Term ∧ c.Term ≤ 360)
        ∧ (float64.lt 0 c.InterestRate = true ∧ float64.le c.InterestRate 100 = true)
        ∧ (1 ≤ c.PaymentDay ∧ c.PaymentDay ≤ 31)
        ∧ (c.Status = CreditStatusPending ∨ c.Status = CreditStatusActive
          ∨ c.Status = CreditStatusPaid ∨ c.Status = CreditStatusOverdue
          ∨ c.Status = CreditStatusCancelled) := by
  have h0 : (0 : float64) ≠ float64.nan := by decide
  have h100 : (100 : float64) ≠ float64.nan := by decide
  have e1 := float64_lt_eq_not_le c.Amount 0 hA h0
  have e2 := float64_lt_eq_not_le c.InterestRate 0 hR h0
  have e3 := float64_lt_eq_not_le c.InterestRate 100 hR h100
  rw [e1, e2]
  unfold Credit64.Validate Credit64.ValidateAmount Credit64.ValidateTerm
    Credit64.ValidateInterestRate Credit64.ValidatePaymentDay Credit64.ValidateStatus
  rw [e3]
  cases hle : float64.le c.Amount 0 <;> cases hle2 : float64.le c.InterestRate 0
    <;> cases hle3 : float64.le c.InterestRate 100
    <;> by_cases hT : (c.Term ≤ 0 ∨ c.Term > 360)
    <;> by_cases hD : (c.PaymentDay < 1 ∨ c.PaymentDay > 31)
    <;> by_cases hS : (c.Status = CreditStatusPending ∨ c.Status = CreditStatusActive
          ∨ c.Status = CreditStatusPaid ∨ c.Status = CreditStatusOverdue
          ∨ c.Status = CreditStatusCancelled)
    <;> simp [hT, hD, hS] <;> omega

/-- C16, failing input: in `float64`, `Validate` returns nil for the credit
whose `InterestRate` is NaN, although `0 < InterestRate` and
`InterestRate <= 100` are both false of it; the two rejections
`InterestRate <= 0` and `InterestRate > 100` are false of NaN as well.  A NaN
benchmark rate gives that credit: `NaN + 5.0` is NaN. -/
theorem Credit64_Validate_accepts_NaN :
    sample.loanNaN.InterestRate = float64.nan
    ∧ sample.loanNaN.Validate = .ok ()
    ∧ float64.lt 0 sample.loanNaN.InterestRate = false
    ∧ float64.le sample.loanNaN.InterestRate 100 = false
    ∧ float64.le sample.loanNaN.InterestRate 0 = false
    ∧ float64.lt 100 sample.loanNaN.InterestRate = false
    ∧ (float64.nan + 5 : float64) = float64.nan := by
  exact ⟨rfl, by rfl, rfl, rfl, rfl, rfl, rfl⟩

set_option maxRecDepth 100000 in
/-- C26, counterexample: in `float64`, after the six installments of the
valid loan of 120000 over six months at 15 % are paid the stored `TotalPaid`
is 125304.34335368879 while six times the monthly payment is
125304.34335368878, and the stored `RemainingDebt` is
-1.4551915228366852e-11, which is negative and not 0; and before any payment
(`k = 0`) the record produced by the sample origination has
`RemainingDebt = 100`, the principal, while `Term` times its monthly payment
is 20402/201. -/
theorem ProcessPayment64_totals_drift :
    (sample.loan64.Validate = .ok ()
      ∧ (GetPaymentSchedule64 sample.loan64).length = 6
      ∧ ((GetPaymentSchedule64 sample.loan64).foldl ProcessPayment.credit64
          sample.loan64).TotalPaid = float64.fin 8610848908013573 (-36)
      ∧ 6 * sample.loan64.CalculateMonthlyPayment = float64.fin 2152712227003393 (-34)
      ∧ ((GetPaymentSchedule64 sample.loan64).foldl ProcessPayment.credit64
          sample.loan64).TotalPaid ≠ 6 * sample.loan64.CalculateMonthlyPayment
      ∧ ((GetPaymentSchedule64 sample.loan64).foldl ProcessPayment.credit64
          sample.loan64).RemainingDebt = float64.fin (-1) (-36)
      ∧ float64.lt ((GetPaymentSchedule64 sample.loan64).foldl ProcessPayment.credit64
          sample.loan64).RemainingDebt 0 = true
      ∧ ((GetPaymentSchedule64 sample.loan64).foldl ProcessPayment.credit64
          sample.loan64).RemainingDebt ≠ 0)
    ∧ ∃ (c : Credit) (db' : DB),
        CreateCredit sample.dbFresh (.ok 7) sample.now 1 10 100 2 "loan" = (.ok c, db')
        ∧ db'.store.credits = [c]
        ∧ c.TotalPaid = 0
        ∧ c.RemainingDebt = 100
        ∧ ((c.Term : ℚ) - 0) * c.CalculateMonthlyPayment = 20402 / 201
        ∧ c.RemainingDebt ≠ ((c.Term : ℚ) - 0) * c.CalculateMonthlyPayment := by
  refine ⟨⟨loan64_valid, ?_, ?_, ?_, ?_, ?_, ?_, ?_⟩, ?_⟩
  · rw [loan64_schedule]; rfl
  · rw [loan64_paid]
  · rw [loan64_monthly]; decide
  · rw [loan64_paid, loan64_monthly]; decide
  · rw [loan64_paid]
  · rw [loan64_paid]; decide
  · rw [loan64_paid]; decide
  · have hR : sample.creditNew.RemainingDebt = 100 := rfl
    have hP : sample.creditNew.TotalPaid = 0 := rfl
    have hT : ((sample.creditNew.Term : ℚ) - 0) * sample.creditNew.CalculateMonthlyPayment
        = 20402 / 201 := by
      have := sample_creditNew_total
      rw [Credit.CalculateTotalAmount] at this
      rw [sub_zero, mul_comm]; exact_mod_cast this
    refine ⟨sample.creditNew, sample.dbOriginated, sample_origination, rfl, hP, hR, hT, ?_⟩
    rw [hT, hR]; norm_num

/-- C3, amended: for every stored credit `GetPaymentSchedule` returns `Term`
entries, each with `Amount = TotalAmount = CalculateMonthlyPayment()`, the
same value in all entries; in exact arithmetic (the amounts read as
rationals) `Interest + Principal` is the entry's `Amount`.  In `float64` the
schedule has `Term` entries too, each with `Amount` and `TotalAmount` the
monthly payment and with `Principal` the rounded difference
`Amount - Interest`. -/
theorem schedule_entry_split (db db1 : DB) (creditID : Nat) (c : Credit) (c64 : Credit64)
    (hget : creditRepository.GetByID db creditID = (.ok c, db1)) :
    (∃ schedule, GetPaymentSchedule db creditID = (.ok schedule, db1)
      ∧ schedule.length = c.Term.toNat
      ∧ ∀ e ∈ schedule, e.Interest + e.Principal = e.Amount ∧ e.Amount = e.TotalAmount
          ∧ e.Amount = c.CalculateMonthlyPayment)
    ∧ (GetPaymentSchedule64 c64).length = c64.Term.toNat
    ∧ ∀ e ∈ GetPaymentSchedule64 c64, e.Amount = c64.CalculateMonthlyPayment
        ∧ e.TotalAmount = c64.CalculateMonthlyPayment ∧ e.Principal = e.Amount - e.Interest :=
  ⟨schedule_split_exact db db1 creditID c hget, loop64_length _ _ _ _ _,
    loop64_entry _ _ _ _ _⟩

/-- The amended statement of C3 on the sample loans. -/
theorem schedule_entry_split_witness :
    (∃ schedule, GetPaymentSchedule sample.db 1 = (.ok schedule, sample.db)
      ∧ schedule.length = sample.credit.Term.toNat
      ∧ ∀ e ∈ schedule, e.Interest + e.Principal = e.Amount ∧ e.Amount = e.TotalAmount
          ∧ e.Amount = sample.credit.CalculateMonthlyPayment)
    ∧ (GetPaymentSchedule64 sample.loan64).length = sample.loan64.Term.toNat
    ∧ ∀ e ∈ GetPaymentSchedule64 sample.loan64,
        e.Amount = sample.loan64.CalculateMonthlyPayment
        ∧ e.TotalAmount = sample.loan64.CalculateMonthlyPayment
        ∧ e.Principal = e.Amount - e.Interest :=
  schedule_entry_split sample.db sample.db 1 sample.credit sample.loan64 rfl

/-! ## The payment path of the scheduler -/

theorem creditRepository_GetPaymentSchedule_quiet (db : DB) (id : ℕ) (hq : db.quiet) :
    ∃ db1, creditRepository.GetPaymentSchedule db id
        = (.ok (db.store.schedules.filter (fun p => p.CreditID = id)), db1)
      ∧ db1.store = db.store ∧ db1.quiet := by
  obtain ⟨d, hd, hs, hq1⟩ := roundTrip_quiet db hq
  refine ⟨d, ?_, hs, hq1⟩
  simp [creditRepository.GetPaymentSchedule, hd, hs]

theorem creditRepository_UpdatePaymentSchedule_quiet (db : DB) (p : PaymentSchedule)
    (hq : db.quiet) :
    ∃ db1, creditRepository.UpdatePaymentSchedule db p = (.ok (), db1)
      ∧ db1.store = { db.store with
          schedules := creditRepository.saveSchedule db.store.schedules p }
      ∧ db1.quiet := by
  obtain ⟨d, hd, hs, hq1⟩ := roundTrip_quiet db hq
  refine ⟨{ d with store := { d.store with
    schedules := creditRepository.saveSchedule d.store.schedules p } }, ?_, ?_, hq1⟩
  · simp [creditRepository.UpdatePaymentSchedule, hd]
  · simp [hs]

theorem transactionRepository_Create_invalid_quiet (db : DB) (t : Transaction) (e : String)
    (hq : db.quiet) (hv : t.Validate = .error e) :
    ∃ db1, transactionRepository.Create db t = (.error ErrInvalidData, db1)
      ∧ db1.store = db.store ∧ db1.quiet := by
  obtain ⟨d, hd, hs, hq1⟩ := roundTrip_quiet db hq
  refine ⟨d, ?_, hs, hq1⟩
  simp [transactionRepository.Create, hd, hv]

/-- The run of `Scheduler.ProcessPayment` on a store none of whose round
trips fails, for a credit and an account that are found and a stored row of
the credit with number `n` that the balance covers: the account is debited by
the `Amount` of the row, the row is marked COMPLETED, and the call stops at
the transaction append. -/
theorem Scheduler_ProcessPayment_quiet_run (db : DB) (notify : Notifier) (creditID : ℕ)
    (n : ℤ) (credit : Credit) (account : Account) (row : PaymentSchedule) (hq : db.quiet)
    (hc : db.store.credits.find? (fun c => c.ID = creditID) = some credit)
    (ha : db.store.accounts.find? (fun a => a.ID = credit.AccountID) = some account)
    (hr : (db.store.schedules.filter (fun p => p.CreditID = creditID)).find?
      (fun p => p.PaymentNumber = n) = some row)
    (hbal : row.Amount ≤ account.Balance) :
    ∃ db1, Scheduler.ProcessPayment db notify creditID n
        = (.error ("failed to create transaction: " ++ ErrInvalidData), db1)
      ∧ db1.store = { db.store with
          accounts := accountRepository.save db.store.accounts
            { account with Balance := account.Balance - row.Amount }
          schedules := creditRepository.saveSchedule db.store.schedules
            { row with Status := "COMPLETED" } } := by
  obtain ⟨d1, h1, hs1, hq1⟩ := creditRepository_GetByID_quiet db creditID credit hq hc
  obtain ⟨d2, h2, hs2, hq2⟩ := accountRepository_GetByID_quiet d1 credit.AccountID account hq1
    (by rw [hs1]; exact ha)
  obtain ⟨d3, h3, hs3, hq3⟩ := creditRepository_GetPaymentSchedule_quiet d2 creditID hq2
  rw [hs2, hs1] at h3
  obtain ⟨d4, h5, hs4, hq4⟩ := accountRepository_Update_quiet d3
    { account with Balance := account.Balance - row.Amount } hq3
    (by show 0 ≤ account.Balance - row.Amount; linarith)
  obtain ⟨d5, h6, hs5, hq5⟩ := creditRepository_UpdatePaymentSchedule_quiet d4
    { row with Status := "COMPLETED" } hq4
  obtain ⟨d6, h7, hs6, -⟩ := transactionRepository_Create_invalid_quiet d5
    (Scheduler.ProcessPayment.transaction credit { row with Status := "COMPLETED" }) _ hq5
    (Scheduler_transaction_invalid _ _)
  refine ⟨d6, Scheduler_ProcessPayment_run_append_fails db d1 d2 d3 d4 d5 d6 notify creditID n
    credit account _ row _ h1 h2 h3 hr hbal h5 h6 h7, ?_⟩
  rw [hs6, hs5, hs4, hs3, hs2, hs1]

/-- C19, amended: `Scheduler.ProcessPayment` is a path of its own.  In every
run it leaves the credit table as it was, and the account table is either as
it was or holds the account of the credit debited by the `Amount` of the
stored schedule row of the credit with number `n`, which the balance
covered.  On a store none of whose round trips fails, for a credit and an
account that are found and a stored row of the credit with number `n` whose
`Amount` the balance covers, the call debits the account by the `Amount` of
that row and marks the row COMPLETED, and the credit table stays as it
was. -/
theorem Scheduler_ProcessPayment_debits_row (db : DB) (notify : Notifier) (creditID : ℕ)
    (n : ℤ) :
    (Scheduler.ProcessPayment db notify creditID n).2.store.credits = db.store.credits
    ∧ ((Scheduler.ProcessPayment db notify creditID n).2.store.accounts = db.store.accounts
      ∨ ∃ (credit : Credit) (account : Account) (row : PaymentSchedule),
          db.store.credits.find? (fun c => c.ID = creditID) = some credit
          ∧ db.store.accounts.find? (fun a => a.ID = credit.AccountID) = some account
          ∧ (db.store.schedules.filter (fun p => p.CreditID = creditID)).find?
              (fun p => p.PaymentNumber = n) = some row
          ∧ row.Amount ≤ account.Balance
          ∧ (Scheduler.ProcessPayment db notify creditID n).2.store.accounts
              = accountRepository.save db.store.accounts
                  { account with Balance := account.Balance - row.Amount })
    ∧ ∀ (credit : Credit) (account : Account) (row : PaymentSchedule),
        db.quiet →
        db.store.credits.find? (fun c => c.ID = creditID) = some credit →
        db.store.accounts.find? (fun a => a.ID = credit.AccountID) = some account →
        (db.store.schedules.filter (fun p => p.CreditID = creditID)).find?
          (fun p => p.PaymentNumber = n) = some row →
        row.Amount ≤ account.Balance →
        (Scheduler.ProcessPayment db notify creditID n).2.store.accounts
            = accountRepository.save db.store.accounts
                { account with Balance := account.Balance - row.Amount }
          ∧ (Scheduler.ProcessPayment db notify creditID n).2.store.schedules
            = creditRepository.saveSchedule db.store.schedules
                { row with Status := "COMPLETED" }
          ∧ (Scheduler.ProcessPayment db notify creditID n).2.store.credits
            = db.store.credits := by
  refine ⟨(Scheduler_ProcessPayment_envelope db notify creditID n).1,
    (Scheduler_ProcessPayment_envelope db notify creditID n).2, ?_⟩
  intro credit account row hq hc ha hr hbal
  obtain ⟨d, hrun, hs⟩ := Scheduler_ProcessPayment_quiet_run db notify creditID n credit account
    row hq hc ha hr hbal
  rw [hrun]
  exact ⟨by rw [hs], by rw [hs], by rw [hs]⟩

/-- The amended statement of C19 on the sample store with the schedule row of
the loan: the account is debited by the 50 of the row. -/
theorem Scheduler_ProcessPayment_debits_row_witness :
    (Scheduler.ProcessPayment sample.dbScheduled sample.notifyOk 1 1).2.store.accounts
        = accountRepository.save sample.dbScheduled.store.accounts
            { sample.account with Balance := sample.account.Balance - sample.row.Amount }
      ∧ (Scheduler.ProcessPayment sample.dbScheduled sample.notifyOk 1 1).2.store.schedules
        = creditRepository.saveSchedule sample.dbScheduled.store.schedules
            { sample.row with Status := "COMPLETED" }
      ∧ (Scheduler.ProcessPayment sample.dbScheduled sample.notifyOk 1 1).2.store.credits
        = sample.dbScheduled.store.credits :=
  (Scheduler_ProcessPayment_debits_row sample.dbScheduled sample.notifyOk 1 1).2.2
    sample.credit sample.account sample.row (by decide) rfl rfl rfl
    (by norm_num [sample.row, sample.account])
